import Mathlib

/-!
# XGL installable-client-driver loader (`loader/loader.c`)

A shallow embedding of the loader's bookkeeping code and theorems about it.

Modelling conventions
* Linked lists are Lean lists in link order; every heap node carries the
  address it lives at (`addr`), and pointer comparison is comparison of
  addresses.
* Arrays of `XGL_BASE_LAYER_OBJECT` obtained from `malloc` live in
  `LoaderState.objMem`; a pointer into them is `Ptr.obj block offset`.
  `malloc` always succeeds and returns a fresh block, `free` records the
  address in `LoaderState.freed` and leaves the memory contents in place.
* Everything outside the loader (drivers, layer libraries, the platform
  layer) is a field of `World`; every call with an effect outside the loader
  is written to `LoaderState.trace`, and the answer of a driver may depend on
  the trace.
* `exit(1)` inside `loader_log` is the outcome `Res.exit`; undefined
  behaviour (null dereference, reading an uninitialised variable) is
  `Res.undef`. `assert` is compiled out.
-/

namespace Loader

/-! ## Values -/

/-- Result codes of `xgl.h` that the loader names, plus any other code a
driver may return. -/
inductive XGL_RESULT
  | XGL_SUCCESS
  | XGL_ERROR_OUT_OF_MEMORY
  | XGL_ERROR_INCOMPATIBLE_DRIVER
  | XGL_ERROR_INVALID_HANDLE
  | XGL_ERROR_INVALID_POINTER
  | XGL_ERROR_INVALID_VALUE
  | XGL_ERROR_UNAVAILABLE
  | other (code : Nat)
  deriving DecidableEq, Repr

/-- Message severities of `xglDbg.h` that the loader names. -/
inductive XGL_DBG_MSG_TYPE
  | XGL_DBG_MSG_UNKNOWN
  | XGL_DBG_MSG_ERROR
  | XGL_DBG_MSG_WARNING
  | other (code : Nat)
  deriving DecidableEq, Repr

/-- Global debug options of `xglDbg.h` that the loader names. -/
inductive XGL_DBG_GLOBAL_OPTION
  | XGL_DBG_OPTION_DEBUG_ECHO_ENABLE
  | XGL_DBG_OPTION_BREAK_ON_ERROR
  | XGL_DBG_OPTION_BREAK_ON_WARNING
  | other (code : Nat)
  deriving DecidableEq, Repr

/-- A code address: null, one of the loader's own two exported functions that
it stores in objects and tables, or a symbol of a loaded library. -/
inductive FnPtr
  | null
  | xglGetProcAddr
  | xglEnumerateLayers
  | sym (id : Nat)
  deriving DecidableEq, Repr

/-- A data address as far as the layer chain is concerned: null, a device
object owned by a driver, or element `off` of the `block`-th array of
`XGL_BASE_LAYER_OBJECT` handed out by `malloc`. -/
inductive Ptr
  | null
  | driver (h : Nat)
  | obj (block off : Nat)
  deriving DecidableEq, Repr

/-- Pointer arithmetic `p + i` on an array of `XGL_BASE_LAYER_OBJECT`. -/
def Ptr.add : Ptr → Nat → Ptr
  | Ptr.obj b o, i => Ptr.obj b (o + i)
  | p, _ => p

/-- The C struct `XGL_BASE_LAYER_OBJECT` of `xglLayer.h`. -/
structure XGL_BASE_LAYER_OBJECT where
  pGPA : FnPtr
  nextObject : Ptr
  baseObject : Ptr
  deriving DecidableEq, Repr

/-- The entries of `XGL_LAYER_DISPATCH_TABLE` that `loader.c` names, and the
remaining entries by entry-point name. -/
structure XGL_LAYER_DISPATCH_TABLE where
  GetProcAddr : FnPtr
  EnumerateLayers : FnPtr
  DbgRegisterMsgCallback : FnPtr
  DbgUnregisterMsgCallback : FnPtr
  DbgSetGlobalOption : FnPtr
  others : List (String × FnPtr)
  deriving DecidableEq, Repr

/-- The first machine word of a driver's device object: the magic value the
driver put there, the address of `icd->loader_dispatch + slot` of the ICD at
address `icd`, or anything else. -/
inductive Word
  | magic
  | disp (icd slot : Nat)
  | raw (n : Nat)
  deriving DecidableEq, Repr

/-- What has been handed to `free`: a list node at an address, an array of
layer objects, the array of dispatch tables of the ICD at an address, the
string `layerNames[i].layer_name`, or the node at a position of the list
`loader.msg_callbacks`. -/
inductive Alloc
  | node (a : Nat)
  | objs (p : Ptr)
  | tables (icd : Nat)
  | layer_name (i : Nat)
  | callback (pos : Nat)
  deriving DecidableEq, Repr

/-! ## The structs of `loader.c` -/

/-- The C struct `loader_layers`; a `lib_handle` of 0 is the null handle. -/
structure loader_layers where
  lib_handle : Nat
  name : String
  deriving DecidableEq, Repr

/-- The C struct `layer_name_pair`. -/
structure layer_name_pair where
  layer_name : String
  lib_name : String
  deriving DecidableEq, Repr

/-- The C struct `loader_icd`, at address `addr`. `scanned_icds` is the
address of a `loader_scanned_icds` node, `gpus` and `wrappedGpus j` are
addresses of `malloc`ed arrays, `loader_dispatch` is the `malloc`ed array of
tables itself (empty when the pointer is null); the fixed-size arrays are
functions of the index. The `next` link is the list the node is in. -/
structure loader_icd where
  addr : Nat
  scanned_icds : Nat
  loader_dispatch : List XGL_LAYER_DISPATCH_TABLE
  layer_count : Nat → Nat
  layer_libs : Nat → Nat → loader_layers
  wrappedGpus : Nat → Ptr
  gpu_count : Nat
  gpus : Ptr

/-- The C struct `loader_instance`, at address `addr`. -/
structure loader_instance where
  addr : Nat
  icds : List loader_icd

/-- The C struct `loader_msg_callback`. -/
structure loader_msg_callback where
  func : Nat
  data : Nat
  deriving DecidableEq, Repr

/-- The C struct `loader_scanned_icds`, at address `addr`; an `instance` of 0
is the null handle. -/
structure loader_scanned_icds where
  addr : Nat
  handle : Nat
  GetProcAddr : FnPtr
  CreateInstance : FnPtr
  DestroyInstance : FnPtr
  EnumerateGpus : FnPtr
  «instance» : Nat
  deriving DecidableEq, Repr

/-- The calls with an effect outside the loader, each with what it returned.
The format string of a log message stands for the formatted text; `scanned`
and `icd` are the addresses of the node through which the call was made. -/
inductive Event
  | stderr (msg : String)
  | msg_callback (func data : Nat) (msg_type : XGL_DBG_MSG_TYPE) (msg : String)
  | open_library (path : String) (handle : Nat)
  | close_library (handle : Nat)
  | CreateInstance (scanned : Nat) (fp : FnPtr) (res : XGL_RESULT) (inst : Nat)
  | DestroyInstance (scanned : Nat) (fp : FnPtr) (inst : Nat) (res : XGL_RESULT)
  | EnumerateGpus (icd : Nat) (fp : FnPtr) (inst max : Nat) (res : XGL_RESULT)
      (gpus : List Nat)
  | DbgRegisterMsgCallback (icd slot : Nat) (fp : FnPtr) (func data : Nat) (res : XGL_RESULT)
  | DbgUnregisterMsgCallback (icd slot : Nat) (fp : FnPtr) (func : Nat) (res : XGL_RESULT)
  | DbgSetGlobalOption (icd slot : Nat) (fp : FnPtr) (opt : XGL_DBG_GLOBAL_OPTION)
      (val : Bool) (res : XGL_RESULT)
  | EnumerateLayers (fp : FnPtr) (maxStringSize : Nat) (gpus : Ptr) (gpu_index : Nat)
      (res : XGL_RESULT) (names : List String)
  | DbgSetGlobalOptionN (icd slot : Nat) (fp : FnPtr) (opt : XGL_DBG_GLOBAL_OPTION)
      (dataSize : Nat) (val : Bool) (res : XGL_RESULT)
  deriving DecidableEq, Repr

/-- The static struct `loader`, together with the static array `layerNames`
of `loader_get_layer_libs`, the memory the loader reads and writes through
pointers (`objMem`, `driverHead`), the allocator (`brk`, `freed`) and the
record of outside calls (`trace`). -/
structure LoaderState where
  layerNames : Nat → layer_name_pair
  instances : List loader_instance
  icds_scanned : Bool
  scanned_icd_list : List loader_scanned_icds
  layer_scanned : Bool
  layer_dirs : Option String
  scanned_layer_names : List String
  msg_callbacks : List loader_msg_callback
  debug_echo_enable : Bool
  break_on_error : Bool
  break_on_warning : Bool
  objMem : List (List XGL_BASE_LAYER_OBJECT)
  driverHead : Nat → Word
  once_icd : Bool
  once_layer : Bool
  brk : Nat
  freed : List Alloc
  trace : List Event

/-- The static initial value of `loader`: all members zero. -/
def LoaderState.init (heads : Nat → Word) : LoaderState :=
  { layerNames := fun _ => { layer_name := "", lib_name := "" },
    instances := [], icds_scanned := false, scanned_icd_list := [],
    layer_scanned := false, layer_dirs := none, scanned_layer_names := [],
    msg_callbacks := [], once_icd := false, once_layer := false,
    debug_echo_enable := false, break_on_error := false, break_on_warning := false,
    objMem := [], driverHead := heads, brk := 1, freed := [], trace := [] }

/-- The constants of the headers and the behaviour of the code the loader
calls (the non-Windows build): drivers answer as a function of everything
that happened before; a library handle of 0 is the null handle.
`EnumerateGpus` answers with its result and the device handles it wrote to
the array, their number being the count it reports; `callGPA fp gpu name` is
what the `GetProcAddr` at address `fp` returns for `(gpu, name)`, and
`entryNames` are the entry-point names of the dispatch table other than the
five `loader.c` uses itself. The `xglEnumerateLayers` of a layer library
answers with its result and the names it wrote to the array, their number
being the count it reports; it is passed a null device, room for 16 names,
the string size `maxStringSize` and the address `gpus` plus `gpu_index`
bytes. `DbgSetGlobalOption` is the call of that entry point which the loader
makes itself, with a `bool` and its size; `DbgSetGlobalOptionN` is the call
on behalf of the application, with `dataSize` bytes of data that start with
a `bool`. -/
structure World where
  XGL_MAX_PHYSICAL_GPUS : Nat
  MAX_LAYER_LIBRARIES : Nat
  XGL_STRUCTURE_TYPE_LAYER_CREATE_INFO : Nat
  EnumerateLayers : List Event → FnPtr → Nat → Ptr → Nat → XGL_RESULT × List String
  basename : String → String
  CreateInstance : List Event → FnPtr → XGL_RESULT × Nat
  DestroyInstance : List Event → FnPtr → Nat → XGL_RESULT
  EnumerateGpus : List Event → FnPtr → Nat → Nat → XGL_RESULT × List Nat
  callGPA : FnPtr → Ptr → String → FnPtr
  entryNames : List String
  DbgRegisterMsgCallback : List Event → FnPtr → Nat → Nat → XGL_RESULT
  DbgUnregisterMsgCallback : List Event → FnPtr → Nat → XGL_RESULT
  DbgSetGlobalOption : List Event → FnPtr → XGL_DBG_GLOBAL_OPTION → Bool → XGL_RESULT
  DbgSetGlobalOptionN : List Event → FnPtr → XGL_DBG_GLOBAL_OPTION → Nat → Bool → XGL_RESULT
  open_library : List Event → String → Nat
  get_proc_address : Nat → String → FnPtr
  geteuid : Nat
  getuid : Nat
  getenv : String → Option String
  readdir : String → Option (List String)
  DRIVER_PATH_ENV : String
  LAYERS_PATH_ENV : String
  LAYER_NAMES_ENV : String
  DEFAULT_XGL_DRIVERS_PATH : String
  DEFAULT_XGL_LAYERS_PATH : String
  PATH_SEPERATOR : Char
  DIRECTORY_SYMBOL : String
  XGL_DRIVER_LIBRARY_PREFIX : String
  XGL_LAYER_LIBRARY_PREFIX : String
  XGL_LIBRARY_SUFFIX : String

/-! ## Outcomes -/

/-- How a loader function ends: it returns `a` in state `s`, the process
exits with `status`, or the behaviour is undefined. -/
inductive Res (α : Type)
  | ok (a : α) (s : LoaderState)
  | exit (status : Nat) (s : LoaderState)
  | undef

/-- Sequencing of outcomes: continue only after a return. -/
def Res.bind {α β : Type} (r : Res α) (f : α → LoaderState → Res β) : Res β :=
  match r with
  | Res.ok a s => f a s
  | Res.exit c s => Res.exit c s
  | Res.undef => Res.undef

/-- The state in which an outcome leaves the loader, if any. -/
def Res.state? {α : Type} : Res α → Option LoaderState
  | Res.ok _ s => some s
  | Res.exit _ s => some s
  | Res.undef => none

/-- The returned value of an outcome, if it is a return. -/
def Res.value? {α : Type} : Res α → Option α
  | Res.ok a _ => some a
  | _ => none

/-- The exit status of an outcome, if the process was terminated. -/
def Res.status? {α : Type} : Res α → Option Nat
  | Res.exit c _ => some c
  | _ => none

/-! ## State updates -/

/-- Append outside calls to the trace. -/
def LoaderState.emits (s : LoaderState) (es : List Event) : LoaderState :=
  { s with trace := s.trace ++ es }

/-- Append one outside call to the trace. -/
def LoaderState.emit (s : LoaderState) (e : Event) : LoaderState :=
  s.emits [e]

/-- The state after a call of `malloc`, which returned the address `s.brk`. -/
def LoaderState.alloc (s : LoaderState) : LoaderState :=
  { s with brk := s.brk + 1 }

/-- The call `free(p)`. -/
def LoaderState.free (s : LoaderState) (p : Alloc) : LoaderState :=
  { s with freed := p :: s.freed }

/-- Assign `loader.instances` (or a link of that list). -/
def LoaderState.withInstances (s : LoaderState) (l : List loader_instance) : LoaderState :=
  { s with instances := l }

/-- Assign `loader.scanned_icd_list` (or a member of one of its nodes). -/
def LoaderState.withScanned (s : LoaderState) (l : List loader_scanned_icds) : LoaderState :=
  { s with scanned_icd_list := l }

/-- Assign `loader.msg_callbacks`. -/
def LoaderState.withCallbacks (s : LoaderState) (l : List loader_msg_callback) : LoaderState :=
  { s with msg_callbacks := l }

/-- Assign the contents of the `malloc`ed arrays of layer objects. -/
def LoaderState.withObjMem (s : LoaderState) (m : List (List XGL_BASE_LAYER_OBJECT)) :
    LoaderState :=
  { s with objMem := m }

/-- Assign the contents of the static array `layerNames`. -/
def LoaderState.withLayerNames (s : LoaderState) (l : Nat → layer_name_pair) : LoaderState :=
  { s with layerNames := l }

/-- Write `w` to the first word of the driver object `h`. -/
def LoaderState.writeHead (s : LoaderState) (h : Nat) (w : Word) : LoaderState :=
  { s with driverHead := fun x => if x = h then w else s.driverHead x }

/-! ## `loader_log` -/

/-- The fan-out loop of `loader_log`: every callback once, in list order. -/
def loader_log_callbacks (msg_type : XGL_DBG_MSG_TYPE) (msg : String) :
    List loader_msg_callback → List Event
  | [] => []
  | cb :: rest => Event.msg_callback cb.func cb.data msg_type msg ::
      loader_log_callbacks msg_type msg rest

/-- What `loader_log` sends out: the message on standard error when echo is
enabled or no callback is registered, then the message to every callback. -/
def loader_log_events (msg_type : XGL_DBG_MSG_TYPE) (msg : String) (s : LoaderState) :
    List Event :=
  (if s.debug_echo_enable || s.msg_callbacks.isEmpty then [Event.stderr msg] else []) ++
    loader_log_callbacks msg_type msg s.msg_callbacks

/-- The `switch` at the end of `loader_log`: whether the process exits. -/
def loader_log_breaks (msg_type : XGL_DBG_MSG_TYPE) (s : LoaderState) : Bool :=
  match msg_type with
  | XGL_DBG_MSG_TYPE.XGL_DBG_MSG_ERROR => s.break_on_error || s.break_on_warning
  | XGL_DBG_MSG_TYPE.XGL_DBG_MSG_WARNING => s.break_on_warning
  | _ => false

/-- The C function `loader_log`. -/
def loader_log (msg_type : XGL_DBG_MSG_TYPE) (msg : String) (s : LoaderState) : Res Unit :=
  if loader_log_breaks msg_type s then Res.exit 1 (s.emits (loader_log_events msg_type msg s))
  else Res.ok () (s.emits (loader_log_events msg_type msg s))

/-! ## Scanning for drivers and layer libraries -/

/-- The directories visited by the loops `for (p = libPaths; *p; p = next)`:
the pieces between separators, a piece being visited only when something
follows the separator before it. `cur` is the piece read so far, reversed. -/
def splitDirs (sep : Char) (cur : List Char) : List Char → List (List Char)
  | [] => if cur = [] then [] else [cur.reverse]
  | c :: cs => if c = sep then cur.reverse :: splitDirs sep [] cs
      else splitDirs sep (c :: cur) cs

/-- The test both scans apply to a directory entry: it starts with the
library prefix, is longer than the suffix and ends with the suffix. -/
def is_candidate (pre suf name : String) : Bool :=
  pre.data.isPrefixOf name.data && decide (suf.data.length < name.data.length) &&
    suf.data.isSuffixOf name.data

/-- The text `snprintf(buf, 1024, "%s" DIRECTORY_SYMBOL "%s", p, name)` leaves
in `buf`. -/
def join_path (W : World) (p name : String) : String :=
  String.mk ((p.data ++ W.DIRECTORY_SYMBOL.data ++ name.data).take 1023)

/-- The four `LOOKUP`s of `loader_scanned_icd_add`: the first symbol that does
not resolve, if any. -/
def first_missing (W : World) (handle : Nat) : List String → Option String
  | [] => none
  | n :: rest => if W.get_proc_address handle n = FnPtr.null then some n
      else first_missing W handle rest

/-- The C function `loader_scanned_icd_add`. The `instance` member of the new
node, which the C code leaves as `malloc` returned it, is zero. -/
def loader_scanned_icd_add (W : World) (filename : String) (s : LoaderState) : Res Unit :=
  let handle := W.open_library s.trace filename
  let s1 := s.emit (Event.open_library filename handle)
  if handle = 0 then
    loader_log XGL_DBG_MSG_TYPE.XGL_DBG_MSG_WARNING "loader_platform_open_library_error" s1
  else
    match first_missing W handle
        ["xglGetProcAddr", "xglCreateInstance", "xglDestroyInstance", "xglEnumerateGpus"] with
    | some _ =>
        loader_log XGL_DBG_MSG_TYPE.XGL_DBG_MSG_WARNING
          "loader_platform_get_proc_address_error" s1
    | none =>
        let new_node : loader_scanned_icds :=
          { addr := s1.brk, handle := handle,
            GetProcAddr := W.get_proc_address handle "xglGetProcAddr",
            CreateInstance := W.get_proc_address handle "xglCreateInstance",
            DestroyInstance := W.get_proc_address handle "xglDestroyInstance",
            EnumerateGpus := W.get_proc_address handle "xglEnumerateGpus",
            «instance» := 0 }
        Res.ok () (s1.alloc.withScanned (new_node :: s1.scanned_icd_list))

/-- The `readdir` loop of `loader_icd_scan` over one directory `p`. -/
def loader_icd_scan_dir (W : World) (p : String) : List String → LoaderState → Res Unit
  | [], s => Res.ok () s
  | d_name :: rest, s =>
      if is_candidate W.XGL_DRIVER_LIBRARY_PREFIX W.XGL_LIBRARY_SUFFIX d_name then
        (loader_scanned_icd_add W (join_path W p d_name) s).bind fun _ s1 =>
          loader_icd_scan_dir W p rest s1
      else loader_icd_scan_dir W p rest s

/-- The pieces of a search path that the loop `for (p = libPaths; *p; p = next)`
visits, as `splitDirs` gives them, each with whether `strchr` found a
separator behind it. -/
def splitPieces (sep : Char) (cur : List Char) : List Char → List (List Char × Bool)
  | [] => if cur = [] then [] else [(cur.reverse, false)]
  | c :: cs => if c = sep then (cur.reverse, true) :: splitPieces sep [] cs
      else splitPieces sep (c :: cur) cs

/-- The loop of `loader_icd_scan` over the pieces of the search path. A piece
that a separator follows is copied into the 1024-byte `path` by
`sprintf(path, "%.*s", (len > sizeof(path) - 1) ? (int) sizeof(path) - 1 : len, p)`,
`len` being its length as a `uint32_t`; a piece that no separator follows is
used where it is. -/
def loader_icd_scan_dirs (W : World) : List (List Char × Bool) → LoaderState → Res Unit
  | [], s => Res.ok () s
  | d :: rest, s =>
      let p : String :=
        if d.2 then String.mk (d.1.take (min (d.1.length % 4294967296) 1023))
        else String.mk d.1
      match W.readdir p with
      | none => loader_icd_scan_dirs W rest s
      | some entries =>
          (loader_icd_scan_dir W p entries s).bind fun _ s1 => loader_icd_scan_dirs W rest s1

/-- The search path of a scan on a non-Windows build: the environment
variable when the effective and the real user are the same and the variable
is set, the compiled-in default otherwise. -/
def search_path (W : World) (env_var dflt : String) : String :=
  match (if W.geteuid = W.getuid then W.getenv env_var else none) with
  | some v => v
  | none => dflt

/-- The C function `loader_icd_scan`. -/
def loader_icd_scan (W : World) (s : LoaderState) : Res Unit :=
  let libPaths := search_path W W.DRIVER_PATH_ENV W.DEFAULT_XGL_DRIVERS_PATH
  (loader_icd_scan_dirs W (splitPieces W.PATH_SEPERATOR [] libPaths.data) s).bind fun _ s1 =>
    Res.ok () { s1 with icds_scanned := true }

/-- The `readdir` loop of `layer_lib_scan` over one directory `p`; it is left
by `break` when the array of names is full. -/
def layer_lib_scan_dir (W : World) (p : String) : List String → LoaderState → Res Unit
  | [], s => Res.ok () s
  | d_name :: rest, s =>
      if is_candidate W.XGL_LAYER_LIBRARY_PREFIX W.XGL_LIBRARY_SUFFIX d_name then
        let temp_str := join_path W p d_name
        let handle := W.open_library s.trace temp_str
        let s1 := s.emit (Event.open_library temp_str handle)
        if handle = 0 then layer_lib_scan_dir W p rest s1
        else if s1.scanned_layer_names.length = W.MAX_LAYER_LIBRARIES then
          loader_log XGL_DBG_MSG_TYPE.XGL_DBG_MSG_ERROR
            "%s ignored: max layer libraries exceed" s1
        else
          let s2 := { s1 with scanned_layer_names := s1.scanned_layer_names ++ [temp_str] }
          layer_lib_scan_dir W p rest (s2.emit (Event.close_library handle))
      else layer_lib_scan_dir W p rest s

/-- The loop of `layer_lib_scan` over the directories of the search path. -/
def layer_lib_scan_dirs (W : World) : List (List Char) → LoaderState → Res Unit
  | [], s => Res.ok () s
  | d :: rest, s =>
      match W.readdir (String.mk d) with
      | none => layer_lib_scan_dirs W rest s
      | some entries =>
          (layer_lib_scan_dir W (String.mk d) entries s).bind fun _ s1 =>
            layer_lib_scan_dirs W rest s1

/-- The C function `layer_lib_scan`. -/
def layer_lib_scan (W : World) (s : LoaderState) : Res Unit :=
  let libPaths := search_path W W.LAYERS_PATH_ENV W.DEFAULT_XGL_LAYERS_PATH
  let s1 := { s with layer_dirs := some libPaths, scanned_layer_names := [] }
  (layer_lib_scan_dirs W (splitDirs W.PATH_SEPERATOR [] libPaths.data) s1).bind fun _ s2 =>
    Res.ok () { s2 with layer_scanned := true }

/-! ## ICDs of an instance -/

/-- Read through a pointer to a `loader_scanned_icds`: the first node of the
scanned list at that address. -/
def LoaderState.scanned (s : LoaderState) (a : Nat) : Option loader_scanned_icds :=
  s.scanned_icd_list.find? (fun n => n.addr == a)

/-- Read through a pointer to a `loader_instance`: the first instance of the
list at that address. -/
def LoaderState.inst (s : LoaderState) (a : Nat) : Option loader_instance :=
  s.instances.find? (fun i => i.addr == a)

/-- Apply `f` to the first instance of a list that lives at address `a`. -/
def modifyInstance (a : Nat) (f : loader_instance → loader_instance) :
    List loader_instance → List loader_instance
  | [] => []
  | i :: rest => if i.addr = a then f i :: rest else i :: modifyInstance a f rest

/-- Write `v` to the `instance` member of the `k`-th node of a scanned list. -/
def setScannedInstance (v : Nat) : Nat → List loader_scanned_icds → List loader_scanned_icds
  | _, [] => []
  | 0, n :: rest => { n with «instance» := v } :: rest
  | k + 1, n :: rest => n :: setScannedInstance v k rest

/-- The C function `loader_icd_destroy`. -/
def loader_icd_destroy (icd : loader_icd) (s : LoaderState) : Res Unit :=
  match s.scanned icd.scanned_icds with
  | none => Res.undef
  | some n => Res.ok () ((s.emit (Event.close_library n.handle)).free (Alloc.node icd.addr))

/-- The C function `loader_icd_create`: a zeroed node at the address `a` that
`malloc` returned, pointing at its scanned ICD. -/
def loader_icd_create (a : Nat) (scanned : Nat) : loader_icd :=
  { addr := a, scanned_icds := scanned, loader_dispatch := [],
    layer_count := fun _ => 0, layer_libs := fun _ _ => { lib_handle := 0, name := "" },
    wrappedGpus := fun _ => Ptr.null, gpu_count := 0, gpus := Ptr.null }

/-- The C function `loader_icd_add`: prepend a new node, which is returned,
to the list of the instance at address `ptr_inst`. -/
def loader_icd_add (ptr_inst : Nat) (scanned : Nat) (s : LoaderState) :
    loader_icd × LoaderState :=
  (loader_icd_create s.brk scanned,
   s.alloc.withInstances (modifyInstance ptr_inst
      (fun i => { i with icds := loader_icd_create s.brk scanned :: i.icds }) s.instances))

/-! ## `xglCreateInstance` -/

/-- The statement `ptr_instance->icds = ptr_instance->icds->next`. -/
def unlink_head (ptr_instance : Nat) (s : LoaderState) : LoaderState :=
  s.withInstances (modifyInstance ptr_instance (fun i => { i with icds := i.icds.tail })
    s.instances)

/-- The call of the scanned `CreateInstance` in the loop of
`xglCreateInstance`, which writes the driver's handle to
`scanned_icds->instance`; `k` is the position of that node. -/
def call_CreateInstance (W : World) (k : Nat) (scanned_icds : loader_scanned_icds)
    (s : LoaderState) : XGL_RESULT × LoaderState :=
  let r := W.CreateInstance s.trace scanned_icds.CreateInstance
  (r.1, (s.emit (Event.CreateInstance scanned_icds.addr scanned_icds.CreateInstance r.1 r.2)
    ).withScanned (setScannedInstance r.2 k s.scanned_icd_list))

/-- The loop of `xglCreateInstance` over the scanned list; `k` is the position
of the node `scanned_icds` points at. -/
def xglCreateInstance_loop (W : World) (ptr_instance : Nat) :
    Nat → List loader_scanned_icds → LoaderState → Res Unit
  | _, [], s => Res.ok () s
  | k, scanned_icds :: rest, s =>
      let icd := (loader_icd_add ptr_instance scanned_icds.addr s).1
      let s1 := (loader_icd_add ptr_instance scanned_icds.addr s).2
      let res := (call_CreateInstance W k scanned_icds s1).1
      let s2 := (call_CreateInstance W k scanned_icds s1).2
      if res ≠ XGL_RESULT.XGL_SUCCESS then
        (loader_icd_destroy icd (unlink_head ptr_instance s2)).bind fun _ s4 =>
          (loader_log XGL_DBG_MSG_TYPE.XGL_DBG_MSG_WARNING
              "ICD ignored: failed to CreateInstance on device"
              (s4.withScanned (setScannedInstance 0 k s4.scanned_icd_list))).bind fun _ s6 =>
            xglCreateInstance_loop W ptr_instance (k + 1) rest s6
      else xglCreateInstance_loop W ptr_instance (k + 1) rest s2

/-- The call `loader_platform_thread_once(&once_icd, loader_icd_scan)`. -/
def once_icd_scan (W : World) (s : LoaderState) : Res Unit :=
  if s.once_icd then Res.ok () s else loader_icd_scan W { s with once_icd := true }

/-- The call `loader_platform_thread_once(&once_layer, layer_lib_scan)`. -/
def once_layer_scan (W : World) (s : LoaderState) : Res Unit :=
  if s.once_layer then Res.ok () s else layer_lib_scan W { s with once_layer := true }

/-- The value `xglCreateInstance` returns, with what it wrote to `*pInstance`
(nothing on failure). -/
structure CreateInstanceResult where
  result : XGL_RESULT
  pInstance : Option Nat
  deriving DecidableEq, Repr

/-- The part of `xglCreateInstance` after the two one-time scans. -/
def xglCreateInstance_body (W : World) (s : LoaderState) : Res CreateInstanceResult :=
  let ptr_instance := s.brk
  let s1 := s.alloc.withInstances ({ addr := ptr_instance, icds := [] } :: s.instances)
  (xglCreateInstance_loop W ptr_instance 0 s1.scanned_icd_list s1).bind fun _ s2 =>
  match s2.inst ptr_instance with
  | none => Res.undef
  | some inst =>
      if inst.icds.isEmpty then
        Res.ok { result := XGL_RESULT.XGL_ERROR_INCOMPATIBLE_DRIVER, pInstance := none } s2
      else Res.ok { result := XGL_RESULT.XGL_SUCCESS, pInstance := some ptr_instance } s2

/-- The C function `xglCreateInstance`. -/
def xglCreateInstance (W : World) (s : LoaderState) : Res CreateInstanceResult :=
  (once_icd_scan W s).bind fun _ s1 =>
  (once_layer_scan W s1).bind fun _ s2 =>
  xglCreateInstance_body W s2

/-! ## `xglDestroyInstance` -/

/-- The loop of `loader_deactivate_layer` over the layer libraries
`layer_libs[j][i]` of one device slot, for the indices `i` listed. -/
def loader_deactivate_libs (j : Nat) : List Nat → loader_icd → LoaderState →
    loader_icd × LoaderState
  | [], icd, s => (icd, s)
  | i :: rest, icd, s =>
      let libs := icd.layer_libs j i
      let s1 := if libs.lib_handle ≠ 0 then s.emit (Event.close_library libs.lib_handle) else s
      let icd1 := { icd with
        layer_libs := fun j' i' =>
          if j' = j ∧ i' = i then { libs with lib_handle := 0 } else icd.layer_libs j' i' }
      loader_deactivate_libs j rest icd1 s1

/-- The loop of `loader_deactivate_layer` over the device slots `j` listed. -/
def loader_deactivate_slots : List Nat → loader_icd → LoaderState → loader_icd × LoaderState
  | [], icd, s => (icd, s)
  | j :: rest, icd, s =>
      let r :=
        if 0 < icd.layer_count j then
          let r1 := loader_deactivate_libs j (List.range (icd.layer_count j)) icd s
          (r1.1, if icd.wrappedGpus j ≠ Ptr.null then r1.2.free (Alloc.objs (icd.wrappedGpus j))
            else r1.2)
        else (icd, s)
      loader_deactivate_slots rest
        { r.1 with layer_count := fun j' => if j' = j then 0 else r.1.layer_count j' } r.2

/-- The body of the loop of `loader_deactivate_layer` for one ICD. -/
def loader_deactivate_icd (icd : loader_icd) (s : LoaderState) : loader_icd × LoaderState :=
  let s1 := if icd.gpus ≠ Ptr.null then s.free (Alloc.objs icd.gpus) else s
  let s2 := if icd.loader_dispatch ≠ [] then s1.free (Alloc.tables icd.addr) else s1
  let r := loader_deactivate_slots (List.range icd.gpu_count)
    { icd with gpus := Ptr.null, loader_dispatch := [] } s2
  ({ r.1 with gpu_count := 0 }, r.2)

/-- The loop of `loader_deactivate_layer` over the ICDs of the instance. -/
def loader_deactivate_icds : List loader_icd → LoaderState → List loader_icd × LoaderState
  | [], s => ([], s)
  | icd :: rest, s =>
      let r := loader_deactivate_icd icd s
      let r2 := loader_deactivate_icds rest r.2
      (r.1 :: r2.1, r2.2)

/-- The C function `loader_deactivate_layer`, on an instance that is no
longer in the instance list. -/
def loader_deactivate_layer («instance» : loader_instance) (s : LoaderState) :
    loader_instance × LoaderState :=
  let r := loader_deactivate_icds «instance».icds s
  ({ «instance» with icds := r.1 }, r.2)

/-- The search of `xglDestroyInstance` for the node at address `ptr_instance`:
the node found and the list without it, or nothing when no node is at that
address. -/
def unlink_instance (ptr_instance : Nat) :
    List loader_instance → Option (loader_instance × List loader_instance)
  | [] => none
  | next :: rest =>
      if next.addr = ptr_instance then some (next, rest)
      else match unlink_instance ptr_instance rest with
        | none => none
        | some (found, rest') => some (found, next :: rest')

/-- The loop of `xglDestroyInstance` over the scanned list; `k` is the
position of the node `scanned_icds` points at and `res` the current value of
the local variable `res`. -/
def xglDestroyInstance_loop (W : World) :
    Nat → List loader_scanned_icds → XGL_RESULT → LoaderState → Res Unit
  | _, [], _, s => Res.ok () s
  | k, scanned_icds :: rest, res, s =>
      let res1 :=
        if scanned_icds.«instance» ≠ 0 then
          W.DestroyInstance s.trace scanned_icds.DestroyInstance scanned_icds.«instance»
        else res
      let s1 :=
        if scanned_icds.«instance» ≠ 0 then
          s.emit (Event.DestroyInstance scanned_icds.addr scanned_icds.DestroyInstance
            scanned_icds.«instance» res1)
        else s
      (if res1 ≠ XGL_RESULT.XGL_SUCCESS then
          loader_log XGL_DBG_MSG_TYPE.XGL_DBG_MSG_WARNING
            "ICD ignored: failed to DestroyInstance on device" s1
        else Res.ok () s1).bind fun _ s2 =>
      xglDestroyInstance_loop W (k + 1) rest res1
        (s2.withScanned (setScannedInstance 0 k s2.scanned_icd_list))

/-- The C function `xglDestroyInstance`. `res0` is the indeterminate value the
local variable `res` has before its first assignment. -/
def xglDestroyInstance (W : World) («instance» : Nat) (res0 : XGL_RESULT) (s : LoaderState) :
    Res XGL_RESULT :=
  match unlink_instance «instance» s.instances with
  | none => Res.ok XGL_RESULT.XGL_ERROR_INVALID_HANDLE s
  | some (ptr_instance, rest) =>
      let s1 := (loader_deactivate_layer ptr_instance (s.withInstances rest)).2
      (xglDestroyInstance_loop W 0 s1.scanned_icd_list res0 s1).bind fun _ s2 =>
      Res.ok XGL_RESULT.XGL_SUCCESS (s2.free (Alloc.node ptr_instance.addr))

/-! ## `xglEnumerateGpus` -/

/-- Arithmetic of `uint32_t`: subtraction. -/
def u32sub (a b : Nat) : Nat := (a % 4294967296 + 4294967296 - b % 4294967296) % 4294967296

/-- Arithmetic of `uint32_t`: addition. -/
def u32add (a b : Nat) : Nat := (a + b) % 4294967296

/-- Modelled from the spec: `loader_initialize_dispatch_table` of
`table_ops.h`, which is not among the sources; for each entry-point name of
the table it stores `gpa(gpu, name)`. -/
def loader_initialize_dispatch_table (W : World) (fpGPA : FnPtr) (gpu : Ptr) :
    XGL_LAYER_DISPATCH_TABLE :=
  { GetProcAddr := W.callGPA fpGPA gpu "xglGetProcAddr",
    EnumerateLayers := W.callGPA fpGPA gpu "xglEnumerateLayers",
    DbgRegisterMsgCallback := W.callGPA fpGPA gpu "xglDbgRegisterMsgCallback",
    DbgUnregisterMsgCallback := W.callGPA fpGPA gpu "xglDbgUnregisterMsgCallback",
    DbgSetGlobalOption := W.callGPA fpGPA gpu "xglDbgSetGlobalOption",
    others := W.entryNames.map fun n => (n, W.callGPA fpGPA gpu n) }

/-- The C function `loader_init_dispatch_table`: the table it leaves in
`*tab`. -/
def loader_init_dispatch_table (W : World) (fpGPA : FnPtr) (gpu : Ptr) :
    XGL_LAYER_DISPATCH_TABLE :=
  let tab := loader_initialize_dispatch_table W fpGPA gpu
  if tab.EnumerateLayers = FnPtr.null then
    { tab with EnumerateLayers := FnPtr.xglEnumerateLayers }
  else tab

/-- The function pointer `(icd->loader_dispatch + i)->member` as a callee:
nothing when the table is not there or the pointer is null. -/
def dispatch_entry (icd : loader_icd) (i : Nat) (member : XGL_LAYER_DISPATCH_TABLE → FnPtr) :
    Option FnPtr :=
  match icd.loader_dispatch[i]? with
  | none => none
  | some tab => if member tab = FnPtr.null then none else some (member tab)

/-- The loop of the macro `SETB` in `loader_icd_set_global_options` over the
device slots listed: it returns the first result that is not success, and
success when there is none. The value passed is `true`, its size 1. -/
def SETB (W : World) (icd : loader_icd) (opt : XGL_DBG_GLOBAL_OPTION) :
    List Nat → LoaderState → Res XGL_RESULT
  | [], s => Res.ok XGL_RESULT.XGL_SUCCESS s
  | i :: rest, s =>
      match dispatch_entry icd i (fun tab => tab.DbgSetGlobalOption) with
      | none => Res.undef
      | some fp =>
          let res := W.DbgSetGlobalOption s.trace fp opt true
          let s1 := s.emit (Event.DbgSetGlobalOption icd.addr i fp opt true res)
          if res ≠ XGL_RESULT.XGL_SUCCESS then Res.ok res s1 else SETB W icd opt rest s1

/-- One use of the macro `SETB`: nothing happens when `val` is false. -/
def SETB_if (W : World) (icd : loader_icd) (opt : XGL_DBG_GLOBAL_OPTION) (val : Bool)
    (s : LoaderState) : Res XGL_RESULT :=
  if val then SETB W icd opt (List.range icd.gpu_count) s
  else Res.ok XGL_RESULT.XGL_SUCCESS s

/-- The C function `loader_icd_set_global_options`. -/
def loader_icd_set_global_options (W : World) (icd : loader_icd) (s : LoaderState) :
    Res XGL_RESULT :=
  (SETB_if W icd XGL_DBG_GLOBAL_OPTION.XGL_DBG_OPTION_DEBUG_ECHO_ENABLE s.debug_echo_enable s
    ).bind fun r1 s1 =>
  if r1 ≠ XGL_RESULT.XGL_SUCCESS then Res.ok r1 s1 else
  (SETB_if W icd XGL_DBG_GLOBAL_OPTION.XGL_DBG_OPTION_BREAK_ON_ERROR s1.break_on_error s1
    ).bind fun r2 s2 =>
  if r2 ≠ XGL_RESULT.XGL_SUCCESS then Res.ok r2 s2 else
  SETB_if W icd XGL_DBG_GLOBAL_OPTION.XGL_DBG_OPTION_BREAK_ON_WARNING s2.break_on_warning s2

/-- The `for` loop of `loader_icd_register_msg_callbacks` for one callback
over the device slots listed; it is left by `break` at the first result that
is not success. The value is that of the local variable `res` afterwards. -/
def register_slots (W : World) (icd : loader_icd) (cb : loader_msg_callback) :
    List Nat → XGL_RESULT → LoaderState → Res XGL_RESULT
  | [], res, s => Res.ok res s
  | i :: rest, _, s =>
      match dispatch_entry icd i (fun tab => tab.DbgRegisterMsgCallback) with
      | none => Res.undef
      | some fp =>
          let res := W.DbgRegisterMsgCallback s.trace fp cb.func cb.data
          let s1 := s.emit (Event.DbgRegisterMsgCallback icd.addr i fp cb.func cb.data res)
          if res ≠ XGL_RESULT.XGL_SUCCESS then Res.ok res s1
          else register_slots W icd cb rest res s1

/-- The `while (cb)` loop of `loader_icd_register_msg_callbacks`: the `break`
of the inner loop does not leave it, so it ends only when `cb` is null. The
value is the list `cb` points at afterwards, which is empty, and `res`. -/
def register_while (W : World) (icd : loader_icd) :
    List loader_msg_callback → XGL_RESULT → LoaderState →
      Res (List loader_msg_callback × XGL_RESULT)
  | [], res, s => Res.ok ([], res) s
  | cb :: rest, res, s =>
      (register_slots W icd cb (List.range icd.gpu_count) res s).bind fun res1 s1 =>
        register_while W icd rest res1 s1

/-- The inner loop of the roll-back of `loader_icd_register_msg_callbacks`:
`DbgUnregisterMsgCallback(cb->func)` on the device slots listed. -/
def unregister_slots (W : World) (icd : loader_icd) (func : Nat) :
    List Nat → LoaderState → Res Unit
  | [], s => Res.ok () s
  | i :: rest, s =>
      match dispatch_entry icd i (fun tab => tab.DbgUnregisterMsgCallback) with
      | none => Res.undef
      | some fp =>
          let res := W.DbgUnregisterMsgCallback s.trace fp func
          unregister_slots W icd func rest
            (s.emit (Event.DbgUnregisterMsgCallback icd.addr i fp func res))

/-- The roll-back loop `while (tmp != cb)` of
`loader_icd_register_msg_callbacks`, `n` being the number of nodes between
`tmp` and `cb`. -/
def register_rollback (W : World) (icd : loader_icd) (func : Nat) :
    Nat → LoaderState → Res Unit
  | 0, s => Res.ok () s
  | n + 1, s =>
      (unregister_slots W icd func (List.range icd.gpu_count) s).bind fun _ s1 =>
        register_rollback W icd func n s1

/-- The C function `loader_icd_register_msg_callbacks`; `res0` is the
indeterminate value the local variable `res` has before its first
assignment. -/
def loader_icd_register_msg_callbacks (W : World) (icd : loader_icd) (res0 : XGL_RESULT)
    (s : LoaderState) : Res XGL_RESULT :=
  (register_while W icd s.msg_callbacks res0 s).bind fun r s1 =>
    match r.1 with
    | [] => Res.ok XGL_RESULT.XGL_SUCCESS s1
    | cb :: rest =>
        (register_rollback W icd cb.func (s1.msg_callbacks.length - (cb :: rest).length) s1
          ).bind fun _ s2 => Res.ok r.2 s2

/-- Write `v` to element `o` of the array `b` of layer objects. -/
def writeObj (m : List (List XGL_BASE_LAYER_OBJECT)) (b o : Nat) (v : XGL_BASE_LAYER_OBJECT) :
    List (List XGL_BASE_LAYER_OBJECT) :=
  m.set b ((m.getD b []).set o v)

/-- Read through a pointer to an `XGL_BASE_LAYER_OBJECT`. -/
def LoaderState.obj (s : LoaderState) : Ptr → Option XGL_BASE_LAYER_OBJECT
  | Ptr.obj b o => (s.objMem.getD b [])[o]?
  | _ => none

/-- Store `icd` as the `k`-th ICD of the first instance at address
`ptr_instance`. -/
def LoaderState.setIcd (s : LoaderState) (ptr_instance k : Nat) (icd : loader_icd) :
    LoaderState :=
  s.withInstances (modifyInstance ptr_instance (fun i => { i with icds := i.icds.set k icd })
    s.instances)

/-- The value of zero-filled memory as a layer object. -/
def XGL_BASE_LAYER_OBJECT.zero : XGL_BASE_LAYER_OBJECT :=
  { pGPA := FnPtr.null, nextObject := Ptr.null, baseObject := Ptr.null }

/-- The value of zero-filled memory as a dispatch table. -/
def XGL_LAYER_DISPATCH_TABLE.zero : XGL_LAYER_DISPATCH_TABLE :=
  { GetProcAddr := FnPtr.null, EnumerateLayers := FnPtr.null,
    DbgRegisterMsgCallback := FnPtr.null, DbgUnregisterMsgCallback := FnPtr.null,
    DbgSetGlobalOption := FnPtr.null, others := [] }

/-- The loop `for (i = 0; i < n; i++)` of `xglEnumerateGpus` over the devices
`gpus[i], gpus[i+1], ...` the driver returned. `icd` is the current content
of the `k`-th ICD of the instance, `block` the array `wrapped_gpus`, `count`
the number of devices returned before this ICD and `writes` the assignments
to the caller's array `pGpus` so far, as pairs of index and value. -/
def bind_gpus (W : World) (ptr_instance k : Nat) (get_proc_addr : FnPtr) (block count : Nat) :
    Nat → List Nat → loader_icd → List (Nat × Ptr) → LoaderState →
      Res (loader_icd × List (Nat × Ptr))
  | _, [], icd, writes, s => Res.ok (icd, writes) s
  | i, g :: rest, icd, writes, s =>
      let s1 := s.withObjMem (writeObj s.objMem block i
        { baseObject := Ptr.driver g, pGPA := get_proc_addr, nextObject := Ptr.driver g })
      let writes1 := writes ++ [(count, Ptr.obj block 0)]
      let icd1 := { icd with
        loader_dispatch := icd.loader_dispatch.set i
          (loader_init_dispatch_table W get_proc_addr (Ptr.driver g)) }
      let s2 := s1.setIcd ptr_instance k icd1
      (if s2.driverHead g ≠ Word.magic then
          loader_log XGL_DBG_MSG_TYPE.XGL_DBG_MSG_WARNING
            "Loader: Incompatible ICD, first dword must be initialized to ICD_LOADER_MAGIC. See loader/README.md for details.\n"
            s2
        else Res.ok () s2).bind fun _ s3 =>
      bind_gpus W ptr_instance k get_proc_addr block count (i + 1) rest icd1 writes1
        (s3.writeHead g (Word.disp icd.addr i))

/-- The migration of the loader's debug settings to an ICD in
`xglEnumerateGpus`: whether the condition
`loader_icd_set_global_options(icd) != XGL_SUCCESS ||
 loader_icd_register_msg_callbacks(icd) != XGL_SUCCESS` holds. -/
def migrate_failed (W : World) (icd : loader_icd) (res0 : XGL_RESULT) (s : LoaderState) :
    Res Bool :=
  (loader_icd_set_global_options W icd s).bind fun r1 s1 =>
  if r1 ≠ XGL_RESULT.XGL_SUCCESS then Res.ok true s1 else
  (loader_icd_register_msg_callbacks W icd res0 s1).bind fun r2 s2 =>
  Res.ok (decide (r2 ≠ XGL_RESULT.XGL_SUCCESS)) s2

/-- What `xglEnumerateGpus` hands back: the value returned, the value written
to `*pGpuCount` and the assignments to `pGpus`, as pairs of index and value
in the order they were made. -/
structure EnumerateGpusResult where
  result : XGL_RESULT
  pGpuCount : Nat
  pGpus : List (Nat × Ptr)
  deriving DecidableEq, Repr

/-- The loop `while (icd)` of `xglEnumerateGpus`; `k` is the position of `icd`
in the list of the instance, `count` and `res` are the local variables and
`writes` the assignments to `pGpus` so far. -/
def xglEnumerateGpus_loop (W : World) (ptr_instance maxGpus : Nat) (res0 : XGL_RESULT) :
    Nat → List loader_icd → Nat → XGL_RESULT → List (Nat × Ptr) → LoaderState →
      Res EnumerateGpusResult
  | _, [], count, res, writes, s =>
      Res.ok { result := res, pGpuCount := count, pGpus := writes } s
  | k, icd :: rest, count, _, writes, s =>
      match s.scanned icd.scanned_icds with
      | none => Res.undef
      | some scanned_icds =>
          let max := min (u32sub maxGpus count) W.XGL_MAX_PHYSICAL_GPUS
          let r := W.EnumerateGpus s.trace scanned_icds.EnumerateGpus
            scanned_icds.«instance» max
          let s1 := s.emit (Event.EnumerateGpus icd.addr scanned_icds.EnumerateGpus
            scanned_icds.«instance» max r.1 r.2)
          if r.1 = XGL_RESULT.XGL_SUCCESS ∧ r.2.length ≠ 0 then
            let block := s1.objMem.length
            let icd1 := { icd with
              gpus := Ptr.obj block 0, gpu_count := r.2.length,
              loader_dispatch := List.replicate r.2.length XGL_LAYER_DISPATCH_TABLE.zero }
            let s2 := (s1.withObjMem (s1.objMem ++
              [List.replicate r.2.length XGL_BASE_LAYER_OBJECT.zero])).setIcd ptr_instance k icd1
            (bind_gpus W ptr_instance k scanned_icds.GetProcAddr block count 0 r.2 icd1
              writes s2).bind fun b s3 =>
            (migrate_failed W b.1 res0 s3).bind fun failed s4 =>
            (if failed then
                (loader_log XGL_DBG_MSG_TYPE.XGL_DBG_MSG_WARNING
                  "ICD ignored: failed to migrate settings" s4).bind fun _ s5 =>
                loader_icd_destroy b.1 s5
              else Res.ok () s4).bind fun _ s6 =>
            if maxGpus ≤ u32add count r.2.length then
              Res.ok { result := r.1, pGpuCount := u32add count r.2.length, pGpus := b.2 } s6
            else
              xglEnumerateGpus_loop W ptr_instance maxGpus res0 (k + 1) rest
                (u32add count r.2.length) r.1 b.2 s6
          else
            xglEnumerateGpus_loop W ptr_instance maxGpus res0 (k + 1) rest count r.1 writes s1

/-- The C function `loader_msg_callback_clear`. -/
def loader_msg_callback_clear (s : LoaderState) : LoaderState :=
  s.withCallbacks []

/-- The C function `xglEnumerateGpus`. `maxGpus` is a `uint32_t`, and `res0`
is the indeterminate value the local variables `res` have before their first
assignment. -/
def xglEnumerateGpus (W : World) («instance» maxGpus : Nat) (res0 : XGL_RESULT)
    (s : LoaderState) : Res EnumerateGpusResult :=
  match s.inst «instance» with
  | none => Res.undef
  | some ptr_instance =>
      (xglEnumerateGpus_loop W «instance» (maxGpus % 4294967296) res0 0 ptr_instance.icds 0
        res0 [] s).bind fun r s1 =>
      Res.ok { r with
        result := if 0 < r.pGpuCount then XGL_RESULT.XGL_SUCCESS else r.result }
        (loader_msg_callback_clear s1)

/-! ## `xglDbgRegisterMsgCallback` -/

/-- The C function `loader_msg_callback_add`: the new node goes to the head
of the list. -/
def loader_msg_callback_add (func data : Nat) (s : LoaderState) : Res XGL_RESULT :=
  Res.ok XGL_RESULT.XGL_SUCCESS
    (s.alloc.withCallbacks ({ func := func, data := data } :: s.msg_callbacks))

/-- The innermost loop of `xglDbgRegisterMsgCallback` over the device slots
listed, left by `break` at the first result that is not success; the value
is the pair of the local variables `res` and `gpu_idx` afterwards. -/
def dbg_register_slots (W : World) (func data : Nat) (icd : loader_icd) :
    List Nat → XGL_RESULT × Nat → LoaderState → Res (XGL_RESULT × Nat)
  | [], l, s => Res.ok l s
  | i :: rest, l, s =>
      match dispatch_entry icd i (fun tab => tab.DbgRegisterMsgCallback) with
      | none => Res.undef
      | some fp =>
          let res := W.DbgRegisterMsgCallback s.trace fp func data
          let s1 := s.emit (Event.DbgRegisterMsgCallback icd.addr i fp func data res)
          if res ≠ XGL_RESULT.XGL_SUCCESS then Res.ok (res, i) s1
          else dbg_register_slots W func data icd rest (res, l.2) s1

/-- The loop of `xglDbgRegisterMsgCallback` over the ICDs of one instance,
left by `break` when `res` is not success after the slots of an ICD; the
value is the local variable `icd` afterwards, null when the list was
exhausted, with `res` and `gpu_idx`. -/
def dbg_register_icds (W : World) (func data : Nat) :
    List loader_icd → XGL_RESULT × Nat → LoaderState →
      Res (Option loader_icd × XGL_RESULT × Nat)
  | [], l, s => Res.ok (none, l) s
  | icd :: rest, l, s =>
      (dbg_register_slots W func data icd (List.range icd.gpu_count) l s).bind fun l1 s1 =>
        if l1.1 ≠ XGL_RESULT.XGL_SUCCESS then Res.ok (some icd, l1) s1
        else dbg_register_icds W func data rest l1 s1

/-- The loop of `xglDbgRegisterMsgCallback` over the instances, left by
`break` when `res` is not success after the ICDs of an instance; the value is
the local variables `inst`, `icd`, `res` and `gpu_idx` afterwards. -/
def dbg_register_insts (W : World) (func data : Nat) :
    List loader_instance → Option loader_icd → XGL_RESULT × Nat → LoaderState →
      Res (Option loader_instance × Option loader_icd × XGL_RESULT × Nat)
  | [], icd, l, s => Res.ok (none, icd, l) s
  | inst :: rest, _, l, s =>
      (dbg_register_icds W func data inst.icds l s).bind fun r s1 =>
        if r.2.1 ≠ XGL_RESULT.XGL_SUCCESS then Res.ok (some inst, r.1, r.2) s1
        else dbg_register_insts W func data rest r.1 r.2 s1

/-- The roll-back loop `for (tmp = tmp_inst->icds; tmp != icd; tmp = tmp->next)`
of `xglDbgRegisterMsgCallback`: it unregisters on the tables of `tmp` for the
slots `i < icd->gpu_count`, and it dereferences a null `tmp` when `icd` is
not in the list. -/
def dbg_rollback_icds (W : World) (func : Nat) (icd : loader_icd) :
    List loader_icd → LoaderState → Res Unit
  | [], _ => Res.undef
  | tmp :: rest, s =>
      if tmp.addr = icd.addr then Res.ok () s
      else (unregister_slots W tmp func (List.range icd.gpu_count) s).bind fun _ s1 =>
        dbg_rollback_icds W func icd rest s1

/-- The roll-back loop `for (tmp_inst = loader.instances; tmp_inst != inst;
tmp_inst = tmp_inst->next)` of `xglDbgRegisterMsgCallback`; `inst` is an
address, or nothing for null. -/
def dbg_rollback_insts (W : World) (func : Nat) (inst : Option Nat) (icd : loader_icd) :
    List loader_instance → LoaderState → Res Unit
  | [], s => if inst = none then Res.ok () s else Res.undef
  | tmp_inst :: rest, s =>
      if some tmp_inst.addr = inst then Res.ok () s
      else (dbg_rollback_icds W func icd tmp_inst.icds s).bind fun _ s1 =>
        dbg_rollback_insts W func inst icd rest s1

/-- The C function `xglDbgRegisterMsgCallback`. `res0`, `gpu_idx0` and `icd0`
are the indeterminate values the local variables `res`, `gpu_idx` and `icd`
have before their first assignment, `icd0` being null or the address of
something that reads as an ICD. -/
def xglDbgRegisterMsgCallback (W : World) (pfnMsgCallback pUserData : Nat)
    (res0 : XGL_RESULT) (gpu_idx0 : Nat) (icd0 : Option loader_icd) (s : LoaderState) :
    Res XGL_RESULT :=
  if !s.icds_scanned then loader_msg_callback_add pfnMsgCallback pUserData s
  else
    (dbg_register_insts W pfnMsgCallback pUserData s.instances icd0 (res0, gpu_idx0) s
      ).bind fun r s1 =>
    match r.2.1 with
    | none => Res.ok XGL_RESULT.XGL_SUCCESS s1
    | some icd =>
        (dbg_rollback_insts W pfnMsgCallback (r.1.map fun i => i.addr) icd s1.instances s1
          ).bind fun _ s2 =>
        (unregister_slots W icd pfnMsgCallback (List.range r.2.2.2) s2).bind fun _ s3 =>
        Res.ok r.2.2.1 s3

/-! ## `loader_activate_layers` -/

/-- The C struct `XGL_LAYER_CREATE_INFO`, which is also how the loader reads
every link of a `pNext` chain; `ppActiveLayerNames` lists the strings of the
array the member points at, and reading behind its end is undefined. -/
structure XGL_LAYER_CREATE_INFO where
  sType : Nat
  layerCount : Nat
  ppActiveLayerNames : List String
  deriving DecidableEq, Repr

/-- The C struct `XGL_DEVICE_CREATE_INFO` as far as the loader reads it: the
links of its `pNext` chain, in order. -/
structure XGL_DEVICE_CREATE_INFO where
  pNext : List XGL_LAYER_CREATE_INFO
  deriving DecidableEq, Repr

/-- Read the `k`-th ICD of the `p`-th instance. -/
def LoaderState.icdAt (s : LoaderState) (p k : Nat) : Option loader_icd :=
  match s.instances[p]? with
  | none => none
  | some inst => inst.icds[k]?

/-- Store `icd` as the `k`-th ICD of the `p`-th instance. -/
def LoaderState.putIcd (s : LoaderState) (p k : Nat) (icd : loader_icd) : LoaderState :=
  match s.instances[p]? with
  | none => s
  | some inst => s.withInstances (s.instances.set p { inst with icds := inst.icds.set k icd })

/-- Assign through a pointer to an `XGL_BASE_LAYER_OBJECT`: the members of the
object become those of `f` applied to it. -/
def store_obj (ptr : Ptr) (f : XGL_BASE_LAYER_OBJECT → XGL_BASE_LAYER_OBJECT)
    (s : LoaderState) : Res Unit :=
  match ptr with
  | Ptr.obj b o =>
      match s.obj (Ptr.obj b o) with
      | none => Res.undef
      | some v => Res.ok () (s.withObjMem (writeObj s.objMem b o (f v)))
  | _ => Res.undef

/-- What `loader_get_icd` returns when it finds the device: the ICD, as the
positions of its instance and of the ICD in the list of that instance with
its content, and what it writes to `*gpu_index`. -/
structure icd_ref where
  inst : Nat
  pos : Nat
  gpu_index : Nat
  icd : loader_icd

/-- The innermost loop of `loader_get_icd` over the device slots listed: the
slot found, if any; nothing at all when one of the two objects compared
cannot be read. -/
def loader_get_icd_slots (s : LoaderState) (gpu : Ptr) (icd : loader_icd) :
    List Nat → Option (Option Nat)
  | [] => some none
  | i :: rest =>
      if icd.gpus.add i = gpu then some (some i)
      else
        match s.obj (icd.gpus.add i), s.obj gpu with
        | some a, some g =>
            if a.baseObject = g.baseObject then some (some i)
            else loader_get_icd_slots s gpu icd rest
        | _, _ => none

/-- The loop of `loader_get_icd` over the ICDs of the `p`-th instance; `k` is
the position of the first ICD listed. -/
def loader_get_icd_icds (s : LoaderState) (gpu : Ptr) (p : Nat) :
    Nat → List loader_icd → Option (Option icd_ref)
  | _, [] => some none
  | k, icd :: rest =>
      match loader_get_icd_slots s gpu icd (List.range icd.gpu_count) with
      | none => none
      | some (some i) => some (some { inst := p, pos := k, gpu_index := i, icd := icd })
      | some none => loader_get_icd_icds s gpu p (k + 1) rest

/-- The loop of `loader_get_icd` over the instances; `p` is the position of
the first instance listed. -/
def loader_get_icd_insts (s : LoaderState) (gpu : Ptr) :
    Nat → List loader_instance → Option (Option icd_ref)
  | _, [] => some none
  | p, inst :: rest =>
      match loader_get_icd_icds s gpu p 0 inst.icds with
      | none => none
      | some (some r) => some (some r)
      | some none => loader_get_icd_insts s gpu (p + 1) rest

/-- The C function `loader_get_icd`: the device found, if any; nothing at all
when the behaviour is undefined. -/
def loader_get_icd (gpu : Ptr) (s : LoaderState) : Option (Option icd_ref) :=
  loader_get_icd_insts s gpu 0 s.instances

/-- The C function `loader_layers_activated`. -/
def loader_layers_activated (icd : loader_icd) (gpu_index : Nat) : Bool :=
  decide (icd.layer_count gpu_index ≠ 0)

/-- The text `snprintf(lib_str, strlen(lib_name) + strlen(layer_name),
XGL_DRIVER_LIBRARY_PREFIX "%s" XGL_LIBRARY_SUFFIX, layer_name)` leaves in
`lib_str` in `find_layer_name`, the size being at least 1. -/
def default_lib_str (W : World) (lib_name layer_name : String) : String :=
  String.mk ((W.XGL_DRIVER_LIBRARY_PREFIX.data ++ layer_name.data ++
    W.XGL_LIBRARY_SUFFIX.data).take (lib_name.data.length + layer_name.data.length - 1))

/-- The C function `find_layer_name`, as its loop over the scanned layer
libraries listed: what it leaves in `*lib_name` when it returns true, nothing
when it returns false. With a size of 0 `snprintf` writes nothing and
`strcmp` reads what `malloc` returned; more than 16 names read from the
array `layers` is a read behind its end. -/
def find_layer_name (W : World) (icd : loader_icd) (gpu_index : Nat) (layer_name : String) :
    List String → LoaderState → Res (Option String)
  | [], s => Res.ok none s
  | lib_name :: rest, s =>
      let handle := W.open_library s.trace lib_name
      let s1 := s.emit (Event.open_library lib_name handle)
      if handle = 0 then find_layer_name W icd gpu_index layer_name rest s1
      else if W.get_proc_address handle "xglEnumerateLayers" = FnPtr.null then
        if lib_name.data.length + layer_name.data.length = 0 then Res.undef
        else if lib_name = default_lib_str W lib_name layer_name then
          Res.ok (some lib_name) (s1.emit (Event.close_library handle))
        else
          find_layer_name W icd gpu_index layer_name rest (s1.emit (Event.close_library handle))
      else
        let fp := W.get_proc_address handle "xglEnumerateLayers"
        let r := W.EnumerateLayers s1.trace fp 256 icd.gpus gpu_index
        let names := r.2
        let s2 := s1.emit (Event.EnumerateLayers fp 256 icd.gpus gpu_index r.1 r.2)
        if layer_name ∈ names.take 16 then
          Res.ok (some lib_name) (s2.emit (Event.close_library handle))
        else if 16 < names.length then Res.undef
        else
          find_layer_name W icd gpu_index layer_name rest (s2.emit (Event.close_library handle))

/-- Assign `layerNames[i]`. -/
def LoaderState.setLayerName (s : LoaderState) (i : Nat) (v : layer_name_pair) : LoaderState :=
  s.withLayerNames (fun j => if j = i then v else s.layerNames j)

/-- The loop `while (p && *p && count < MAX_LAYER_LIBRARIES)` of
`loader_get_layer_env` over the pieces of the environment value that are
left; `count` is the local variable. -/
def loader_get_layer_env_loop (W : World) (icd : loader_icd) (gpu_index : Nat) :
    List (List Char) → Nat → LoaderState → Res Nat
  | [], count, s => Res.ok count s
  | piece :: rest, count, s =>
      if W.MAX_LAYER_LIBRARIES ≤ count then Res.ok count s
      else
        let name := W.basename (String.mk piece)
        (find_layer_name W icd gpu_index name s.scanned_layer_names s).bind fun r s1 =>
          match r with
          | none => loader_get_layer_env_loop W icd gpu_index rest count s1
          | some lib_name =>
              loader_get_layer_env_loop W icd gpu_index rest (count + 1)
                (s1.setLayerName count { layer_name := name, lib_name := lib_name })

/-- The C function `loader_get_layer_env` (the non-Windows build), called with
the static array `layerNames` as `pLayerNames`. -/
def loader_get_layer_env (W : World) (icd : loader_icd) (gpu_index : Nat) (s : LoaderState) :
    Res Nat :=
  match W.getenv W.LAYER_NAMES_ENV with
  | none => Res.ok 0 s
  | some layerEnv =>
      loader_get_layer_env_loop W icd gpu_index (splitDirs W.PATH_SEPERATOR [] layerEnv.data) 0 s

/-- The loop `for (i = env_layer_count; i < env_layer_count + pCi->layerCount; i++)`
of `loader_get_layer_libs` over the indices listed: false when it was left
by the `return` for a name that no library has. The static array
`layerNames` has `MAX_LAYER_LIBRARIES` entries, and the loop does not test
`i` against that: a write to `layerNames[i]` behind the end of the array is
undefined. -/
def loader_get_layer_libs_loop (W : World) (icd : loader_icd) (gpu_index : Nat)
    (pCi : XGL_LAYER_CREATE_INFO) : List Nat → LoaderState → Res Bool
  | [], s => Res.ok true s
  | i :: rest, s =>
      match pCi.ppActiveLayerNames[i]? with
      | none => Res.undef
      | some name =>
          (find_layer_name W icd gpu_index name s.scanned_layer_names s).bind fun r s1 =>
            match r with
            | none => Res.ok false s1
            | some lib_name =>
                if W.MAX_LAYER_LIBRARIES ≤ i then Res.undef
                else
                  loader_get_layer_libs_loop W icd gpu_index pCi rest
                    (s1.setLayerName i { layer_name := name, lib_name := lib_name })

/-- The C function `loader_get_layer_libs`: the count it returns, the names
being in the static array `layerNames`, which `*ppLayerNames` points at. The
loop bound is computed in `uint32_t`. -/
def loader_get_layer_libs (W : World) (icd : loader_icd) (gpu_index : Nat)
    (pCreateInfo : XGL_DEVICE_CREATE_INFO) (s : LoaderState) : Res Nat :=
  (loader_get_layer_env W icd gpu_index s).bind fun env_layer_count s1 =>
  match pCreateInfo.pNext.find?
      (fun pCi => pCi.sType == W.XGL_STRUCTURE_TYPE_LAYER_CREATE_INFO) with
  | none => loader_get_layer_env W icd gpu_index s1
  | some pCi =>
      (loader_get_layer_libs_loop W icd gpu_index pCi
        (List.range' env_layer_count (u32add env_layer_count pCi.layerCount - env_layer_count))
        s1).bind fun all s2 =>
      if all then
        (loader_get_layer_env W icd gpu_index s2).bind fun n s3 =>
          Res.ok (u32add pCi.layerCount n) s3
      else loader_get_layer_env W icd gpu_index s2

/-- The test of `loader_init_layer_libs` whether a library of that name is
already open among the first `layer_count[gpu_index]` entries. -/
def foundLib (icd : loader_icd) (gpu_index : Nat) (layer_name : String) : Bool :=
  (List.range (icd.layer_count gpu_index)).any fun j =>
    decide ((icd.layer_libs gpu_index j).lib_handle ≠ 0) &&
      decide ((icd.layer_libs gpu_index j).name = layer_name)

/-- The C function `loader_init_layer_libs`, as its loop over the indices
listed, on the `k`-th ICD of the `p`-th instance, whose current content is
`icd`; `pLayerNames` is the static array `layerNames`, and an index behind
the end of that array or of `layer_libs[gpu_index]` is undefined. -/
def loader_init_layer_libs (W : World) (p k gpu_index : Nat) :
    List Nat → loader_icd → LoaderState → Res loader_icd
  | [], icd, s => Res.ok icd s
  | i :: rest, icd, s =>
      if W.MAX_LAYER_LIBRARIES ≤ i then Res.undef
      else if foundLib icd gpu_index (s.layerNames i).layer_name then
        loader_init_layer_libs W p k gpu_index rest icd s
      else
        let handle := W.open_library s.trace (s.layerNames i).lib_name
        let obj : loader_layers :=
          { name := String.mk ((s.layerNames i).layer_name.data.take 255), lib_handle := handle }
        let icd1 := { icd with
          layer_libs := fun j' i' =>
            if j' = gpu_index ∧ i' = i then obj else icd.layer_libs j' i' }
        let s1 := (s.emit (Event.open_library (s.layerNames i).lib_name handle)).putIcd p k icd1
        if handle = 0 then
          (loader_log XGL_DBG_MSG_TYPE.XGL_DBG_MSG_ERROR "loader_platform_open_library_error"
            s1).bind fun _ s2 => loader_init_layer_libs W p k gpu_index rest icd1 s2
        else
          (loader_log XGL_DBG_MSG_TYPE.XGL_DBG_MSG_UNKNOWN "Inserting layer %s from library %s"
            s1).bind fun _ s2 =>
          let icd2 := { icd1 with
            layer_count := fun j' =>
              if j' = gpu_index then u32add (icd1.layer_count j') 1 else icd1.layer_count j' }
          loader_init_layer_libs W p k gpu_index rest icd2
            ((s2.free (Alloc.layer_name i)).putIcd p k icd2)

/-- The two look-ups of `loader_activate_layers` in a layer library:
`<name>GetProcAddr`, cut to the 255 characters of `funcStr`, and when that is
missing `xglGetProcAddr`. -/
def layer_GPA (W : World) (lib : loader_layers) : FnPtr :=
  if W.get_proc_address lib.lib_handle
      (String.mk ((lib.name.data ++ "GetProcAddr".data).take 255)) = FnPtr.null then
    W.get_proc_address lib.lib_handle "xglGetProcAddr"
  else W.get_proc_address lib.lib_handle
    (String.mk ((lib.name.data ++ "GetProcAddr".data).take 255))

/-- The loop `for (int32_t i = layer_count - 1; i >= 0; i--)` of
`loader_activate_layers`, with `i + 1` iterations left, on the `k`-th ICD of
the `p`-th instance whose current content is `icd`; `gpuObj` and `nextGPA`
are the local variables. A layer without the symbol is logged and the rest
of its iteration skipped. -/
def loader_activate_layers_loop (W : World) (p k gpu_index : Nat) (gpu baseObj : Ptr) :
    Nat → loader_icd → Ptr → FnPtr → LoaderState → Res loader_icd
  | 0, icd, _, _, s => Res.ok icd s
  | i + 1, icd, gpuObj, nextGPA, s =>
      (store_obj ((icd.wrappedGpus gpu_index).add i)
        (fun _ => { pGPA := nextGPA, baseObject := baseObj, nextObject := gpuObj }) s
        ).bind fun _ s1 =>
      if layer_GPA W (icd.layer_libs gpu_index i) = FnPtr.null then
        (loader_log XGL_DBG_MSG_TYPE.XGL_DBG_MSG_ERROR
          "Failed to find xglGetProcAddr in layer %s" s1).bind fun _ s2 =>
        loader_activate_layers_loop W p k gpu_index gpu baseObj i icd
          ((icd.wrappedGpus gpu_index).add i) FnPtr.null s2
      else if i = 0 then
        if icd.loader_dispatch.length ≤ gpu_index then Res.undef
        else
          let icd1 := { icd with
            loader_dispatch := icd.loader_dispatch.set gpu_index
              (loader_init_dispatch_table W (layer_GPA W (icd.layer_libs gpu_index i))
                ((icd.wrappedGpus gpu_index).add i)) }
          (store_obj gpu
            (fun g => { g with
              nextObject := (icd.wrappedGpus gpu_index).add i,
              pGPA := layer_GPA W (icd.layer_libs gpu_index i) })
            (s1.putIcd p k icd1)).bind fun _ s2 =>
          match s2.scanned icd1.scanned_icds with
          | none => Res.undef
          | some scanned_icds =>
              (store_obj ((icd1.wrappedGpus gpu_index).add (icd1.layer_count gpu_index - 1))
                (fun g => { g with nextObject := baseObj, pGPA := scanned_icds.GetProcAddr })
                s2).bind fun _ s3 =>
              loader_activate_layers_loop W p k gpu_index gpu baseObj i icd1
                ((icd1.wrappedGpus gpu_index).add (icd1.layer_count gpu_index - 1))
                (layer_GPA W (icd.layer_libs gpu_index i)) s3
      else
        loader_activate_layers_loop W p k gpu_index gpu baseObj i icd
          ((icd.wrappedGpus gpu_index).add i) (layer_GPA W (icd.layer_libs gpu_index i)) s1

/-- The comparison loop of `loader_activate_layers` for a device whose layers
are active, over the indices listed: whether it logs that the layers differ;
an index behind the end of the static array `layerNames` is undefined. -/
def layers_differ (W : World) (icd : loader_icd) (gpu_index : Nat) (s : LoaderState) :
    List Nat → Option Bool
  | [] => some false
  | i :: rest =>
      if W.MAX_LAYER_LIBRARIES ≤ i then none
      else if (icd.layer_libs gpu_index i).name ≠ (s.layerNames i).layer_name then some true
      else layers_differ W icd gpu_index s rest

/-- The C function `loader_activate_layers`. The array `wrappedGpus[gpu_index]`
is a new block of `layer_count[gpu_index]` objects; the loop runs when
`layer_count[gpu_index] - 1`, computed in `uint32_t`, is not negative as an
`int32_t`. -/
def loader_activate_layers (W : World) (gpu : Ptr) (pCreateInfo : XGL_DEVICE_CREATE_INFO)
    (s : LoaderState) : Res Nat :=
  match loader_get_icd gpu s with
  | none => Res.undef
  | some none => Res.ok 0 s
  | some (some r) =>
      if loader_layers_activated r.icd r.gpu_index then
        (loader_get_layer_libs W r.icd r.gpu_index pCreateInfo s).bind fun count s1 =>
        match layers_differ W r.icd r.gpu_index s1 (List.range count) with
        | none => Res.undef
        | some differ =>
            (if differ then
                loader_log XGL_DBG_MSG_TYPE.XGL_DBG_MSG_ERROR
                  "Layers activated != Layers requested" s1
              else Res.ok () s1).bind fun _ s2 =>
            (if count ≠ r.icd.layer_count r.gpu_index then
                loader_log XGL_DBG_MSG_TYPE.XGL_DBG_MSG_ERROR
                  "Number of Layers activated != number requested" s2
              else Res.ok () s2).bind fun _ s3 =>
            Res.ok (r.icd.layer_count r.gpu_index) s3
      else
        match s.obj gpu with
        | none => Res.undef
        | some g =>
            (loader_get_layer_libs W r.icd r.gpu_index pCreateInfo s).bind fun count s1 =>
            if count = 0 then Res.ok 0 s1
            else
              (loader_init_layer_libs W r.inst r.pos r.gpu_index (List.range count) r.icd s1
                ).bind fun icd1 s2 =>
              let icd2 := { icd1 with
                wrappedGpus := fun j =>
                  if j = r.gpu_index then Ptr.obj s2.objMem.length 0 else icd1.wrappedGpus j }
              let s3 := (s2.withObjMem (s2.objMem ++
                [List.replicate (icd1.layer_count r.gpu_index) XGL_BASE_LAYER_OBJECT.zero])
                ).putIcd r.inst r.pos icd2
              (if u32sub (icd2.layer_count r.gpu_index) 1 < 2147483648 then
                  loader_activate_layers_loop W r.inst r.pos r.gpu_index gpu g.baseObject
                    (u32sub (icd2.layer_count r.gpu_index) 1 + 1) icd2 gpu FnPtr.xglGetProcAddr s3
                else Res.ok icd2 s3).bind fun icd3 s4 =>
              Res.ok (icd3.layer_count r.gpu_index) s4

/-- The object reached from `ptr` after `n` steps along `nextObject`, if every
object on the way can be read. -/
def follow (s : LoaderState) (ptr : Ptr) : Nat → Option Ptr
  | 0 => some ptr
  | n + 1 => (follow s ptr n).bind fun q => (s.obj q).map fun o => o.nextObject

/-! ## The debug entry points without an ICD, and their fan-out -/

/-- The search loop of `loader_msg_callback_remove`: the position of the first
node whose function is `func`, if any; `pos` is the position of the first
node listed. -/
def loader_msg_callback_find (func : Nat) : Nat → List loader_msg_callback → Option Nat
  | _, [] => none
  | pos, cb :: rest =>
      if cb.func = func then some pos else loader_msg_callback_find func (pos + 1) rest

/-- The C function `loader_msg_callback_remove`: the node found is handed to
`free`; no link of the list is assigned. -/
def loader_msg_callback_remove (func : Nat) (s : LoaderState) : Res XGL_RESULT :=
  match loader_msg_callback_find func 0 s.msg_callbacks with
  | none => Res.ok XGL_RESULT.XGL_ERROR_INVALID_POINTER s
  | some pos => Res.ok XGL_RESULT.XGL_SUCCESS (s.free (Alloc.callback pos))

/-- The innermost loop of `xglDbgUnregisterMsgCallback` over the device slots
listed; `res` is the local variable of that name. -/
def dbg_unregister_slots (W : World) (func : Nat) (icd : loader_icd) :
    List Nat → XGL_RESULT → LoaderState → Res XGL_RESULT
  | [], res, s => Res.ok res s
  | i :: rest, res, s =>
      match dispatch_entry icd i (fun tab => tab.DbgUnregisterMsgCallback) with
      | none => Res.undef
      | some fp =>
          let r := W.DbgUnregisterMsgCallback s.trace fp func
          dbg_unregister_slots W func icd rest
            (if r ≠ XGL_RESULT.XGL_SUCCESS then r else res)
            (s.emit (Event.DbgUnregisterMsgCallback icd.addr i fp func r))

/-- The loop of `xglDbgUnregisterMsgCallback` over the ICDs of an instance. -/
def dbg_unregister_icds (W : World) (func : Nat) :
    List loader_icd → XGL_RESULT → LoaderState → Res XGL_RESULT
  | [], res, s => Res.ok res s
  | icd :: rest, res, s =>
      (dbg_unregister_slots W func icd (List.range icd.gpu_count) res s).bind fun res1 s1 =>
        dbg_unregister_icds W func rest res1 s1

/-- The loop of `xglDbgUnregisterMsgCallback` over the instances. -/
def dbg_unregister_insts (W : World) (func : Nat) :
    List loader_instance → XGL_RESULT → LoaderState → Res XGL_RESULT
  | [], res, s => Res.ok res s
  | inst :: rest, res, s =>
      (dbg_unregister_icds W func inst.icds res s).bind fun res1 s1 =>
        dbg_unregister_insts W func rest res1 s1

/-- The C function `xglDbgUnregisterMsgCallback`. -/
def xglDbgUnregisterMsgCallback (W : World) (pfnMsgCallback : Nat) (s : LoaderState) :
    Res XGL_RESULT :=
  if !s.icds_scanned then loader_msg_callback_remove pfnMsgCallback s
  else dbg_unregister_insts W pfnMsgCallback s.instances XGL_RESULT.XGL_SUCCESS s

/-- The innermost loop of `xglDbgSetGlobalOption` over the device slots
listed; `res` is the local variable of that name. -/
def dbg_set_option_slots (W : World) (dbgOption : XGL_DBG_GLOBAL_OPTION) (dataSize : Nat)
    (pData : Bool) (icd : loader_icd) : List Nat → XGL_RESULT → LoaderState → Res XGL_RESULT
  | [], res, s => Res.ok res s
  | i :: rest, res, s =>
      match dispatch_entry icd i (fun tab => tab.DbgSetGlobalOption) with
      | none => Res.undef
      | some fp =>
          let r := W.DbgSetGlobalOptionN s.trace fp dbgOption dataSize pData
          dbg_set_option_slots W dbgOption dataSize pData icd rest
            (if r ≠ XGL_RESULT.XGL_SUCCESS then r else res)
            (s.emit (Event.DbgSetGlobalOptionN icd.addr i fp dbgOption dataSize pData r))

/-- The loop of `xglDbgSetGlobalOption` over the ICDs of an instance. -/
def dbg_set_option_icds (W : World) (dbgOption : XGL_DBG_GLOBAL_OPTION) (dataSize : Nat)
    (pData : Bool) : List loader_icd → XGL_RESULT → LoaderState → Res XGL_RESULT
  | [], res, s => Res.ok res s
  | icd :: rest, res, s =>
      (dbg_set_option_slots W dbgOption dataSize pData icd (List.range icd.gpu_count) res s
        ).bind fun res1 s1 => dbg_set_option_icds W dbgOption dataSize pData rest res1 s1

/-- The loop of `xglDbgSetGlobalOption` over the instances. -/
def dbg_set_option_insts (W : World) (dbgOption : XGL_DBG_GLOBAL_OPTION) (dataSize : Nat)
    (pData : Bool) : List loader_instance → XGL_RESULT → LoaderState → Res XGL_RESULT
  | [], res, s => Res.ok res s
  | inst :: rest, res, s =>
      (dbg_set_option_icds W dbgOption dataSize pData inst.icds res s).bind fun res1 s1 =>
        dbg_set_option_insts W dbgOption dataSize pData rest res1 s1

/-- The C function `xglDbgSetGlobalOption`; `pData` is the `bool` that the
data pointed at starts with. -/
def xglDbgSetGlobalOption (W : World) (dbgOption : XGL_DBG_GLOBAL_OPTION) (dataSize : Nat)
    (pData : Bool) (s : LoaderState) : Res XGL_RESULT :=
  if !s.icds_scanned then
    if dataSize = 0 then Res.ok XGL_RESULT.XGL_ERROR_INVALID_VALUE s
    else
      match dbgOption with
      | XGL_DBG_GLOBAL_OPTION.XGL_DBG_OPTION_DEBUG_ECHO_ENABLE =>
          Res.ok XGL_RESULT.XGL_SUCCESS { s with debug_echo_enable := pData }
      | XGL_DBG_GLOBAL_OPTION.XGL_DBG_OPTION_BREAK_ON_ERROR =>
          Res.ok XGL_RESULT.XGL_SUCCESS { s with break_on_error := pData }
      | XGL_DBG_GLOBAL_OPTION.XGL_DBG_OPTION_BREAK_ON_WARNING =>
          Res.ok XGL_RESULT.XGL_SUCCESS { s with break_on_warning := pData }
      | XGL_DBG_GLOBAL_OPTION.other _ => Res.ok XGL_RESULT.XGL_ERROR_INVALID_VALUE s
  else dbg_set_option_insts W dbgOption dataSize pData s.instances XGL_RESULT.XGL_SUCCESS s

/-! ## `xglGetProcAddr` -/

/-- Modelled from the spec: `loader_lookup_dispatch_table` of `table_ops.h`,
which is not among the sources; a match by entry-point name that returns the
stored pointer, or null when the name is unknown. -/
def loader_lookup_dispatch_table (table : XGL_LAYER_DISPATCH_TABLE) (pName : String) : FnPtr :=
  if pName = "xglGetProcAddr" then table.GetProcAddr
  else if pName = "xglEnumerateLayers" then table.EnumerateLayers
  else if pName = "xglDbgRegisterMsgCallback" then table.DbgRegisterMsgCallback
  else if pName = "xglDbgUnregisterMsgCallback" then table.DbgUnregisterMsgCallback
  else if pName = "xglDbgSetGlobalOption" then table.DbgSetGlobalOption
  else
    match table.others.find? (fun e => e.1 == pName) with
    | some e => e.2
    | none => FnPtr.null

/-- Read through a pointer to a `loader_icd`: the first ICD of any instance
of the list that lives at the address. -/
def LoaderState.icd (s : LoaderState) (a : Nat) : Option loader_icd :=
  (s.instances.flatMap fun i => i.icds).find? (fun c => c.addr == a)

/-- The value `*(XGL_LAYER_DISPATCH_TABLE **) p` as a pointer to a table:
`some none` is the null pointer, and there is nothing at all when the first
word of the object at `p` does not point at a table that can be read. The
first word of a layer object is its `pGPA`, and the raw word 0 is null. -/
def LoaderState.dispatch_of (s : LoaderState) (p : Ptr) :
    Option (Option XGL_LAYER_DISPATCH_TABLE) :=
  match p with
  | Ptr.null => none
  | Ptr.driver h =>
      match s.driverHead h with
      | Word.raw 0 => some none
      | Word.disp a slot =>
          match s.icd a with
          | none => none
          | some c =>
              match c.loader_dispatch[slot]? with
              | none => none
              | some table => some (some table)
      | _ => none
  | Ptr.obj b o =>
      match s.obj (Ptr.obj b o) with
      | none => none
      | some v => if v.pGPA = FnPtr.null then some none else none

/-- The C function `xglGetProcAddr`: the address returned, or nothing when the
behaviour is undefined. -/
def xglGetProcAddr (W : World) (gpu : Ptr) (pName : String) (s : LoaderState) :
    Option FnPtr :=
  if gpu = Ptr.null then some FnPtr.null
  else
    match s.obj gpu with
    | none => none
    | some gpuw =>
        match s.dispatch_of gpuw.baseObject with
        | none => none
        | some none => some FnPtr.null
        | some (some disp_table) =>
            if loader_lookup_dispatch_table disp_table pName ≠ FnPtr.null then
              some (loader_lookup_dispatch_table disp_table pName)
            else if disp_table.GetProcAddr = FnPtr.null then some FnPtr.null
            else some (W.callGPA disp_table.GetProcAddr gpuw.nextObject pName)

/-! ## `xglEnumerateLayers`

The strings the caller's array `pOutLayers` points at are buffers of
characters; a `String` of the model is the text of a C string, without its
terminating NUL. -/

/-- The character NUL. -/
def NUL : Char := Char.ofNat 0

/-- The C string a buffer holds: the characters before the first NUL. -/
def cstr (buf : List Char) : List Char :=
  buf.takeWhile fun c => decide (c ≠ NUL)

/-- The call `strncpy(dst, src, n)` on the buffer `dst`: the buffer
afterwards, or nothing when `n` characters do not fit. -/
def strncpy (dst src : List Char) (n : Nat) : Option (List Char) :=
  if dst.length < n then none
  else some (src.take n ++ List.replicate (n - src.length) NUL ++ dst.drop n)

/-- The assignment `buf[k] = '\0'`: the buffer afterwards, or nothing when `k`
is behind its end. -/
def terminate (buf : List Char) (k : Nat) : Option (List Char) :=
  if k < buf.length then some (buf.set k NUL) else none

/-- The call `strrchr(s, c)`: the position of the last `c` in the text. -/
def strrchr (c : Char) : List Char → Option Nat
  | [] => none
  | x :: xs =>
      match strrchr c xs with
      | some i => some (i + 1)
      | none => if x = c then some 0 else none

/-- The value of `siz` in `xglEnumerateLayers` for a library without
`xglEnumerateLayers` with which the copy is made, `lib_name` being the
basename: `pEnd - lib_name - strlen(XGL_LAYER_LIBRARY_PREFIX) + 1` computed in
`size_t` and cast to `int`; nothing when the library is skipped, which is
when there is no `.`, when `siz` is 0, and when `siz` is negative as an `int`,
so that `malloc` fails on it as a `size_t`. -/
def default_siz (W : World) (lib_name : String) : Option Nat :=
  match strrchr '.' lib_name.data with
  | none => none
  | some pEnd =>
      if ((pEnd + 18446744073709551616 -
            W.XGL_LAYER_LIBRARY_PREFIX.data.length % 18446744073709551616 + 1) %
          18446744073709551616) % 4294967296 = 0 ∨
        2147483648 ≤ ((pEnd + 18446744073709551616 -
            W.XGL_LAYER_LIBRARY_PREFIX.data.length % 18446744073709551616 + 1) %
          18446744073709551616) % 4294967296 then none
      else some (((pEnd + 18446744073709551616 -
            W.XGL_LAYER_LIBRARY_PREFIX.data.length % 18446744073709551616 + 1) %
          18446744073709551616) % 4294967296)

/-- The text of `cpyStr` in `xglEnumerateLayers`: `siz - 1` characters of the
basename from behind the layer prefix on. -/
def default_layer_name (W : World) (lib_name : String) (siz : Nat) : List Char :=
  (lib_name.data.drop W.XGL_LAYER_LIBRARY_PREFIX.data.length).take (siz - 1)

/-- The two statements `strncpy((char *) (pOutLayers[count]), cpyStr, siz);
pOutLayers[count][siz - 1] = '\0';` of `xglEnumerateLayers`: the buffers
afterwards, or nothing when a write is out of bounds (`siz - 1` is computed
in `size_t`). -/
def put_default_name (out : List (List Char)) (count : Nat) (cpyStr : List Char) (siz : Nat) :
    Option (List (List Char)) :=
  match out[count]? with
  | none => none
  | some buf =>
      match strncpy buf cpyStr siz with
      | none => none
      | some buf1 =>
          if siz = 0 then none
          else
            match terminate buf1 (siz - 1) with
            | none => none
            | some buf2 => some (out.set count buf2)

/-- The loop `for (uint32_t i = (uint32_t) count; i < cnt + count; i++)` of
`xglEnumerateLayers` over the indices listed, `names` being the texts in the
array `layers`, which has 16 entries: the buffers afterwards, or nothing when
a read or a write is out of bounds. The terminator goes to the string
`pOutLayers[i - count]`. -/
def put_layer_names (names : List String) (count n : Nat) :
    List Nat → List (List Char) → Option (List (List Char))
  | [], out => some out
  | i :: rest, out =>
      if 16 ≤ i - count then none
      else
        match names[i - count]?, out[i]? with
        | some name, some buf =>
            match strncpy buf name.data n with
            | none => none
            | some buf1 =>
                if n = 0 then put_layer_names names count n rest (out.set i buf1)
                else
                  match (out.set i buf1)[i - count]? with
                  | none => none
                  | some other =>
                      match terminate other (n - 1) with
                      | none => none
                      | some other1 =>
                          put_layer_names names count n rest
                            ((out.set i buf1).set (i - count) other1)
        | _, _ => none

/-- The loop of `xglEnumerateLayers` over the scanned layer libraries listed;
`count` is the local variable and `out` the content of the caller's buffers.
With 2^32 names or more the loop variable `i`, a `uint32_t`, does not do what
the loop needs. -/
def xglEnumerateLayers_loop (W : World) (icd : loader_icd) (gpu_index : Nat)
    (maxLayerCount maxStringSize : Nat) :
    List String → Nat → List (List Char) → LoaderState → Res (Nat × List (List Char))
  | [], count, out, s => Res.ok (count, out) s
  | lib_name :: rest, count, out, s =>
      if maxLayerCount ≤ count then Res.ok (count, out) s
      else
        let handle := W.open_library s.trace lib_name
        let s1 := s.emit (Event.open_library lib_name handle)
        if handle = 0 then
          xglEnumerateLayers_loop W icd gpu_index maxLayerCount maxStringSize rest count out s1
        else if W.get_proc_address handle "xglEnumerateLayers" = FnPtr.null then
          let s2 := s1.emit (Event.close_library handle)
          match default_siz W (W.basename lib_name) with
          | none =>
              xglEnumerateLayers_loop W icd gpu_index maxLayerCount maxStringSize rest count
                out s2
          | some siz =>
              match put_default_name out count (default_layer_name W (W.basename lib_name) siz)
                  (if maxStringSize < siz then maxStringSize else siz) with
              | none => Res.undef
              | some out1 =>
                  xglEnumerateLayers_loop W icd gpu_index maxLayerCount maxStringSize rest
                    (count + 1) out1 s2
        else
          let fp := W.get_proc_address handle "xglEnumerateLayers"
          let n := if maxStringSize < 256 then maxStringSize else 256
          let r := W.EnumerateLayers s1.trace fp n icd.gpus gpu_index
          let s2 := (s1.emit (Event.EnumerateLayers fp n icd.gpus gpu_index r.1 r.2)).emit
            (Event.close_library handle)
          if r.1 ≠ XGL_RESULT.XGL_SUCCESS then
            xglEnumerateLayers_loop W icd gpu_index maxLayerCount maxStringSize rest count out
              s2
          else
            let cnt := if maxLayerCount < r.2.length + count then maxLayerCount - count
              else r.2.length
            if 4294967296 ≤ cnt + count then Res.undef
            else
              match put_layer_names r.2 count n (List.range' count cnt) out with
              | none => Res.undef
              | some out1 =>
                  xglEnumerateLayers_loop W icd gpu_index maxLayerCount maxStringSize rest
                    (count + cnt) out1 s2

/-- What `xglEnumerateLayers` hands back: the value returned, the value of
`*pOutLayerCount` and the content of the buffers of `pOutLayers` afterwards;
nothing stands for a null pointer. -/
structure EnumerateLayersResult where
  result : XGL_RESULT
  pOutLayerCount : Option Nat
  pOutLayers : Option (List (List Char))
  deriving DecidableEq, Repr

/-- The C function `xglEnumerateLayers`. `pOutLayerCount` is the content of
the `size_t` pointed at and `pOutLayers` the content of the buffers the array
pointed at lists, nothing standing for a null pointer. The device is looked
up before the pointers are tested. -/
def xglEnumerateLayers (W : World) (gpu : Ptr) (maxLayerCount maxStringSize : Nat)
    (pOutLayerCount : Option Nat) (pOutLayers : Option (List (List Char)))
    (s : LoaderState) : Res EnumerateLayersResult :=
  match loader_get_icd gpu s with
  | none => Res.undef
  | some found =>
      match pOutLayerCount, pOutLayers with
      | some _, some out =>
          match found with
          | none =>
              Res.ok { result := XGL_RESULT.XGL_ERROR_UNAVAILABLE,
                       pOutLayerCount := pOutLayerCount, pOutLayers := pOutLayers } s
          | some r =>
              (xglEnumerateLayers_loop W r.icd r.gpu_index maxLayerCount maxStringSize
                s.scanned_layer_names 0 out s).bind fun c s1 =>
              Res.ok { result := XGL_RESULT.XGL_SUCCESS, pOutLayerCount := some c.1,
                       pOutLayers := some c.2 } s1
      | _, _ =>
          Res.ok { result := XGL_RESULT.XGL_ERROR_INVALID_POINTER,
                   pOutLayerCount := pOutLayerCount, pOutLayers := pOutLayers } s

/-! ## Comparing states -/

/-- Nothing but the record of outside calls and the static array `layerNames`
may differ between `s` and `s1`. -/
def LoaderState.sameButNames (s s1 : LoaderState) : Prop :=
  ∃ evs ln, s1 = (s.emits evs).withLayerNames ln

/-- Whatever happened before, `find_layer_name` finds a library for the layer
`name` among the scanned libraries `libs`. -/
def layer_resolves (W : World) (icd : loader_icd) (gpu_index : Nat) (libs : List String)
    (name : String) : Prop :=
  ∀ s0 : LoaderState, ∃ lib s1,
    find_layer_name W icd gpu_index name libs s0 = Res.ok (some lib) s1

/-- Whatever happened before, `find_layer_name` returns false for the layer
`name` and the scanned libraries `libs`. -/
def layer_unknown (W : World) (icd : loader_icd) (gpu_index : Nat) (libs : List String)
    (name : String) : Prop :=
  ∀ s0 : LoaderState, ∃ s1, find_layer_name W icd gpu_index name libs s0 = Res.ok none s1

/-! ## Reading a trace -/

/-- The driver `CreateInstance` calls of a piece of trace, in order: the
scanned node called and the result returned. -/
def createCalls : List Event → List (Nat × XGL_RESULT)
  | [] => []
  | Event.CreateInstance a _ r _ :: es => (a, r) :: createCalls es
  | _ :: es => createCalls es

/-- The scanned nodes whose `CreateInstance` call returned success, in call
order. -/
def created (evs : List Event) : List Nat :=
  ((createCalls evs).filter (fun p => decide (p.2 = XGL_RESULT.XGL_SUCCESS))).map Prod.fst


/-! ## Concrete worlds and states for examples -/

/-- A world with 16 device slots and 64 layer slots in which nothing is on
disk, every driver call succeeds, `CreateInstance` hands out the handle 100
and `EnumerateGpus` reports no device. -/
def World.quiet : World :=
  { XGL_MAX_PHYSICAL_GPUS := 16, MAX_LAYER_LIBRARIES := 64,
    XGL_STRUCTURE_TYPE_LAYER_CREATE_INFO := 41,
    EnumerateLayers := fun _ _ _ _ _ => (XGL_RESULT.XGL_SUCCESS, []), basename := fun p => p,
    CreateInstance := fun _ _ => (XGL_RESULT.XGL_SUCCESS, 100),
    DestroyInstance := fun _ _ _ => XGL_RESULT.XGL_SUCCESS,
    EnumerateGpus := fun _ _ _ _ => (XGL_RESULT.XGL_SUCCESS, []),
    callGPA := fun _ _ _ => FnPtr.null, entryNames := [],
    DbgRegisterMsgCallback := fun _ _ _ _ => XGL_RESULT.XGL_SUCCESS,
    DbgUnregisterMsgCallback := fun _ _ _ => XGL_RESULT.XGL_SUCCESS,
    DbgSetGlobalOption := fun _ _ _ _ => XGL_RESULT.XGL_SUCCESS,
    DbgSetGlobalOptionN := fun _ _ _ _ _ => XGL_RESULT.XGL_SUCCESS,
    open_library := fun _ _ => 0, get_proc_address := fun _ _ => FnPtr.null,
    geteuid := 0, getuid := 0, getenv := fun _ => none, readdir := fun _ => none,
    DRIVER_PATH_ENV := "LIBXGL_DRIVERS_PATH", LAYERS_PATH_ENV := "LIBXGL_LAYERS_PATH",
    LAYER_NAMES_ENV := "LIBXGL_LAYER_NAMES", DEFAULT_XGL_DRIVERS_PATH := "/usr/lib",
    DEFAULT_XGL_LAYERS_PATH := "/usr/lib", PATH_SEPERATOR := ':', DIRECTORY_SYMBOL := "/",
    XGL_DRIVER_LIBRARY_PREFIX := "libXGL_", XGL_LAYER_LIBRARY_PREFIX := "libXGLLayer",
    XGL_LIBRARY_SUFFIX := ".so" }

/-- The scanned node of driver number `c`, at address `c`, with library handle
`10 + c` and entry points `sym (10 * c + i)`. -/
def driverNode (c : Nat) : loader_scanned_icds :=
  { addr := c, handle := 10 + c, GetProcAddr := FnPtr.sym (10 * c),
    CreateInstance := FnPtr.sym (10 * c + 1), DestroyInstance := FnPtr.sym (10 * c + 2),
    EnumerateGpus := FnPtr.sym (10 * c + 3), «instance» := 0 }

/-- A state after both scans found the given drivers, with no instance yet. -/
def scannedState (drivers : List loader_scanned_icds) : LoaderState :=
  { LoaderState.init (fun _ => Word.magic) with
    once_icd := true, once_layer := true, icds_scanned := true, layer_scanned := true,
    scanned_icd_list := drivers, brk := 100 }

/-- The world `World.quiet` except that the `CreateInstance` of driver 1 fails. -/
def World.driver1Fails : World :=
  { World.quiet with
    CreateInstance := fun _ fp =>
      if fp = FnPtr.sym 11 then (XGL_RESULT.other 7, 0) else (XGL_RESULT.XGL_SUCCESS, 100) }

/-- The driver `DestroyInstance` calls of a piece of trace, in order: the
scanned node called and the instance handle passed. -/
def destroyCalls : List Event → List (Nat × Nat)
  | [] => []
  | Event.DestroyInstance a _ i _ :: es => (a, i) :: destroyCalls es
  | _ :: es => destroyCalls es

/-- The state `s` with more events and more freed addresses. -/
def LoaderState.later (s : LoaderState) (evs : List Event) (fr : List Alloc) : LoaderState :=
  { s with trace := s.trace ++ evs, freed := fr ++ s.freed }

/-- A state after both scans and one `xglCreateInstance`: driver 1 has handed
out the instance handle 100, driver 2 none; the instance list holds the
instance at address 50 with the ICD of driver 1 and an older instance at
address 51. -/
def liveState : LoaderState :=
  { scannedState [{ driverNode 1 with «instance» := 100 }, driverNode 2] with
    instances := [{ addr := 50, icds := [loader_icd_create 60 1] }, { addr := 51, icds := [] }] }

/-- The world `World.quiet` except that every `DestroyInstance` fails. -/
def World.destroyFails : World :=
  { World.quiet with DestroyInstance := fun _ _ _ => XGL_RESULT.other 9 }

/-- The driver `EnumerateGpus` calls of a piece of trace, in order: the ICD
through which the call was made, the number of devices asked for, the result
and the number of devices reported. -/
def enumCalls : List Event → List (Nat × Nat × XGL_RESULT × Nat)
  | [] => []
  | Event.EnumerateGpus icd _ _ max res gpus :: es => (icd, max, res, gpus.length) :: enumCalls es
  | _ :: es => enumCalls es

/-- The per-slot `DbgRegisterMsgCallback` calls of a piece of trace, in order:
ICD, device slot, callback function and user data. -/
def regCalls : List Event → List (Nat × Nat × Nat × Nat)
  | [] => []
  | Event.DbgRegisterMsgCallback icd slot _ func data _ :: es =>
      (icd, slot, func, data) :: regCalls es
  | _ :: es => regCalls es

/-- The number of devices a call of `EnumerateGpus` adds to `count`. -/
def bound (c : Nat × Nat × XGL_RESULT × Nat) : Nat :=
  if c.2.2.1 = XGL_RESULT.XGL_SUCCESS then c.2.2.2 else 0

/-- Every call of the list asked for `min(maxGpus - count, maxPhys)` devices,
`count ≤ maxGpus` being the number of devices bound before the call. -/
def asked_ok (maxGpus maxPhys : Nat) : Nat → List (Nat × Nat × XGL_RESULT × Nat) → Prop
  | _, [] => True
  | count, c :: rest =>
      count ≤ maxGpus ∧ c.2.1 = min (maxGpus - count) maxPhys ∧
        asked_ok maxGpus maxPhys (count + bound c) rest

/-- The `EnumerateGpus` calls `xglEnumerateGpus` owes to the ICDs listed when
`count` devices were returned before: one call per ICD, in list order, on
that ICD, with `count ≤ maxGpus`, asking for `min(maxGpus - count, maxPhys)`
devices; behind a call that returned devices and made the count reach
`maxGpus` there is no further call, and otherwise the remaining ICDs are owed
theirs. -/
def queried_ok (maxGpus maxPhys : Nat) :
    Nat → List loader_icd → List (Nat × Nat × XGL_RESULT × Nat) → Prop
  | _, [], calls => calls = []
  | _, _ :: _, [] => False
  | count, icd :: rest, c :: cs =>
      c.1 = icd.addr ∧ count ≤ maxGpus ∧ c.2.1 = min (maxGpus - count) maxPhys ∧
        if bound c ≠ 0 ∧ maxGpus ≤ count + bound c then cs = []
        else queried_ok maxGpus maxPhys (count + bound c) rest cs

/-- The registrations due after the given `EnumerateGpus` calls: every pending
callback on every slot of every ICD that returned devices. -/
def expectedRegs (cbs : List loader_msg_callback) :
    List (Nat × Nat × XGL_RESULT × Nat) → List (Nat × Nat × Nat × Nat)
  | [] => []
  | c :: rest =>
      (if c.2.2.1 = XGL_RESULT.XGL_SUCCESS ∧ c.2.2.2 ≠ 0 then
        cbs.flatMap fun cb => (List.range c.2.2.2).map fun i => (c.1, i, cb.func, cb.data)
      else []) ++ expectedRegs cbs rest

/-- The members of the static struct `loader` that `xglEnumerateGpus` reads
are the same in both states. -/
def LoaderState.sameSettings (s s' : LoaderState) : Prop :=
  s'.scanned_icd_list = s.scanned_icd_list ∧ s'.msg_callbacks = s.msg_callbacks ∧
  s'.debug_echo_enable = s.debug_echo_enable ∧ s'.break_on_error = s.break_on_error ∧
  s'.break_on_warning = s.break_on_warning

/-- The entry `pGpus[j]` after the assignments of a result: the value last
written to it, if any. -/
def EnumerateGpusResult.entry (r : EnumerateGpusResult) (j : Nat) : Option Ptr :=
  (r.pGpus.reverse.find? fun w => w.1 == j).map Prod.snd

/-- The world `World.quiet` except that every `EnumerateGpus` reports the two
devices 1000 and 1001, as far as asked for, and every `GetProcAddr` resolves
every name to the same function. -/
def World.twoGpus : World :=
  { World.quiet with
    EnumerateGpus := fun _ _ _ max => (XGL_RESULT.XGL_SUCCESS, [1000, 1001].take max),
    callGPA := fun _ _ _ => FnPtr.sym 99 }

/-- The world `World.twoGpus` except that every `DbgSetGlobalOption` fails. -/
def World.optionsFail : World :=
  { World.twoGpus with DbgSetGlobalOption := fun _ _ _ _ => XGL_RESULT.other 5 }

/-- The state `liveState` with debug echo enabled and one callback, function 7
with user data 8, registered before the scan. -/
def echoState : LoaderState :=
  { liveState with debug_echo_enable := true, msg_callbacks := [{ func := 7, data := 8 }] }

/-- The state `liveState` with one callback, function 7 with user data 8,
registered before the scan. -/
def pendingState : LoaderState :=
  { liveState with msg_callbacks := [{ func := 7, data := 8 }] }

/-- A dispatch table all of whose five named entries are resolved, to the
functions `sym (100 * c + i)` of driver `c`. -/
def driverTable (c : Nat) : XGL_LAYER_DISPATCH_TABLE :=
  { GetProcAddr := FnPtr.sym (100 * c), EnumerateLayers := FnPtr.sym (100 * c + 1),
    DbgRegisterMsgCallback := FnPtr.sym (100 * c + 2),
    DbgUnregisterMsgCallback := FnPtr.sym (100 * c + 3),
    DbgSetGlobalOption := FnPtr.sym (100 * c + 4), others := [] }

/-- The ICD of driver `c` at address `a` after it returned one device, whose
wrapper is the array `block`. -/
def oneDeviceIcd (a c block : Nat) : loader_icd :=
  { loader_icd_create a c with
    gpu_count := 1, gpus := Ptr.obj block 0, loader_dispatch := [driverTable c] }

/-- A state after `xglEnumerateGpus`: one instance, at address 50, with the
ICDs of the drivers 1 and 2, at the addresses 60 and 61, of one device each,
1000 and 2000. -/
def twoIcdState : LoaderState :=
  { scannedState [{ driverNode 1 with «instance» := 100 },
      { driverNode 2 with «instance» := 100 }] with
    instances := [{ addr := 50, icds := [oneDeviceIcd 60 1 0, oneDeviceIcd 61 2 1] }],
    objMem := [[{ pGPA := FnPtr.sym 10, nextObject := Ptr.driver 1000,
                  baseObject := Ptr.driver 1000 }],
               [{ pGPA := FnPtr.sym 20, nextObject := Ptr.driver 2000,
                  baseObject := Ptr.driver 2000 }]],
    driverHead := fun h =>
      if h = 1000 then Word.disp 60 0 else if h = 2000 then Word.disp 61 0 else Word.magic }

/-- The world `World.quiet` except that the `DbgRegisterMsgCallback` of
driver 2 fails. -/
def World.driver2Rejects : World :=
  { World.quiet with
    DbgRegisterMsgCallback := fun _ fp _ _ =>
      if fp = FnPtr.sym 202 then XGL_RESULT.other 6 else XGL_RESULT.XGL_SUCCESS }

/-- The world `World.quiet` with two layer libraries on disk: `liba`, which
opens with handle 21, reports the layer `alpha` and exports
`alphaGetProcAddr`, and `libb`, which opens with handle 22, reports the layer
`beta` and exports only the plain `xglGetProcAddr`. -/
def World.twoLayers : World :=
  { World.quiet with
    open_library := fun _ path => if path = "liba" then 21 else if path = "libb" then 22 else 0,
    get_proc_address := fun h n =>
      if h = 21 ∧ n = "xglEnumerateLayers" then FnPtr.sym 210
      else if h = 21 ∧ n = "alphaGetProcAddr" then FnPtr.sym 211
      else if h = 22 ∧ n = "xglEnumerateLayers" then FnPtr.sym 220
      else if h = 22 ∧ n = "xglGetProcAddr" then FnPtr.sym 221
      else FnPtr.null,
    EnumerateLayers := fun _ fp _ _ _ =>
      (XGL_RESULT.XGL_SUCCESS,
        if fp = FnPtr.sym 210 then ["alpha"] else if fp = FnPtr.sym 220 then ["beta"] else []) }

/-- The world `World.twoLayers` except that `liba` exports no `GetProcAddr`
of either name. -/
def World.noLayerGPA : World :=
  { World.twoLayers with
    get_proc_address := fun h n =>
      if h = 21 ∧ n = "xglEnumerateLayers" then FnPtr.sym 210
      else if h = 22 ∧ n = "xglEnumerateLayers" then FnPtr.sym 220
      else if h = 22 ∧ n = "xglGetProcAddr" then FnPtr.sym 221
      else FnPtr.null }

/-- The state `twoIcdState` after the layer scan found `liba` and `libb`. -/
def layerState : LoaderState :=
  { twoIcdState with scanned_layer_names := ["liba", "libb"] }

/-- A device create-info whose chain holds one `XGL_LAYER_CREATE_INFO` with
the names given. -/
def layerInfo (names : List String) : XGL_DEVICE_CREATE_INFO :=
  { pNext := [{ sType := 41, layerCount := names.length, ppActiveLayerNames := names }] }

/-- The state after `loader_activate_layers` has activated the layers `alpha`
and `beta` on the first device of `layerState`, the object 0 of block 0. -/
def layeredState : LoaderState :=
  ((loader_activate_layers World.twoLayers (Ptr.obj 0 0) (layerInfo ["alpha", "beta"])
    layerState).state?).getD layerState

/-- The first ICD of the first instance of `layeredState`. -/
def layeredIcd : loader_icd :=
  (layeredState.icdAt 0 0).getD (loader_icd_create 0 0)

/-- A state before any scan with two callbacks registered: function 7 with
user data 8 at the head of the list, then function 9 with user data 10. -/
def callbackState : LoaderState :=
  { LoaderState.init (fun _ => Word.magic) with
    msg_callbacks := [{ func := 7, data := 8 }, { func := 9, data := 10 }] }

/-- The world `World.twoLayers` with the environment variable of the layer
names set to `alpha`. -/
def World.envAlpha : World :=
  { World.twoLayers with
    getenv := fun n => if n = "LIBXGL_LAYER_NAMES" then some "alpha" else none }

/-- A device create-info whose chain holds one `XGL_LAYER_CREATE_INFO` of
`layerCount` 1 whose array holds `names`. -/
def oneLayerInfo (names : List String) : XGL_DEVICE_CREATE_INFO :=
  { pNext := [{ sType := 41, layerCount := 1, ppActiveLayerNames := names }] }

/-- The text of a path behind its last `/`. -/
def lastComponent (cur : List Char) : List Char → List Char
  | [] => cur.reverse
  | c :: cs => if c = '/' then lastComponent [] cs else lastComponent (c :: cur) cs

/-- The world `World.quiet` with a `basename` that returns the last component
of a path, in which the library `/usr/lib/libXGLLayeralpha.so` opens with
handle 31 and exports nothing, the library `/usr/lib/libXGLLayerb.so` opens
with handle 32 and exports an `xglEnumerateLayers` that reports the layer
`beta`, and a library whose file name is `libXGLLayer`, then `a` 257 times,
then `.so` opens with handle 33 and exports nothing. -/
def World.disk : World :=
  { World.quiet with
    basename := fun p => String.mk (lastComponent [] p.data),
    open_library := fun _ path =>
      if path = "/usr/lib/libXGLLayeralpha.so" then 31
      else if path = "/usr/lib/libXGLLayerb.so" then 32
      else if path = String.mk ("/usr/lib/libXGLLayer".data ++ List.replicate 257 'a' ++
          ".so".data) then 33
      else 0,
    get_proc_address := fun h n =>
      if h = 32 ∧ n = "xglEnumerateLayers" then FnPtr.sym 320 else FnPtr.null,
    EnumerateLayers := fun _ fp _ _ _ =>
      (XGL_RESULT.XGL_SUCCESS, if fp = FnPtr.sym 320 then ["beta"] else []) }

/-- The state `twoIcdState` after the layer scan found the libraries listed. -/
def diskState (libs : List String) : LoaderState :=
  { twoIcdState with scanned_layer_names := libs }

/-- The path of the library of `World.disk` with the long file name. -/
def longLib : String :=
  String.mk ("/usr/lib/libXGLLayer".data ++ List.replicate 257 'a' ++ ".so".data)

/-- The texts of the C strings in the buffers a result of `xglEnumerateLayers`
leaves, the first `count` of them. -/
def EnumerateLayersResult.names (r : EnumerateLayersResult) : List (List Char) :=
  match r.pOutLayerCount, r.pOutLayers with
  | some count, some out => (out.take count).map cstr
  | _, _ => []

/-- The library handles closed in a piece of trace, in order. -/
def closedHandles : List Event → List Nat
  | [] => []
  | Event.close_library h :: es => h :: closedHandles es
  | _ :: es => closedHandles es

/-- The world `World.quiet` run with the effective user 0 by the real user
1000, every environment variable being set to `/tmp/evil`. -/
def World.setuid : World :=
  { World.quiet with geteuid := 0, getuid := 1000, getenv := fun _ => some "/tmp/evil" }

/-- The world `World.quiet` with every environment variable set to
`/opt/xgl`. -/
def World.envPaths : World :=
  { World.quiet with getenv := fun _ => some "/opt/xgl" }

/-- The state `layeredState` with break-on-error set. -/
def layeredBreakState : LoaderState :=
  { layeredState with break_on_error := true }

/-- The callbacks invoked in a piece of trace, in order: function, user data,
message type and text. -/
def logCalls : List Event → List (Nat × Nat × XGL_DBG_MSG_TYPE × String)
  | [] => []
  | Event.msg_callback f d t m :: es => (f, d, t, m) :: logCalls es
  | _ :: es => logCalls es

/-- The state `callbackState` with break-on-warning set and break-on-error
unset. -/
def warningBreakState : LoaderState :=
  { callbackState with break_on_warning := true }

/-- The state `callbackState` with break-on-error set and break-on-warning
unset. -/
def errorBreakState : LoaderState :=
  { callbackState with break_on_error := true }

/-- The world `World.quiet` except that every driver rejects the registration
of the callback function 9. -/
def World.rejectsNine : World :=
  { World.quiet with
    DbgRegisterMsgCallback := fun _ _ func _ =>
      if func = 9 then XGL_RESULT.other 6 else XGL_RESULT.XGL_SUCCESS }

/-- The ICD of driver `c` at address `a` after it returned two devices, whose
wrappers are the array `block`. -/
def twoDeviceIcd (a c block : Nat) : loader_icd :=
  { loader_icd_create a c with
    gpu_count := 2, gpus := Ptr.obj block 0, loader_dispatch := [driverTable c, driverTable c] }

/-- The state `layerState` with two requested layers in the array
`layerNames`: `alpha` of the library `libmissing` and `beta` of `libb`. -/
def requestedState : LoaderState :=
  (layerState.setLayerName 0 { layer_name := "alpha", lib_name := "libmissing" }).setLayerName 1
    { layer_name := "beta", lib_name := "libb" }

/-- The world `World.twoLayers` except that `liba` opens only once: after it
has been opened with handle 21, opening it again fails. -/
def World.openOnce : World :=
  { World.twoLayers with
    open_library := fun tr path =>
      if path = "liba" then (if Event.open_library "liba" 21 ∈ tr then 0 else 21)
      else if path = "libb" then 22 else 0 }

/-- The world `World.twoLayers` with the environment variable of the layer
names set to `alpha:gamma`. -/
def World.envAlphaGamma : World :=
  { World.twoLayers with
    getenv := fun n => if n = "LIBXGL_LAYER_NAMES" then some "alpha:gamma" else none }

/-- What the two scans of `xglCreateInstance` leave alone: the instance list
and the two break options are the same in both states, and the calls made in
between include no driver `CreateInstance`. -/
def LoaderState.scanFrame (s s1 : LoaderState) : Prop :=
  s1.instances = s.instances ∧ s1.break_on_error = s.break_on_error ∧
  s1.break_on_warning = s.break_on_warning ∧
  ∃ evs, s1.trace = s.trace ++ evs ∧ createCalls evs = []

/-- The initial state of the loader with break-on-error set. -/
def errorBreakInit : LoaderState :=
  { LoaderState.init (fun _ => Word.magic) with break_on_error := true }

/-- The world `World.quiet` with room for one layer library in which the
directory `/usr/lib` holds the two layer libraries `libXGLLayera.so` and
`libXGLLayerb.so`, and every library opens with handle 5. -/
def World.crowded : World :=
  { World.quiet with
    MAX_LAYER_LIBRARIES := 1,
    readdir := fun p =>
      if p = "/usr/lib" then some ["libXGLLayera.so", "libXGLLayerb.so"] else none,
    open_library := fun _ _ => 5 }

/-- The world `World.quiet` in which the directory `/usr/lib` holds the two
driver libraries `libXGL_a.so` and `libXGL_b.so`, which open with the handles
11 and 12 and export the four entry points the loader looks up, as
`sym (10 * handle + i)`; the `CreateInstance` of the first fails. -/
def World.discover : World :=
  { World.quiet with
    readdir := fun p => if p = "/usr/lib" then some ["libXGL_a.so", "libXGL_b.so"] else none,
    open_library := fun _ path =>
      if path = "/usr/lib/libXGL_a.so" then 11
      else if path = "/usr/lib/libXGL_b.so" then 12 else 0,
    get_proc_address := fun h n =>
      if h = 0 then FnPtr.null
      else if n = "xglGetProcAddr" then FnPtr.sym (10 * h)
      else if n = "xglCreateInstance" then FnPtr.sym (10 * h + 1)
      else if n = "xglDestroyInstance" then FnPtr.sym (10 * h + 2)
      else if n = "xglEnumerateGpus" then FnPtr.sym (10 * h + 3)
      else FnPtr.null,
    CreateInstance := fun _ fp =>
      if fp = FnPtr.sym 111 then (XGL_RESULT.other 7, 0) else (XGL_RESULT.XGL_SUCCESS, 100) }

/-- The state after both scans found the drivers 1 and 2, with break-on-error
set. -/
def errorBreakScanned : LoaderState :=
  { scannedState [driverNode 1, driverNode 2] with break_on_error := true }

@[simp]
theorem LoaderState.emits_fields (s : LoaderState) (es : List Event) :
    (s.emits es).layerNames = s.layerNames ∧
    (s.emits es).instances = s.instances ∧
    (s.emits es).icds_scanned = s.icds_scanned ∧
    (s.emits es).scanned_icd_list = s.scanned_icd_list ∧
    (s.emits es).layer_scanned = s.layer_scanned ∧
    (s.emits es).layer_dirs = s.layer_dirs ∧
    (s.emits es).scanned_layer_names = s.scanned_layer_names ∧
    (s.emits es).msg_callbacks = s.msg_callbacks ∧
    (s.emits es).debug_echo_enable = s.debug_echo_enable ∧
    (s.emits es).break_on_error = s.break_on_error ∧
    (s.emits es).break_on_warning = s.break_on_warning ∧
    (s.emits es).objMem = s.objMem ∧
    (s.emits es).driverHead = s.driverHead ∧
    (s.emits es).once_icd = s.once_icd ∧
    (s.emits es).once_layer = s.once_layer ∧
    (s.emits es).brk = s.brk ∧
    (s.emits es).freed = s.freed ∧
    (s.emits es).trace = s.trace ++ es := by
  simp [LoaderState.emits]

@[simp]
theorem LoaderState.alloc_fields (s : LoaderState)  :
    s.alloc.layerNames = s.layerNames ∧
    s.alloc.instances = s.instances ∧
    s.alloc.icds_scanned = s.icds_scanned ∧
    s.alloc.scanned_icd_list = s.scanned_icd_list ∧
    s.alloc.layer_scanned = s.layer_scanned ∧
    s.alloc.layer_dirs = s.layer_dirs ∧
    s.alloc.scanned_layer_names = s.scanned_layer_names ∧
    s.alloc.msg_callbacks = s.msg_callbacks ∧
    s.alloc.debug_echo_enable = s.debug_echo_enable ∧
    s.alloc.break_on_error = s.break_on_error ∧
    s.alloc.break_on_warning = s.break_on_warning ∧
    s.alloc.objMem = s.objMem ∧
    s.alloc.driverHead = s.driverHead ∧
    s.alloc.once_icd = s.once_icd ∧
    s.alloc.once_layer = s.once_layer ∧
    s.alloc.brk = s.brk + 1 ∧
    s.alloc.freed = s.freed ∧
    s.alloc.trace = s.trace := by
  simp [LoaderState.alloc]

@[simp]
theorem LoaderState.free_fields (s : LoaderState) (p : Alloc) :
    (s.free p).layerNames = s.layerNames ∧
    (s.free p).instances = s.instances ∧
    (s.free p).icds_scanned = s.icds_scanned ∧
    (s.free p).scanned_icd_list = s.scanned_icd_list ∧
    (s.free p).layer_scanned = s.layer_scanned ∧
    (s.free p).layer_dirs = s.layer_dirs ∧
    (s.free p).scanned_layer_names = s.scanned_layer_names ∧
    (s.free p).msg_callbacks = s.msg_callbacks ∧
    (s.free p).debug_echo_enable = s.debug_echo_enable ∧
    (s.free p).break_on_error = s.break_on_error ∧
    (s.free p).break_on_warning = s.break_on_warning ∧
    (s.free p).objMem = s.objMem ∧
    (s.free p).driverHead = s.driverHead ∧
    (s.free p).once_icd = s.once_icd ∧
    (s.free p).once_layer = s.once_layer ∧
    (s.free p).brk = s.brk ∧
    (s.free p).freed = p :: s.freed ∧
    (s.free p).trace = s.trace := by
  simp [LoaderState.free]

@[simp]
theorem LoaderState.withInstances_fields (s : LoaderState) (l : List loader_instance) :
    (s.withInstances l).layerNames = s.layerNames ∧
    (s.withInstances l).instances = l ∧
    (s.withInstances l).icds_scanned = s.icds_scanned ∧
    (s.withInstances l).scanned_icd_list = s.scanned_icd_list ∧
    (s.withInstances l).layer_scanned = s.layer_scanned ∧
    (s.withInstances l).layer_dirs = s.layer_dirs ∧
    (s.withInstances l).scanned_layer_names = s.scanned_layer_names ∧
    (s.withInstances l).msg_callbacks = s.msg_callbacks ∧
    (s.withInstances l).debug_echo_enable = s.debug_echo_enable ∧
    (s.withInstances l).break_on_error = s.break_on_error ∧
    (s.withInstances l).break_on_warning = s.break_on_warning ∧
    (s.withInstances l).objMem = s.objMem ∧
    (s.withInstances l).driverHead = s.driverHead ∧
    (s.withInstances l).once_icd = s.once_icd ∧
    (s.withInstances l).once_layer = s.once_layer ∧
    (s.withInstances l).brk = s.brk ∧
    (s.withInstances l).freed = s.freed ∧
    (s.withInstances l).trace = s.trace := by
  simp [LoaderState.withInstances]

@[simp]
theorem LoaderState.withScanned_fields (s : LoaderState) (l : List loader_scanned_icds) :
    (s.withScanned l).layerNames = s.layerNames ∧
    (s.withScanned l).instances = s.instances ∧
    (s.withScanned l).icds_scanned = s.icds_scanned ∧
    (s.withScanned l).scanned_icd_list = l ∧
    (s.withScanned l).layer_scanned = s.layer_scanned ∧
    (s.withScanned l).layer_dirs = s.layer_dirs ∧
    (s.withScanned l).scanned_layer_names = s.scanned_layer_names ∧
    (s.withScanned l).msg_callbacks = s.msg_callbacks ∧
    (s.withScanned l).debug_echo_enable = s.debug_echo_enable ∧
    (s.withScanned l).break_on_error = s.break_on_error ∧
    (s.withScanned l).break_on_warning = s.break_on_warning ∧
    (s.withScanned l).objMem = s.objMem ∧
    (s.withScanned l).driverHead = s.driverHead ∧
    (s.withScanned l).once_icd = s.once_icd ∧
    (s.withScanned l).once_layer = s.once_layer ∧
    (s.withScanned l).brk = s.brk ∧
    (s.withScanned l).freed = s.freed ∧
    (s.withScanned l).trace = s.trace := by
  simp [LoaderState.withScanned]

@[simp]
theorem LoaderState.withCallbacks_fields (s : LoaderState) (l : List loader_msg_callback) :
    (s.withCallbacks l).layerNames = s.layerNames ∧
    (s.withCallbacks l).instances = s.instances ∧
    (s.withCallbacks l).icds_scanned = s.icds_scanned ∧
    (s.withCallbacks l).scanned_icd_list = s.scanned_icd_list ∧
    (s.withCallbacks l).layer_scanned = s.layer_scanned ∧
    (s.withCallbacks l).layer_dirs = s.layer_dirs ∧
    (s.withCallbacks l).scanned_layer_names = s.scanned_layer_names ∧
    (s.withCallbacks l).msg_callbacks = l ∧
    (s.withCallbacks l).debug_echo_enable = s.debug_echo_enable ∧
    (s.withCallbacks l).break_on_error = s.break_on_error ∧
    (s.withCallbacks l).break_on_warning = s.break_on_warning ∧
    (s.withCallbacks l).objMem = s.objMem ∧
    (s.withCallbacks l).driverHead = s.driverHead ∧
    (s.withCallbacks l).once_icd = s.once_icd ∧
    (s.withCallbacks l).once_layer = s.once_layer ∧
    (s.withCallbacks l).brk = s.brk ∧
    (s.withCallbacks l).freed = s.freed ∧
    (s.withCallbacks l).trace = s.trace := by
  simp [LoaderState.withCallbacks]

@[simp]
theorem LoaderState.withObjMem_fields (s : LoaderState) (m : List (List XGL_BASE_LAYER_OBJECT)) :
    (s.withObjMem m).layerNames = s.layerNames ∧
    (s.withObjMem m).instances = s.instances ∧
    (s.withObjMem m).icds_scanned = s.icds_scanned ∧
    (s.withObjMem m).scanned_icd_list = s.scanned_icd_list ∧
    (s.withObjMem m).layer_scanned = s.layer_scanned ∧
    (s.withObjMem m).layer_dirs = s.layer_dirs ∧
    (s.withObjMem m).scanned_layer_names = s.scanned_layer_names ∧
    (s.withObjMem m).msg_callbacks = s.msg_callbacks ∧
    (s.withObjMem m).debug_echo_enable = s.debug_echo_enable ∧
    (s.withObjMem m).break_on_error = s.break_on_error ∧
    (s.withObjMem m).break_on_warning = s.break_on_warning ∧
    (s.withObjMem m).objMem = m ∧
    (s.withObjMem m).driverHead = s.driverHead ∧
    (s.withObjMem m).once_icd = s.once_icd ∧
    (s.withObjMem m).once_layer = s.once_layer ∧
    (s.withObjMem m).brk = s.brk ∧
    (s.withObjMem m).freed = s.freed ∧
    (s.withObjMem m).trace = s.trace := by
  simp [LoaderState.withObjMem]

@[simp]
theorem LoaderState.writeHead_fields (s : LoaderState) (h : Nat) (w : Word) :
    (s.writeHead h w).layerNames = s.layerNames ∧
    (s.writeHead h w).instances = s.instances ∧
    (s.writeHead h w).icds_scanned = s.icds_scanned ∧
    (s.writeHead h w).scanned_icd_list = s.scanned_icd_list ∧
    (s.writeHead h w).layer_scanned = s.layer_scanned ∧
    (s.writeHead h w).layer_dirs = s.layer_dirs ∧
    (s.writeHead h w).scanned_layer_names = s.scanned_layer_names ∧
    (s.writeHead h w).msg_callbacks = s.msg_callbacks ∧
    (s.writeHead h w).debug_echo_enable = s.debug_echo_enable ∧
    (s.writeHead h w).break_on_error = s.break_on_error ∧
    (s.writeHead h w).break_on_warning = s.break_on_warning ∧
    (s.writeHead h w).objMem = s.objMem ∧
    (s.writeHead h w).driverHead = (fun x => if x = h then w else s.driverHead x) ∧
    (s.writeHead h w).once_icd = s.once_icd ∧
    (s.writeHead h w).once_layer = s.once_layer ∧
    (s.writeHead h w).brk = s.brk ∧
    (s.writeHead h w).freed = s.freed ∧
    (s.writeHead h w).trace = s.trace := by
  simp [LoaderState.writeHead]

@[simp]
theorem LoaderState.withLayerNames_fields (s : LoaderState) (l : Nat → layer_name_pair) :
    (s.withLayerNames l).layerNames = l ∧
    (s.withLayerNames l).instances = s.instances ∧
    (s.withLayerNames l).icds_scanned = s.icds_scanned ∧
    (s.withLayerNames l).scanned_icd_list = s.scanned_icd_list ∧
    (s.withLayerNames l).layer_scanned = s.layer_scanned ∧
    (s.withLayerNames l).layer_dirs = s.layer_dirs ∧
    (s.withLayerNames l).scanned_layer_names = s.scanned_layer_names ∧
    (s.withLayerNames l).msg_callbacks = s.msg_callbacks ∧
    (s.withLayerNames l).debug_echo_enable = s.debug_echo_enable ∧
    (s.withLayerNames l).break_on_error = s.break_on_error ∧
    (s.withLayerNames l).break_on_warning = s.break_on_warning ∧
    (s.withLayerNames l).objMem = s.objMem ∧
    (s.withLayerNames l).driverHead = s.driverHead ∧
    (s.withLayerNames l).once_icd = s.once_icd ∧
    (s.withLayerNames l).once_layer = s.once_layer ∧
    (s.withLayerNames l).brk = s.brk ∧
    (s.withLayerNames l).freed = s.freed ∧
    (s.withLayerNames l).trace = s.trace := by
  simp [LoaderState.withLayerNames]

@[simp]
theorem LoaderState.emit_eq (s : LoaderState) (e : Event) : s.emit e = s.emits [e] := rfl

theorem Res.ok_bind {α β : Type} (a : α) (s : LoaderState) (f : α → LoaderState → Res β) :
    (Res.ok a s).bind f = f a s := rfl

/-! ## `xglCreateInstance` -/

theorem createCalls_append (a b : List Event) :
    createCalls (a ++ b) = createCalls a ++ createCalls b := by
  induction a with
  | nil => rfl
  | cons e es ih => cases e <;> simp [createCalls, ih]

theorem created_append (a b : List Event) : created (a ++ b) = created a ++ created b := by
  simp [created, createCalls_append]

theorem createCalls_log_callbacks (t : XGL_DBG_MSG_TYPE) (m : String)
    (cbs : List loader_msg_callback) : createCalls (loader_log_callbacks t m cbs) = [] := by
  induction cbs with
  | nil => rfl
  | cons c cs ih => simp [loader_log_callbacks, createCalls, ih]

theorem createCalls_log_events (t : XGL_DBG_MSG_TYPE) (m : String) (s : LoaderState) :
    createCalls (loader_log_events t m s) = [] := by
  unfold loader_log_events
  rw [createCalls_append, createCalls_log_callbacks]
  split <;> simp [createCalls]

theorem setScannedInstance_addr (v : Nat) (k : Nat) (l : List loader_scanned_icds) :
    (setScannedInstance v k l).map (fun n => n.addr) = l.map (fun n => n.addr) := by
  induction l generalizing k with
  | nil => cases k <;> rfl
  | cons n rest ih => cases k <;> simp [setScannedInstance, ih]

theorem scanned_isSome (s : LoaderState) (a : Nat)
    (h : a ∈ s.scanned_icd_list.map (fun n => n.addr)) : ∃ n, s.scanned a = some n := by
  unfold LoaderState.scanned
  cases hf : s.scanned_icd_list.find? (fun n => n.addr == a) with
  | some n => exact ⟨n, rfl⟩
  | none =>
      exfalso
      rw [List.find?_eq_none] at hf
      obtain ⟨n, hn, rfl⟩ := List.mem_map.1 h
      exact hf n hn (by simp)

/-- A warning ends the process exactly when break-on-warning is set. -/
theorem loader_log_warning (m : String) (s : LoaderState) :
    loader_log XGL_DBG_MSG_TYPE.XGL_DBG_MSG_WARNING m s =
      if s.break_on_warning then
        Res.exit 1 (s.emits (loader_log_events XGL_DBG_MSG_TYPE.XGL_DBG_MSG_WARNING m s))
      else Res.ok () (s.emits (loader_log_events XGL_DBG_MSG_TYPE.XGL_DBG_MSG_WARNING m s)) := by
  simp [loader_log, loader_log_breaks]

theorem xglCreateInstance_loop_spec (W : World) (ptr : Nat) :
    ∀ (rest : List loader_scanned_icds) (k : Nat) (s : LoaderState)
      (icds0 : List loader_icd) (tl : List loader_instance),
      s.instances = { addr := ptr, icds := icds0 } :: tl →
      (∀ n ∈ rest, n.addr ∈ s.scanned_icd_list.map (fun n => n.addr)) →
      ∃ s' evs icds,
        s'.trace = s.trace ++ evs ∧
        s'.instances = { addr := ptr, icds := icds } :: tl ∧
        icds.map (fun c => c.scanned_icds) =
          (created evs).reverse ++ icds0.map (fun c => c.scanned_icds) ∧
        s'.break_on_warning = s.break_on_warning ∧
        s'.scanned_icd_list.map (fun n => n.addr) = s.scanned_icd_list.map (fun n => n.addr) ∧
        ((xglCreateInstance_loop W ptr k rest s = Res.ok () s' ∧
            (createCalls evs).map Prod.fst = rest.map (fun n => n.addr)) ∨
         (xglCreateInstance_loop W ptr k rest s = Res.exit 1 s' ∧
            s.break_on_warning = true ∧
            (createCalls evs).map Prod.fst <+: rest.map (fun n => n.addr) ∧
            ∃ p ∈ createCalls evs, p.2 ≠ XGL_RESULT.XGL_SUCCESS)) := by
  intro rest
  induction rest with
  | nil =>
      intro k s icds0 tl hi _
      exact ⟨s, [], icds0, by simp, hi, by simp [created, createCalls], rfl, rfl,
        Or.inl ⟨rfl, by simp [createCalls]⟩⟩
  | cons n rest ih =>
      intro k s icds0 tl hi hmem
      have hn : n.addr ∈ s.scanned_icd_list.map (fun n => n.addr) := hmem n (by simp)
      have hrest : ∀ m ∈ rest, m.addr ∈ s.scanned_icd_list.map (fun n => n.addr) :=
        fun m hm => hmem m (by simp [hm])
      rw [xglCreateInstance_loop]
      by_cases hr : (W.CreateInstance s.trace n.CreateInstance).1 = XGL_RESULT.XGL_SUCCESS
      · -- the driver accepted: the node stays at the head
        have hres : (call_CreateInstance W k n (loader_icd_add ptr n.addr s).2).1 =
            XGL_RESULT.XGL_SUCCESS := by
          simpa [call_CreateInstance, loader_icd_add] using hr
        rw [if_neg (not_not.2 hres)]
        obtain ⟨s', evs, icds, htr, hins, hmap, hbw, hsc, hout⟩ :=
          ih (k + 1) (call_CreateInstance W k n (loader_icd_add ptr n.addr s).2).2
            (loader_icd_create s.brk n.addr :: icds0) tl
            (by simp [call_CreateInstance, loader_icd_add, hi, modifyInstance])
            (by simpa [call_CreateInstance, loader_icd_add, setScannedInstance_addr] using hrest)
        refine ⟨s', Event.CreateInstance n.addr n.CreateInstance
            (W.CreateInstance s.trace n.CreateInstance).1
            (W.CreateInstance s.trace n.CreateInstance).2 :: evs, icds, ?_, hins, ?_, ?_, ?_,
            ?_⟩
        · simpa [call_CreateInstance, loader_icd_add] using htr
        · rw [hmap]
          simp [created, createCalls, hr, loader_icd_create]
        · simpa [call_CreateInstance, loader_icd_add] using hbw
        · simpa [call_CreateInstance, loader_icd_add, setScannedInstance_addr] using hsc
        · rcases hout with ⟨h1, h2⟩ | ⟨h1, h2, h3, h4⟩
          · exact Or.inl ⟨h1, by simp [createCalls, h2]⟩
          · refine Or.inr ⟨h1, by simpa [call_CreateInstance, loader_icd_add] using h2, ?_, ?_⟩
            · simpa [createCalls] using h3
            · obtain ⟨p, hp, hp2⟩ := h4
              exact ⟨p, by simp [createCalls, hp], hp2⟩
      · -- the driver refused: the node is unlinked again and a warning logged
        have hres : (call_CreateInstance W k n (loader_icd_add ptr n.addr s).2).1 ≠
            XGL_RESULT.XGL_SUCCESS := by
          simpa [call_CreateInstance, loader_icd_add] using hr
        rw [if_pos hres]
        obtain ⟨m, hm⟩ := scanned_isSome
          (unlink_head ptr (call_CreateInstance W k n (loader_icd_add ptr n.addr s).2).2) n.addr
          (by simpa [unlink_head, call_CreateInstance, loader_icd_add,
            setScannedInstance_addr] using hn)
        have hd : loader_icd_destroy (loader_icd_add ptr n.addr s).1
            (unlink_head ptr (call_CreateInstance W k n (loader_icd_add ptr n.addr s).2).2) =
            Res.ok () (((unlink_head ptr (call_CreateInstance W k n
              (loader_icd_add ptr n.addr s).2).2).emit (Event.close_library m.handle)).free
                (Alloc.node (loader_icd_add ptr n.addr s).1.addr)) := by
          unfold loader_icd_destroy
          have : (loader_icd_add ptr n.addr s).1.scanned_icds = n.addr := rfl
          rw [this, hm]
        rw [hd]
        simp only [Res.bind]
        rw [loader_log_warning]
        generalize hX : LoaderState.withScanned _ _ = X
        have hXtr : X.trace = s.trace ++ [Event.CreateInstance n.addr n.CreateInstance
            (W.CreateInstance s.trace n.CreateInstance).1
            (W.CreateInstance s.trace n.CreateInstance).2, Event.close_library m.handle] := by
          rw [← hX]; simp [unlink_head, call_CreateInstance, loader_icd_add]
        have hXin : X.instances = { addr := ptr, icds := icds0 } :: tl := by
          rw [← hX]; simp [unlink_head, call_CreateInstance, loader_icd_add, hi, modifyInstance]
        have hXbw : X.break_on_warning = s.break_on_warning := by
          rw [← hX]; simp [unlink_head, call_CreateInstance, loader_icd_add]
        have hXsc : X.scanned_icd_list.map (fun n => n.addr) =
            s.scanned_icd_list.map (fun n => n.addr) := by
          rw [← hX]
          simp [unlink_head, call_CreateInstance, loader_icd_add, setScannedInstance_addr]
        have hcalls : createCalls (Event.CreateInstance n.addr n.CreateInstance
            (W.CreateInstance s.trace n.CreateInstance).1
            (W.CreateInstance s.trace n.CreateInstance).2 :: Event.close_library m.handle ::
            loader_log_events XGL_DBG_MSG_TYPE.XGL_DBG_MSG_WARNING
              "ICD ignored: failed to CreateInstance on device" X) =
            [(n.addr, (W.CreateInstance s.trace n.CreateInstance).1)] := by
          simp [createCalls, createCalls_log_events]
        have hcr : created (Event.CreateInstance n.addr n.CreateInstance
            (W.CreateInstance s.trace n.CreateInstance).1
            (W.CreateInstance s.trace n.CreateInstance).2 :: Event.close_library m.handle ::
            loader_log_events XGL_DBG_MSG_TYPE.XGL_DBG_MSG_WARNING
              "ICD ignored: failed to CreateInstance on device" X) = [] := by
          unfold created; rw [hcalls]; simp [hr]
        by_cases hb : s.break_on_warning = true
        · -- the warning terminates the process
          rw [if_pos (hXbw.trans hb)]
          refine ⟨_, Event.CreateInstance n.addr n.CreateInstance
              (W.CreateInstance s.trace n.CreateInstance).1
              (W.CreateInstance s.trace n.CreateInstance).2 :: Event.close_library m.handle ::
              loader_log_events XGL_DBG_MSG_TYPE.XGL_DBG_MSG_WARNING
                "ICD ignored: failed to CreateInstance on device" X,
              icds0, ?_, ?_, ?_, ?_, ?_, Or.inr ⟨rfl, hb, ?_, ?_⟩⟩
          · simp [hXtr]
          · simpa using hXin
          · rw [hcr]; rfl
          · simpa using hXbw
          · simpa using hXsc
          · rw [hcalls]; simp
          · rw [hcalls]; exact ⟨_, List.mem_singleton.2 rfl, hr⟩
        · -- the loop goes on with the next scanned ICD
          rw [if_neg (by rw [hXbw]; exact hb)]
          obtain ⟨s', evs, icds, htr, hins, hmap, hbw, hsc, hout⟩ :=
            ih (k + 1) (X.emits (loader_log_events XGL_DBG_MSG_TYPE.XGL_DBG_MSG_WARNING
                "ICD ignored: failed to CreateInstance on device" X)) icds0 tl
              (by simpa using hXin) (by simpa [hXsc] using hrest)
          refine ⟨s', (Event.CreateInstance n.addr n.CreateInstance
              (W.CreateInstance s.trace n.CreateInstance).1
              (W.CreateInstance s.trace n.CreateInstance).2 :: Event.close_library m.handle ::
              loader_log_events XGL_DBG_MSG_TYPE.XGL_DBG_MSG_WARNING
                "ICD ignored: failed to CreateInstance on device" X) ++ evs, icds,
              ?_, hins, ?_, ?_, ?_, ?_⟩
          · simpa [hXtr] using htr
          · rw [hmap, created_append, hcr]; rfl
          · simpa [hXbw] using hbw
          · simpa [hXsc] using hsc
          · rcases hout with ⟨h1, h2⟩ | ⟨h1, h2, h3, h4⟩
            · exact Or.inl ⟨h1, by rw [createCalls_append, hcalls]; simp [h2]⟩
            · exact absurd (by simpa [hXbw] using h2) hb

theorem LoaderState.scanFrame_refl (s : LoaderState) : s.scanFrame s :=
  ⟨rfl, rfl, rfl, [], by simp, rfl⟩

theorem LoaderState.scanFrame_trans {a b c : LoaderState} (h1 : a.scanFrame b)
    (h2 : b.scanFrame c) : a.scanFrame c := by
  obtain ⟨a1, a2, a3, e1, a4, a5⟩ := h1
  obtain ⟨b1, b2, b3, e2, b4, b5⟩ := h2
  refine ⟨b1.trans a1, b2.trans a2, b3.trans a3, e1 ++ e2, ?_, ?_⟩
  · rw [b4, a4, List.append_assoc]
  · rw [createCalls_append, a5, b5]
    rfl

theorem LoaderState.scanFrame_emits (s : LoaderState) (evs : List Event)
    (h : createCalls evs = []) : s.scanFrame (s.emits evs) :=
  ⟨rfl, rfl, rfl, evs, rfl, h⟩

/-- A warning logged during a scan ends the process only when
break-on-warning is set. -/
theorem loader_log_warning_scan (m : String) (s : LoaderState) :
    ∃ s1, s.scanFrame s1 ∧ s1.once_layer = s.once_layer ∧
      s1.scanned_icd_list = s.scanned_icd_list ∧ s1.brk = s.brk ∧
      (loader_log XGL_DBG_MSG_TYPE.XGL_DBG_MSG_WARNING m s = Res.ok () s1 ∨
        (loader_log XGL_DBG_MSG_TYPE.XGL_DBG_MSG_WARNING m s = Res.exit 1 s1 ∧
          s.break_on_warning = true)) := by
  refine ⟨s.emits (loader_log_events XGL_DBG_MSG_TYPE.XGL_DBG_MSG_WARNING m s),
    s.scanFrame_emits _ (createCalls_log_events _ _ _), rfl, rfl, rfl, ?_⟩
  rw [loader_log_warning]
  by_cases hb : s.break_on_warning = true
  · rw [if_pos hb]
    exact Or.inr ⟨rfl, hb⟩
  · rw [if_neg hb]
    exact Or.inl rfl

/-- An error logged during a scan ends the process only when break-on-error
or break-on-warning is set. -/
theorem loader_log_error_scan (m : String) (s : LoaderState) :
    ∃ s1, s.scanFrame s1 ∧ s1.scanned_icd_list = s.scanned_icd_list ∧ s1.brk = s.brk ∧
      (loader_log XGL_DBG_MSG_TYPE.XGL_DBG_MSG_ERROR m s = Res.ok () s1 ∨
        (loader_log XGL_DBG_MSG_TYPE.XGL_DBG_MSG_ERROR m s = Res.exit 1 s1 ∧
          (s.break_on_error = true ∨ s.break_on_warning = true))) := by
  refine ⟨s.emits (loader_log_events XGL_DBG_MSG_TYPE.XGL_DBG_MSG_ERROR m s),
    s.scanFrame_emits _ (createCalls_log_events _ _ _), rfl, rfl, ?_⟩
  unfold loader_log
  by_cases hb : loader_log_breaks XGL_DBG_MSG_TYPE.XGL_DBG_MSG_ERROR s = true
  · rw [if_pos hb]
    refine Or.inr ⟨rfl, ?_⟩
    simpa [loader_log_breaks] using hb
  · rw [if_neg hb]
    exact Or.inl rfl

theorem loader_scanned_icd_add_scan (W : World) (filename : String) (s : LoaderState) :
    ∃ s1, s.scanFrame s1 ∧ s1.once_layer = s.once_layer ∧
      (loader_scanned_icd_add W filename s = Res.ok () s1 ∨
        (loader_scanned_icd_add W filename s = Res.exit 1 s1 ∧ s.break_on_warning = true)) := by
  have hf : s.scanFrame (s.emit (Event.open_library filename (W.open_library s.trace filename))) :=
    s.scanFrame_emits _ rfl
  have hw : ∀ m : String, ∃ s1, s.scanFrame s1 ∧ s1.once_layer = s.once_layer ∧
      (loader_log XGL_DBG_MSG_TYPE.XGL_DBG_MSG_WARNING m
          (s.emit (Event.open_library filename (W.open_library s.trace filename))) =
          Res.ok () s1 ∨
        (loader_log XGL_DBG_MSG_TYPE.XGL_DBG_MSG_WARNING m
          (s.emit (Event.open_library filename (W.open_library s.trace filename))) =
          Res.exit 1 s1 ∧ s.break_on_warning = true)) := by
    intro m
    obtain ⟨s1, a1, a2, _, _, a3⟩ := loader_log_warning_scan m
      (s.emit (Event.open_library filename (W.open_library s.trace filename)))
    exact ⟨s1, LoaderState.scanFrame_trans hf a1, a2, a3⟩
  unfold loader_scanned_icd_add
  simp only []
  split
  · exact hw _
  · split
    · exact hw _
    · refine ⟨_, ?_, ?_, Or.inl rfl⟩
      · refine LoaderState.scanFrame_trans hf ⟨?_, ?_, ?_, [], ?_, rfl⟩ <;> simp
      · simp

theorem loader_icd_scan_dir_scan (W : World) (p : String) :
    ∀ (l : List String) (s : LoaderState),
      ∃ s1, s.scanFrame s1 ∧ s1.once_layer = s.once_layer ∧
        (loader_icd_scan_dir W p l s = Res.ok () s1 ∨
          (loader_icd_scan_dir W p l s = Res.exit 1 s1 ∧ s.break_on_warning = true)) := by
  intro l
  induction l with
  | nil => exact fun s => ⟨s, s.scanFrame_refl, rfl, Or.inl rfl⟩
  | cons d rest ih =>
      intro s
      rw [loader_icd_scan_dir]
      split
      · obtain ⟨s1, a1, a2, a3⟩ := loader_scanned_icd_add_scan W (join_path W p d) s
        rcases a3 with h | ⟨h, hb⟩
        · rw [h, Res.ok_bind]
          obtain ⟨s2, b1, b2, b3⟩ := ih s1
          refine ⟨s2, LoaderState.scanFrame_trans a1 b1, b2.trans a2, ?_⟩
          rcases b3 with h2 | ⟨h2, hb2⟩
          · exact Or.inl h2
          · exact Or.inr ⟨h2, a1.2.2.1 ▸ hb2⟩
        · rw [h]
          exact ⟨s1, a1, a2, Or.inr ⟨rfl, hb⟩⟩
      · exact ih s

theorem loader_icd_scan_dirs_scan (W : World) :
    ∀ (l : List (List Char × Bool)) (s : LoaderState),
      ∃ s1, s.scanFrame s1 ∧ s1.once_layer = s.once_layer ∧
        (loader_icd_scan_dirs W l s = Res.ok () s1 ∨
          (loader_icd_scan_dirs W l s = Res.exit 1 s1 ∧ s.break_on_warning = true)) := by
  intro l
  induction l with
  | nil => exact fun s => ⟨s, s.scanFrame_refl, rfl, Or.inl rfl⟩
  | cons d rest ih =>
      intro s
      rw [loader_icd_scan_dirs]
      split
      · exact ih s
      · rename_i entries _
        obtain ⟨s1, a1, a2, a3⟩ := loader_icd_scan_dir_scan W _ entries s
        rcases a3 with h | ⟨h, hb⟩
        · rw [h, Res.ok_bind]
          obtain ⟨s2, b1, b2, b3⟩ := ih s1
          refine ⟨s2, LoaderState.scanFrame_trans a1 b1, b2.trans a2, ?_⟩
          rcases b3 with h2 | ⟨h2, hb2⟩
          · exact Or.inl h2
          · exact Or.inr ⟨h2, a1.2.2.1 ▸ hb2⟩
        · rw [h]
          exact ⟨s1, a1, a2, Or.inr ⟨rfl, hb⟩⟩

/-- The one-time driver scan: it returns, or a warning it logged ended the
process, break-on-warning being set on a first call. -/
theorem once_icd_scan_scan (W : World) (s : LoaderState) :
    ∃ s1, s.scanFrame s1 ∧ s1.once_layer = s.once_layer ∧
      (s.once_icd = true → s1 = s) ∧
      (once_icd_scan W s = Res.ok () s1 ∨
        (once_icd_scan W s = Res.exit 1 s1 ∧ s.once_icd = false ∧
          s.break_on_warning = true)) := by
  unfold once_icd_scan
  by_cases h : s.once_icd = true
  · rw [if_pos h]
    exact ⟨s, s.scanFrame_refl, rfl, fun _ => rfl, Or.inl rfl⟩
  · rw [if_neg h]
    have hf : s.scanFrame { s with once_icd := true } := ⟨rfl, rfl, rfl, [], by simp, rfl⟩
    unfold loader_icd_scan
    simp only []
    obtain ⟨s1, a1, a2, a3⟩ := loader_icd_scan_dirs_scan W
      (splitPieces W.PATH_SEPERATOR []
        (search_path W W.DRIVER_PATH_ENV W.DEFAULT_XGL_DRIVERS_PATH).data)
      { s with once_icd := true }
    rcases a3 with h1 | ⟨h1, hb⟩
    · rw [h1, Res.ok_bind]
      refine ⟨_, ?_, ?_, fun h' => absurd h' h, Or.inl rfl⟩
      · exact LoaderState.scanFrame_trans (LoaderState.scanFrame_trans hf a1) ⟨rfl, rfl, rfl, [], by simp, rfl⟩
      · exact a2
    · rw [h1]
      exact ⟨s1, LoaderState.scanFrame_trans hf a1, a2, fun h' => absurd h' h,
        Or.inr ⟨rfl, by simpa using h, hb⟩⟩

theorem layer_lib_scan_dir_scan (W : World) (p : String) :
    ∀ (l : List String) (s : LoaderState),
      ∃ s1, s.scanFrame s1 ∧ s1.scanned_icd_list = s.scanned_icd_list ∧ s1.brk = s.brk ∧
        (layer_lib_scan_dir W p l s = Res.ok () s1 ∨
          (layer_lib_scan_dir W p l s = Res.exit 1 s1 ∧
            (s.break_on_error = true ∨ s.break_on_warning = true))) := by
  intro l
  induction l with
  | nil => exact fun s => ⟨s, s.scanFrame_refl, rfl, rfl, Or.inl rfl⟩
  | cons d rest ih =>
      intro s
      rw [layer_lib_scan_dir]
      split
      · simp only []
        have hf : s.scanFrame (s.emit (Event.open_library (join_path W p d)
            (W.open_library s.trace (join_path W p d)))) := s.scanFrame_emits _ rfl
        split
        · obtain ⟨s2, b1, b2, b3, b4⟩ := ih (s.emit (Event.open_library (join_path W p d)
            (W.open_library s.trace (join_path W p d))))
          exact ⟨s2, LoaderState.scanFrame_trans hf b1, b2, b3, b4⟩
        · split
          · obtain ⟨s2, b1, b2, b3, b4⟩ := loader_log_error_scan
              "%s ignored: max layer libraries exceed"
              (s.emit (Event.open_library (join_path W p d)
                (W.open_library s.trace (join_path W p d))))
            exact ⟨s2, LoaderState.scanFrame_trans hf b1, b2, b3, b4⟩
          · generalize hX : LoaderState.emit _ (Event.close_library _) = X
            have hfX : s.scanFrame X := by
              rw [← hX]
              exact ⟨rfl, rfl, rfl,
                [Event.open_library (join_path W p d) (W.open_library s.trace (join_path W p d)),
                  Event.close_library (W.open_library s.trace (join_path W p d))],
                by simp [LoaderState.emit, LoaderState.emits], rfl⟩
            have hX2 : X.scanned_icd_list = s.scanned_icd_list ∧ X.brk = s.brk := by
              rw [← hX]
              simp [LoaderState.emit, LoaderState.emits]
            obtain ⟨s2, b1, b2, b3, b4⟩ := ih X
            refine ⟨s2, LoaderState.scanFrame_trans hfX b1, b2.trans hX2.1, b3.trans hX2.2, ?_⟩
            rcases b4 with h2 | ⟨h2, hb2⟩
            · exact Or.inl h2
            · refine Or.inr ⟨h2, ?_⟩
              rw [← hfX.2.1, ← hfX.2.2.1]
              exact hb2
      · exact ih s

theorem layer_lib_scan_dirs_scan (W : World) :
    ∀ (l : List (List Char)) (s : LoaderState),
      ∃ s1, s.scanFrame s1 ∧ s1.scanned_icd_list = s.scanned_icd_list ∧ s1.brk = s.brk ∧
        (layer_lib_scan_dirs W l s = Res.ok () s1 ∨
          (layer_lib_scan_dirs W l s = Res.exit 1 s1 ∧
            (s.break_on_error = true ∨ s.break_on_warning = true))) := by
  intro l
  induction l with
  | nil => exact fun s => ⟨s, s.scanFrame_refl, rfl, rfl, Or.inl rfl⟩
  | cons d rest ih =>
      intro s
      rw [layer_lib_scan_dirs]
      split
      · exact ih s
      · rename_i entries _
        obtain ⟨s1, a1, a2, a3, a4⟩ := layer_lib_scan_dir_scan W (String.mk d) entries s
        rcases a4 with h | ⟨h, hb⟩
        · rw [h, Res.ok_bind]
          obtain ⟨s2, b1, b2, b3, b4⟩ := ih s1
          refine ⟨s2, LoaderState.scanFrame_trans a1 b1, b2.trans a2, b3.trans a3, ?_⟩
          rcases b4 with h2 | ⟨h2, hb2⟩
          · exact Or.inl h2
          · refine Or.inr ⟨h2, ?_⟩
            rw [← a1.2.1, ← a1.2.2.1]
            exact hb2
        · rw [h]
          exact ⟨s1, a1, a2, a3, Or.inr ⟨rfl, hb⟩⟩

/-- The one-time layer scan: it returns, or an error it logged ended the
process, a break option being set on a first call. -/
theorem once_layer_scan_scan (W : World) (s : LoaderState) :
    ∃ s1, s.scanFrame s1 ∧ s1.scanned_icd_list = s.scanned_icd_list ∧ s1.brk = s.brk ∧
      (once_layer_scan W s = Res.ok () s1 ∨
        (once_layer_scan W s = Res.exit 1 s1 ∧ s.once_layer = false ∧
          (s.break_on_error = true ∨ s.break_on_warning = true))) := by
  unfold once_layer_scan
  by_cases h : s.once_layer = true
  · rw [if_pos h]
    exact ⟨s, s.scanFrame_refl, rfl, rfl, Or.inl rfl⟩
  · rw [if_neg h]
    unfold layer_lib_scan
    simp only []
    generalize hY : ({ ({ s with once_layer := true } : LoaderState) with
      layer_dirs := some (search_path W W.LAYERS_PATH_ENV W.DEFAULT_XGL_LAYERS_PATH),
      scanned_layer_names := [] } : LoaderState) = Y
    have hf : s.scanFrame Y := by
      rw [← hY]
      exact ⟨rfl, rfl, rfl, [], by simp, rfl⟩
    have hY2 : Y.scanned_icd_list = s.scanned_icd_list ∧ Y.brk = s.brk := by
      rw [← hY]
      exact ⟨rfl, rfl⟩
    obtain ⟨s1, a1, a2, a3, a4⟩ := layer_lib_scan_dirs_scan W
      (splitDirs W.PATH_SEPERATOR []
        (search_path W W.LAYERS_PATH_ENV W.DEFAULT_XGL_LAYERS_PATH).data) Y
    rcases a4 with h1 | ⟨h1, hb⟩
    · rw [h1, Res.ok_bind]
      refine ⟨_, ?_, ?_, ?_, Or.inl rfl⟩
      · exact LoaderState.scanFrame_trans (LoaderState.scanFrame_trans hf a1) ⟨rfl, rfl, rfl, [], by simp, rfl⟩
      · exact a2.trans hY2.1
      · exact a3.trans hY2.2
    · rw [h1]
      refine ⟨s1, LoaderState.scanFrame_trans hf a1, a2.trans hY2.1, a3.trans hY2.2, Or.inr ⟨rfl, by simpa using h, ?_⟩⟩
      rw [← hf.2.1, ← hf.2.2.1]
      exact hb

theorem created_of_createCalls_nil {evs : List Event} (h : createCalls evs = []) :
    created evs = [] := by
  simp [created, h]

/-- What the part of `xglCreateInstance` behind the two scans does, whatever
the outcome. -/
theorem xglCreateInstance_body_spec (W : World) (s : LoaderState) :
    ∃ s' evs icds,
      s'.trace = s.trace ++ evs ∧
      s'.instances = { addr := s.brk, icds := icds } :: s.instances ∧
      icds.map (fun c => c.scanned_icds) = (created evs).reverse ∧
      s'.scanned_icd_list.map (fun n => n.addr) = s.scanned_icd_list.map (fun n => n.addr) ∧
      ((xglCreateInstance_body W s = Res.ok
            { result := if icds.isEmpty then XGL_RESULT.XGL_ERROR_INCOMPATIBLE_DRIVER
                else XGL_RESULT.XGL_SUCCESS,
              pInstance := if icds.isEmpty then none else some s.brk } s' ∧
          (createCalls evs).map Prod.fst = s.scanned_icd_list.map (fun n => n.addr)) ∨
       (xglCreateInstance_body W s = Res.exit 1 s' ∧
          s.break_on_warning = true ∧
          (createCalls evs).map Prod.fst <+: s.scanned_icd_list.map (fun n => n.addr) ∧
          ∃ p ∈ createCalls evs, p.2 ≠ XGL_RESULT.XGL_SUCCESS)) := by
  obtain ⟨s', evs, icds, htr, hins, hmap, _, hsc, hout⟩ :=
    xglCreateInstance_loop_spec W s.brk s.scanned_icd_list 0
      (s.alloc.withInstances ({ addr := s.brk, icds := [] } :: s.instances)) [] s.instances
      (by simp) (by
        intro n hn
        simpa using List.mem_map.2 ⟨n, hn, rfl⟩)
  refine ⟨s', evs, icds, by simpa using htr, hins, by simpa using hmap,
    by simpa using hsc, ?_⟩
  unfold xglCreateInstance_body
  simp only [LoaderState.withInstances_fields, LoaderState.alloc_fields] at hout ⊢
  rcases hout with ⟨h, hc⟩ | ⟨h, hb, hc, hf⟩
  · left
    refine ⟨?_, hc⟩
    rw [h]
    simp only [Res.bind, LoaderState.inst, hins, List.find?_cons, beq_self_eq_true]
    split <;> simp_all
  · right
    refine ⟨?_, by simpa using hb, hc, hf⟩
    rw [h]
    rfl

/-- What `xglCreateInstance` does, whatever the state and the outcome: either
it got behind the scans and made the new instance, whose ICDs are those of
the scanned ICDs that accepted, last first, or the process ended in a scan
of a first call, before any driver was called. -/
theorem xglCreateInstance_spec (W : World) (s : LoaderState) :
    ∃ s' evs,
      s'.trace = s.trace ++ evs ∧
      (createCalls evs).map Prod.fst <+: s'.scanned_icd_list.map (fun n => n.addr) ∧
      (s.once_icd = true →
        s'.scanned_icd_list.map (fun n => n.addr) = s.scanned_icd_list.map (fun n => n.addr)) ∧
      ((∃ ptr icds,
          s'.instances = { addr := ptr, icds := icds } :: s.instances ∧
          icds.map (fun c => c.scanned_icds) = (created evs).reverse ∧
          (s.once_icd = true → ptr = s.brk) ∧
          ((xglCreateInstance W s = Res.ok
                { result := if icds.isEmpty then XGL_RESULT.XGL_ERROR_INCOMPATIBLE_DRIVER
                    else XGL_RESULT.XGL_SUCCESS,
                  pInstance := if icds.isEmpty then none else some ptr } s' ∧
              (createCalls evs).map Prod.fst = s'.scanned_icd_list.map (fun n => n.addr)) ∨
           (xglCreateInstance W s = Res.exit 1 s' ∧ s.break_on_warning = true ∧
              ∃ p ∈ createCalls evs, p.2 ≠ XGL_RESULT.XGL_SUCCESS))) ∨
       (xglCreateInstance W s = Res.exit 1 s' ∧ s'.instances = s.instances ∧
          createCalls evs = [] ∧
          ((s.once_icd = false ∧ s.break_on_warning = true) ∨
           (s.once_layer = false ∧
             (s.break_on_error = true ∨ s.break_on_warning = true))))) := by
  obtain ⟨s1, f1, l1, k1, o1⟩ := once_icd_scan_scan W s
  unfold xglCreateInstance
  rcases o1 with h1 | ⟨h1, hi, hb⟩
  · rw [h1, Res.ok_bind]
    obtain ⟨s2, f2, c2, b2, o2⟩ := once_layer_scan_scan W s1
    have f12 := LoaderState.scanFrame_trans f1 f2
    rcases o2 with h2 | ⟨h2, hl, hb⟩
    · rw [h2, Res.ok_bind]
      obtain ⟨g1, _, g3, e0, g4, g5⟩ := f12
      obtain ⟨s', evs, icds, htr, hins, hmap, hsc, hout⟩ := xglCreateInstance_body_spec W s2
      have hcalls : createCalls (e0 ++ evs) = createCalls evs := by
        rw [createCalls_append, g5]
        rfl
      have hcr : created (e0 ++ evs) = created evs := by
        rw [created_append, created_of_createCalls_nil g5]
        rfl
      have hpre : (createCalls evs).map Prod.fst <+:
          s'.scanned_icd_list.map (fun n => n.addr) := by
        rw [hsc]
        rcases hout with ⟨_, hc⟩ | ⟨_, _, hc, _⟩
        · rw [hc]
        · exact hc
      refine ⟨s', e0 ++ evs, ?_, ?_, ?_, Or.inl ⟨s2.brk, icds, ?_, ?_, ?_, ?_⟩⟩
      · rw [htr, g4, List.append_assoc]
      · rw [hcalls]
        exact hpre
      · intro ho
        rw [hsc, c2, k1 ho]
      · rw [hins, g1]
      · rw [hcr]
        exact hmap
      · intro ho
        rw [b2, k1 ho]
      · rcases hout with ⟨h, hc⟩ | ⟨h, hb, _, hf⟩
        · exact Or.inl ⟨h, by rw [hcalls, hc, hsc]⟩
        · refine Or.inr ⟨h, ?_, ?_⟩
          · rw [← g3]
            exact hb
          · rw [hcalls]
            exact hf
    · rw [h2]
      obtain ⟨g1, _, _, e0, g4, g5⟩ := f12
      refine ⟨s2, e0, g4, ?_, ?_, Or.inr ⟨rfl, g1, g5, Or.inr ⟨?_, ?_⟩⟩⟩
      · rw [g5]
        exact List.nil_prefix
      · intro ho
        rw [c2, k1 ho]
      · rw [← l1]
        exact hl
      · rw [← f1.2.1, ← f1.2.2.1]
        exact hb
  · rw [h1]
    obtain ⟨g1, _, _, e0, g4, g5⟩ := f1
    refine ⟨s1, e0, g4, ?_, ?_, Or.inr ⟨rfl, g1, g5, Or.inl ⟨hi, hb⟩⟩⟩
    · rw [g5]
      exact List.nil_prefix
    · intro ho
      rw [ho] at hi
      cases hi

/-- C3, as amended: with break-on-warning unset, and break-on-error unset as
well when the layer scan has not run yet, `xglCreateInstance` returns; the
`CreateInstance` entry points of the scanned list have been called once each
in list order; the result is IncompatibleDriver exactly when none of these
calls returned success, and otherwise it is success with the new instance,
the head of the instance list, written to `*pInstance`. On a call behind the
driver scan the scanned list is the one of before and the new instance is at
the address `brk`. -/
theorem C3_xglCreateInstance_result (W : World) (s : LoaderState)
    (hb : s.break_on_warning = false)
    (he : s.once_layer = false → s.break_on_error = false) :
    ∃ r s' evs,
      xglCreateInstance W s = Res.ok r s' ∧ s'.trace = s.trace ++ evs ∧
      (createCalls evs).map Prod.fst = s'.scanned_icd_list.map (fun n => n.addr) ∧
      (s.once_icd = true →
        s'.scanned_icd_list.map (fun n => n.addr) = s.scanned_icd_list.map (fun n => n.addr)) ∧
      (r.result = XGL_RESULT.XGL_ERROR_INCOMPATIBLE_DRIVER ↔
        ∀ p ∈ createCalls evs, p.2 ≠ XGL_RESULT.XGL_SUCCESS) ∧
      (r.result ≠ XGL_RESULT.XGL_ERROR_INCOMPATIBLE_DRIVER →
        r.result = XGL_RESULT.XGL_SUCCESS ∧
        ∃ ptr, r.pInstance = some ptr ∧
          (s'.instances.head?).map (fun i => i.addr) = some ptr ∧
          s'.instances.tail = s.instances ∧ (s.once_icd = true → ptr = s.brk)) := by
  obtain ⟨s', evs, htr, _, hsame, hout⟩ := xglCreateInstance_spec W s
  rcases hout with ⟨ptr, icds, hins, hmap, hptr, ⟨h, hc⟩ | ⟨_, hb', _⟩⟩ |
    ⟨_, _, _, ⟨_, hb'⟩ | ⟨hl, hb' | hb'⟩⟩
  · refine ⟨_, s', evs, h, htr, hc, hsame, ?_, ?_⟩
    · have hnil : icds = [] ↔ ∀ p ∈ createCalls evs, p.2 ≠ XGL_RESULT.XGL_SUCCESS := by
        have : icds = [] ↔ created evs = [] := by
          rw [← List.map_eq_nil_iff, hmap, List.reverse_eq_nil_iff]
        rw [this]
        simp [created, List.filter_eq_nil_iff]
      rw [← hnil]
      cases icds <;> simp
    · cases icds with
      | nil => simp
      | cons c cs =>
          intro _
          refine ⟨by simp, ptr, by simp, by simp [hins], by simp [hins], hptr⟩
  · rw [hb] at hb'
    cases hb'
  · rw [hb] at hb'
    cases hb'
  · rw [he hl] at hb'
    cases hb'
  · rw [hb] at hb'
    cases hb'

/-- C3, counterexample: first, driver 1 is the only scanned ICD, its
`CreateInstance` fails whatever happened before, and break-on-warning is
set; then `xglCreateInstance` does not return IncompatibleDriver, it does
not return at all: the warning it logs ends the process with status 1.
Second, on the first call of a process, with only break-on-error set, room
for one layer library and two of them in the directory: the error the layer
scan logs ends the process with status 1 before any driver is called. -/
theorem C3_counterexample_break_options :
    (∀ tr, (World.driver1Fails.CreateInstance tr (driverNode 1).CreateInstance).1 ≠
        XGL_RESULT.XGL_SUCCESS) ∧
    (xglCreateInstance World.driver1Fails
        { scannedState [driverNode 1] with break_on_warning := true }).value? = none ∧
    (xglCreateInstance World.driver1Fails
        { scannedState [driverNode 1] with break_on_warning := true }).status? = some 1 ∧
    (errorBreakInit.break_on_warning = false ∧ errorBreakInit.once_layer = false ∧
      (xglCreateInstance World.crowded errorBreakInit).value? = none ∧
      (xglCreateInstance World.crowded errorBreakInit).status? = some 1 ∧
      ((xglCreateInstance World.crowded errorBreakInit).state?.map
        fun s' => (createCalls s'.trace, s'.scanned_layer_names)) =
        some ([], ["/usr/lib/libXGLLayera.so"])) := by
  refine ⟨fun tr => ?_, by decide, by decide, rfl, rfl, by decide, by decide, by decide⟩
  simp [World.driver1Fails, driverNode]

/-- C3, witness: the first call of a process that finds the drivers
`libXGL_a.so`, whose `CreateInstance` fails, and `libXGL_b.so`, neither break
option being set; and a later call with the drivers 1 and 2 scanned, driver 1
failing, and break-on-error set. -/
theorem C3_xglCreateInstance_result_witness :
    ((LoaderState.init fun _ => Word.magic).break_on_warning = false ∧
      ((LoaderState.init fun _ => Word.magic).once_layer = false →
        (LoaderState.init fun _ => Word.magic).break_on_error = false) ∧
      ∃ r s' evs,
        xglCreateInstance World.discover (LoaderState.init fun _ => Word.magic) = Res.ok r s' ∧
        s'.trace = (LoaderState.init fun _ => Word.magic).trace ++ evs ∧
        (createCalls evs).map Prod.fst = s'.scanned_icd_list.map (fun n => n.addr) ∧
        ((LoaderState.init fun _ => Word.magic).once_icd = true →
          s'.scanned_icd_list.map (fun n => n.addr) =
            (LoaderState.init fun _ => Word.magic).scanned_icd_list.map (fun n => n.addr)) ∧
        (r.result = XGL_RESULT.XGL_ERROR_INCOMPATIBLE_DRIVER ↔
          ∀ p ∈ createCalls evs, p.2 ≠ XGL_RESULT.XGL_SUCCESS) ∧
        (r.result ≠ XGL_RESULT.XGL_ERROR_INCOMPATIBLE_DRIVER →
          r.result = XGL_RESULT.XGL_SUCCESS ∧
          ∃ ptr, r.pInstance = some ptr ∧
            (s'.instances.head?).map (fun i => i.addr) = some ptr ∧
            s'.instances.tail = (LoaderState.init fun _ => Word.magic).instances ∧
            ((LoaderState.init fun _ => Word.magic).once_icd = true →
              ptr = (LoaderState.init fun _ => Word.magic).brk))) ∧
    ((xglCreateInstance World.discover (LoaderState.init fun _ => Word.magic)).value? =
        some { result := XGL_RESULT.XGL_SUCCESS, pInstance := some 3 } ∧
      ((xglCreateInstance World.discover (LoaderState.init fun _ => Word.magic)).state?.map
        fun s' => createCalls s'.trace) =
        some [(2, XGL_RESULT.XGL_SUCCESS), (1, XGL_RESULT.other 7)]) ∧
    (errorBreakScanned.break_on_warning = false ∧ errorBreakScanned.once_layer = true ∧
      errorBreakScanned.break_on_error = true ∧
      (xglCreateInstance World.driver1Fails errorBreakScanned).value? =
        some { result := XGL_RESULT.XGL_SUCCESS, pInstance := some 100 }) :=
  ⟨⟨rfl, fun _ => rfl,
      C3_xglCreateInstance_result World.discover (LoaderState.init fun _ => Word.magic) rfl
        (fun _ => rfl)⟩,
    ⟨by decide, by decide⟩,
    ⟨rfl, rfl, rfl, by decide⟩⟩

/-- C4: in whatever state `xglCreateInstance` is called, it ends, by a return
or by the exit of `loader_log`, and the driver `CreateInstance` calls it made
are those of the scanned list in list order, all of them when it returned.
Unless the process ended in a scan of a first call, before any driver was
called, the new instance is the head of the instance list and has exactly
one ICD for each scanned ICD whose `CreateInstance` was called and returned
success, most recently added first, and none for a call that failed. With
neither break option set the call returns. -/
theorem C4_xglCreateInstance_icd_list (W : World) (s : LoaderState) :
    ∃ s' evs,
      (xglCreateInstance W s).state? = some s' ∧
      s'.trace = s.trace ++ evs ∧
      (createCalls evs).map Prod.fst <+: s'.scanned_icd_list.map (fun n => n.addr) ∧
      ((xglCreateInstance W s).status? = none →
        (createCalls evs).map Prod.fst = s'.scanned_icd_list.map (fun n => n.addr)) ∧
      ((∃ ptr icds, s'.instances = { addr := ptr, icds := icds } :: s.instances ∧
          icds.map (fun c => c.scanned_icds) = (created evs).reverse) ∨
        ((xglCreateInstance W s).status? = some 1 ∧ s'.instances = s.instances ∧
          createCalls evs = [] ∧ (s.once_icd = false ∨ s.once_layer = false))) ∧
      (s.break_on_error = false → s.break_on_warning = false →
        ∃ r ptr icds, xglCreateInstance W s = Res.ok r s' ∧
          s'.instances = { addr := ptr, icds := icds } :: s.instances ∧
          icds.map (fun c => c.scanned_icds) = (created evs).reverse) := by
  obtain ⟨s', evs, htr, hpre, _, hout⟩ := xglCreateInstance_spec W s
  refine ⟨s', evs, ?_, htr, hpre, ?_, ?_, ?_⟩
  · rcases hout with ⟨_, _, _, _, _, ⟨h, _⟩ | ⟨h, _⟩⟩ | ⟨h, _⟩ <;> rw [h] <;> rfl
  · intro hs
    rcases hout with ⟨_, _, _, _, _, ⟨_, hc⟩ | ⟨h, _⟩⟩ | ⟨h, _⟩
    · exact hc
    · rw [h] at hs
      cases hs
    · rw [h] at hs
      cases hs
  · rcases hout with ⟨ptr, icds, hins, hmap, _, _⟩ | ⟨h, hi, hc, hwhy⟩
    · exact Or.inl ⟨ptr, icds, hins, hmap⟩
    · refine Or.inr ⟨by rw [h]; rfl, hi, hc, ?_⟩
      rcases hwhy with ⟨ho, _⟩ | ⟨ho, _⟩
      · exact Or.inl ho
      · exact Or.inr ho
  · intro h1 h2
    rcases hout with ⟨ptr, icds, hins, hmap, _, ⟨h, _⟩ | ⟨_, hb, _⟩⟩ |
      ⟨_, _, _, ⟨_, hb⟩ | ⟨_, hb | hb⟩⟩
    · exact ⟨_, ptr, icds, h, hins, hmap⟩
    · rw [h2] at hb
      cases hb
    · rw [h2] at hb
      cases hb
    · rw [h1] at hb
      cases hb
    · rw [h2] at hb
      cases hb

/-- C4, witness: the first call of a process finds the drivers `libXGL_a.so`
and `libXGL_b.so`, whose scanned nodes are at the addresses 1 and 2; the
driver of node 2 is called first and accepts, the driver of node 1 is called
next and fails: the new instance, at address 3, ends with the one ICD of
node 2. -/
theorem C4_xglCreateInstance_icd_list_witness :
    ((LoaderState.init fun _ => Word.magic).break_on_error = false ∧
      (LoaderState.init fun _ => Word.magic).break_on_warning = false) ∧
    (∃ s' evs,
      (xglCreateInstance World.discover (LoaderState.init fun _ => Word.magic)).state? =
        some s' ∧
      s'.trace = (LoaderState.init fun _ => Word.magic).trace ++ evs ∧
      (createCalls evs).map Prod.fst <+: s'.scanned_icd_list.map (fun n => n.addr) ∧
      ((xglCreateInstance World.discover (LoaderState.init fun _ => Word.magic)).status? =
          none →
        (createCalls evs).map Prod.fst = s'.scanned_icd_list.map (fun n => n.addr)) ∧
      ((∃ ptr icds,
          s'.instances = { addr := ptr, icds := icds } ::
            (LoaderState.init fun _ => Word.magic).instances ∧
          icds.map (fun c => c.scanned_icds) = (created evs).reverse) ∨
        ((xglCreateInstance World.discover (LoaderState.init fun _ => Word.magic)).status? =
            some 1 ∧
          s'.instances = (LoaderState.init fun _ => Word.magic).instances ∧
          createCalls evs = [] ∧
          ((LoaderState.init fun _ => Word.magic).once_icd = false ∨
            (LoaderState.init fun _ => Word.magic).once_layer = false))) ∧
      ((LoaderState.init fun _ => Word.magic).break_on_error = false →
        (LoaderState.init fun _ => Word.magic).break_on_warning = false →
        ∃ r ptr icds,
          xglCreateInstance World.discover (LoaderState.init fun _ => Word.magic) =
            Res.ok r s' ∧
          s'.instances = { addr := ptr, icds := icds } ::
            (LoaderState.init fun _ => Word.magic).instances ∧
          icds.map (fun c => c.scanned_icds) = (created evs).reverse)) ∧
    ((xglCreateInstance World.discover (LoaderState.init fun _ => Word.magic)).state?.map
      fun s' => (createCalls s'.trace,
        s'.instances.map fun i => (i.addr, i.icds.map fun c => c.scanned_icds))) =
      some ([(2, XGL_RESULT.XGL_SUCCESS), (1, XGL_RESULT.other 7)], [(3, [2])]) ∧
    ((xglCreateInstance World.driver1Fails (scannedState [driverNode 1, driverNode 2])).state?.map
      fun s' => s'.instances.map fun i => i.icds.map fun c => c.scanned_icds) = some [[2]] :=
  ⟨⟨rfl, rfl⟩,
    C4_xglCreateInstance_icd_list World.discover (LoaderState.init fun _ => Word.magic),
    by decide, by decide⟩

/-! ## `xglDestroyInstance` -/

theorem destroyCalls_append (a b : List Event) :
    destroyCalls (a ++ b) = destroyCalls a ++ destroyCalls b := by
  induction a with
  | nil => rfl
  | cons e es ih => cases e <;> simp [destroyCalls, ih]

theorem destroyCalls_log_events (t : XGL_DBG_MSG_TYPE) (m : String) (s : LoaderState) :
    destroyCalls (loader_log_events t m s) = [] := by
  unfold loader_log_events
  rw [destroyCalls_append]
  have : ∀ cbs, destroyCalls (loader_log_callbacks t m cbs) = [] := by
    intro cbs
    induction cbs with
    | nil => rfl
    | cons c cs ih => simp [loader_log_callbacks, destroyCalls, ih]
  rw [this]
  split <;> simp [destroyCalls]

theorem LoaderState.later_nil (s : LoaderState) : s.later [] [] = s := by
  cases s; simp [LoaderState.later]

theorem LoaderState.later_later (s : LoaderState) (e1 e2 : List Event) (f1 f2 : List Alloc) :
    (s.later e1 f1).later e2 f2 = s.later (e1 ++ e2) (f2 ++ f1) := by
  simp [LoaderState.later]

theorem LoaderState.emit_later (s : LoaderState) (e : Event) : s.emit e = s.later [e] [] := by
  cases s; simp [LoaderState.later, LoaderState.emit, LoaderState.emits]

theorem LoaderState.free_later (s : LoaderState) (p : Alloc) : s.free p = s.later [] [p] := by
  cases s; simp [LoaderState.later, LoaderState.free]

/-- Closing libraries and freeing memory is all `loader_deactivate_libs` does
to the loader state. -/
theorem loader_deactivate_libs_later (j : Nat) (l : List Nat) (icd : loader_icd)
    (s : LoaderState) :
    ∃ evs fr, (loader_deactivate_libs j l icd s).2 = s.later evs fr ∧ destroyCalls evs = [] := by
  induction l generalizing icd s with
  | nil => exact ⟨[], [], (LoaderState.later_nil s).symm, rfl⟩
  | cons i rest ih =>
      rw [loader_deactivate_libs]
      generalize (loader_icd.mk _ _ _ _ _ _ _ _) = X
      by_cases h : (icd.layer_libs j i).lib_handle ≠ 0
      · simp only [h, ne_eq, not_false_eq_true, if_true]
        obtain ⟨evs, fr, h1, h2⟩ := ih X
          (s.emit (Event.close_library (icd.layer_libs j i).lib_handle))
        refine ⟨Event.close_library (icd.layer_libs j i).lib_handle :: evs, fr, ?_, ?_⟩
        · rw [h1, LoaderState.emit_later, LoaderState.later_later]; simp
        · simp [destroyCalls, h2]
      · simp only [h, if_false]
        exact ih X s

theorem loader_deactivate_slots_later (l : List Nat) (icd : loader_icd) (s : LoaderState) :
    ∃ evs fr, (loader_deactivate_slots l icd s).2 = s.later evs fr ∧ destroyCalls evs = [] := by
  induction l generalizing icd s with
  | nil => exact ⟨[], [], (LoaderState.later_nil s).symm, rfl⟩
  | cons j rest ih =>
      rw [loader_deactivate_slots]
      by_cases h : 0 < icd.layer_count j
      · simp only [h, if_true]
        generalize (loader_icd.mk _ _ _ _ _ _ _ _) = X
        obtain ⟨e1, f1, h1, h2⟩ :=
          loader_deactivate_libs_later j (List.range (icd.layer_count j)) icd s
        by_cases hw : icd.wrappedGpus j ≠ Ptr.null
        · simp only [hw, ne_eq, not_false_eq_true, if_true]
          obtain ⟨e2, f2, h3, h4⟩ := ih X
            ((loader_deactivate_libs j (List.range (icd.layer_count j)) icd s).2.free
              (Alloc.objs (icd.wrappedGpus j)))
          refine ⟨e1 ++ e2, f2 ++ (Alloc.objs (icd.wrappedGpus j) :: f1), ?_, ?_⟩
          · rw [h3, h1, LoaderState.free_later, LoaderState.later_later, LoaderState.later_later]
            simp
          · simp [destroyCalls_append, h2, h4]
        · simp only [hw, if_false]
          obtain ⟨e2, f2, h3, h4⟩ := ih X
            (loader_deactivate_libs j (List.range (icd.layer_count j)) icd s).2
          refine ⟨e1 ++ e2, f2 ++ f1, ?_, ?_⟩
          · rw [h3, h1, LoaderState.later_later]
          · simp [destroyCalls_append, h2, h4]
      · simp only [h, if_false]
        exact ih _ s

theorem loader_deactivate_icd_later (icd : loader_icd) (s : LoaderState) :
    ∃ evs fr, (loader_deactivate_icd icd s).2 = s.later evs fr ∧ destroyCalls evs = [] := by
  unfold loader_deactivate_icd
  simp only []
  generalize (loader_icd.mk _ _ _ _ _ _ _ _) = X
  have hs : ∃ fr, (if icd.loader_dispatch ≠ [] then
      (if icd.gpus ≠ Ptr.null then s.free (Alloc.objs icd.gpus) else s).free
        (Alloc.tables icd.addr)
      else (if icd.gpus ≠ Ptr.null then s.free (Alloc.objs icd.gpus) else s)) = s.later [] fr := by
    split <;> split <;>
      (try simp only [LoaderState.free_later, LoaderState.later_later]) <;>
      first
        | exact ⟨_, rfl⟩
        | exact ⟨[], (LoaderState.later_nil s).symm⟩
  obtain ⟨f0, h0⟩ := hs
  rw [h0]
  obtain ⟨evs, fr, h1, h2⟩ := loader_deactivate_slots_later (List.range icd.gpu_count) X
    (s.later [] f0)
  exact ⟨evs, fr ++ f0, by rw [h1, LoaderState.later_later]; simp, h2⟩

theorem loader_deactivate_icds_later (l : List loader_icd) (s : LoaderState) :
    ∃ evs fr, (loader_deactivate_icds l s).2 = s.later evs fr ∧ destroyCalls evs = [] := by
  induction l generalizing s with
  | nil => exact ⟨[], [], (LoaderState.later_nil s).symm, rfl⟩
  | cons icd rest ih =>
      rw [loader_deactivate_icds]
      obtain ⟨e1, f1, h1, h2⟩ := loader_deactivate_icd_later icd s
      obtain ⟨e2, f2, h3, h4⟩ := ih (loader_deactivate_icd icd s).2
      refine ⟨e1 ++ e2, f2 ++ f1, ?_, ?_⟩
      · rw [h3, h1, LoaderState.later_later]
      · simp [destroyCalls_append, h2, h4]

/-- Closing libraries and freeing memory is all `loader_deactivate_layer` does
to the loader state, and it makes no driver call. -/
theorem loader_deactivate_layer_later (i : loader_instance) (s : LoaderState) :
    ∃ evs fr, (loader_deactivate_layer i s).2 = s.later evs fr ∧ destroyCalls evs = [] :=
  loader_deactivate_icds_later i.icds s

theorem setScannedInstance_at (v : Nat) (pre : List loader_scanned_icds)
    (n : loader_scanned_icds) (rest : List loader_scanned_icds) :
    setScannedInstance v pre.length (pre ++ n :: rest) =
      pre ++ { n with «instance» := v } :: rest := by
  induction pre with
  | nil => rfl
  | cons p ps ih => simp [setScannedInstance, ih]

/-- The loop of `xglDestroyInstance` when break-on-warning is unset: it runs
to the end, calls `DestroyInstance` for the nodes with a handle and clears
every handle. -/
theorem xglDestroyInstance_loop_spec (W : World) :
    ∀ (rest pre : List loader_scanned_icds) (res : XGL_RESULT) (s : LoaderState),
      s.scanned_icd_list = pre ++ rest → s.break_on_warning = false →
      ∃ evs,
        xglDestroyInstance_loop W pre.length rest res s =
          Res.ok () ((s.withScanned
            (pre ++ rest.map (fun n => { n with «instance» := 0 }))).emits evs) ∧
        destroyCalls evs =
          (rest.filter (fun n => decide (n.«instance» ≠ 0))).map
            (fun n => (n.addr, n.«instance»)) := by
  intro rest
  induction rest with
  | nil =>
      intro pre res s hs _
      refine ⟨[], ?_, rfl⟩
      rw [xglDestroyInstance_loop]
      congr 1
      cases s
      simp_all [LoaderState.withScanned, LoaderState.emits]
  | cons n rest ih =>
      intro pre res s hs hb
      rw [xglDestroyInstance_loop]
      generalize hres1 : (if n.«instance» ≠ 0 then
        W.DestroyInstance s.trace n.DestroyInstance n.«instance» else res) = res1
      have hstep : ∃ e1, (if n.«instance» ≠ 0 then
            s.emit (Event.DestroyInstance n.addr n.DestroyInstance n.«instance» res1)
          else s) = s.emits e1 ∧
          destroyCalls e1 = ([n].filter (fun n => decide (n.«instance» ≠ 0))).map
            (fun n => (n.addr, n.«instance»)) := by
        by_cases h0 : n.«instance» ≠ 0
        · exact ⟨[Event.DestroyInstance n.addr n.DestroyInstance n.«instance» res1],
            by simp [h0], by simp [h0, destroyCalls]⟩
        · refine ⟨[], ?_, by simp [h0, destroyCalls]⟩
          simp only [h0, if_false]
          cases s; simp [LoaderState.emits]
      obtain ⟨e1, he1, hc1⟩ := hstep
      rw [he1]
      have hlog : ∃ e2, (if res1 ≠ XGL_RESULT.XGL_SUCCESS then
            loader_log XGL_DBG_MSG_TYPE.XGL_DBG_MSG_WARNING
              "ICD ignored: failed to DestroyInstance on device" (s.emits e1)
          else Res.ok () (s.emits e1)) = Res.ok () (s.emits (e1 ++ e2)) ∧
          destroyCalls e2 = [] := by
        by_cases hr : res1 ≠ XGL_RESULT.XGL_SUCCESS
        · refine ⟨loader_log_events XGL_DBG_MSG_TYPE.XGL_DBG_MSG_WARNING
            "ICD ignored: failed to DestroyInstance on device" (s.emits e1), ?_,
            destroyCalls_log_events _ _ _⟩
          rw [if_pos hr, loader_log_warning, if_neg (by simp [hb])]
          simp [LoaderState.emits]
        · refine ⟨[], ?_, rfl⟩
          rw [if_neg hr]
          simp
      obtain ⟨e2, he2, hc2⟩ := hlog
      rw [he2]
      simp only [Res.bind]
      have hlist : setScannedInstance 0 pre.length (s.emits (e1 ++ e2)).scanned_icd_list =
          (pre ++ [{ n with «instance» := 0 }]) ++ rest := by
        simp only [LoaderState.emits_fields, hs]
        rw [setScannedInstance_at]
        simp
      rw [hlist]
      obtain ⟨e3, he3, hc3⟩ := ih (pre ++ [{ n with «instance» := 0 }]) res1
        ((s.emits (e1 ++ e2)).withScanned ((pre ++ [{ n with «instance» := 0 }]) ++ rest))
        (by simp) (by simpa using hb)
      refine ⟨e1 ++ e2 ++ e3, ?_, ?_⟩
      · have hlen : (pre ++ [{ n with «instance» := 0 }]).length = pre.length + 1 := by simp
        rw [hlen] at he3
        rw [he3]
        congr 1
        simp [LoaderState.withScanned, LoaderState.emits]
      · rw [destroyCalls_append, destroyCalls_append, hc1, hc2, hc3]
        by_cases h0 : n.«instance» ≠ 0 <;> simp [h0, List.filter_cons]

theorem unlink_instance_none (h : Nat) (l : List loader_instance)
    (hn : ∀ i ∈ l, i.addr ≠ h) : unlink_instance h l = none := by
  induction l with
  | nil => rfl
  | cons i rest ih =>
      have h1 : i.addr ≠ h := hn i (by simp)
      simp [unlink_instance, h1, ih (fun j hj => hn j (by simp [hj]))]

theorem unlink_instance_some (h : Nat) (l : List loader_instance)
    (hm : ∃ i ∈ l, i.addr = h) :
    ∃ l1 i l2, l = l1 ++ i :: l2 ∧ i.addr = h ∧ (∀ j ∈ l1, j.addr ≠ h) ∧
      unlink_instance h l = some (i, l1 ++ l2) := by
  induction l with
  | nil => simp at hm
  | cons i rest ih =>
      by_cases h1 : i.addr = h
      · exact ⟨[], i, rest, rfl, h1, by simp, by simp [unlink_instance, h1]⟩
      · obtain ⟨j, hj, hj2⟩ := hm
        have hj' : j ∈ rest := by
          rcases List.mem_cons.1 hj with rfl | hj'
          · exact absurd hj2 h1
          · exact hj'
        obtain ⟨l1, i', l2, e, a, b, c⟩ := ih ⟨j, hj', hj2⟩
        refine ⟨i :: l1, i', l2, by simp [e], a, ?_, ?_⟩
        · intro x hx
          rcases List.mem_cons.1 hx with rfl | hx'
          · exact h1
          · exact b x hx'
        · simp [unlink_instance, h1, c]

/-- What `xglDestroyInstance` does to a listed instance when break-on-warning
is unset. -/
theorem xglDestroyInstance_spec (W : World) (h : Nat) (res0 : XGL_RESULT) (s : LoaderState)
    (hm : ∃ i ∈ s.instances, i.addr = h) (hb : s.break_on_warning = false) :
    ∃ s' evs l1 i l2,
      xglDestroyInstance W h res0 s = Res.ok XGL_RESULT.XGL_SUCCESS s' ∧
      s.instances = l1 ++ i :: l2 ∧ i.addr = h ∧ (∀ j ∈ l1, j.addr ≠ h) ∧
      s'.instances = l1 ++ l2 ∧
      s'.trace = s.trace ++ evs ∧
      destroyCalls evs =
        (s.scanned_icd_list.filter (fun n => decide (n.«instance» ≠ 0))).map
          (fun n => (n.addr, n.«instance»)) ∧
      s'.scanned_icd_list = s.scanned_icd_list.map (fun n => { n with «instance» := 0 }) := by
  obtain ⟨l1, i, l2, e, a, b, c⟩ := unlink_instance_some h s.instances hm
  obtain ⟨e1, f1, hd, hc1⟩ := loader_deactivate_layer_later i (s.withInstances (l1 ++ l2))
  obtain ⟨e2, hl, hc2⟩ := xglDestroyInstance_loop_spec W
    (loader_deactivate_layer i (s.withInstances (l1 ++ l2))).2.scanned_icd_list [] res0
    (loader_deactivate_layer i (s.withInstances (l1 ++ l2))).2 rfl
    (by rw [hd]; simpa [LoaderState.later] using hb)
  have hx : xglDestroyInstance W h res0 s = Res.ok XGL_RESULT.XGL_SUCCESS
      ((((loader_deactivate_layer i (s.withInstances (l1 ++ l2))).2.withScanned
        ([] ++ (loader_deactivate_layer i (s.withInstances (l1 ++ l2))).2.scanned_icd_list.map
          (fun n => { n with «instance» := 0 }))).emits e2).free (Alloc.node i.addr)) := by
    unfold xglDestroyInstance
    rw [c]
    simp only []
    rw [show (0 : Nat) = ([] : List loader_scanned_icds).length from rfl, hl]
    rfl
  refine ⟨_, e1 ++ e2, l1, i, l2, hx, e, a, b, ?_, ?_, ?_, ?_⟩
  · simp [hd, LoaderState.later]
  · simp [hd, LoaderState.later]
  · rw [destroyCalls_append, hc1, hc2, hd]
    simp [LoaderState.later]
  · simp [hd, LoaderState.later]

/-- C5: when no instance of the global list is at the address `h`,
`xglDestroyInstance(h)` returns InvalidHandle in an unchanged loader state:
the instance list, the ICDs with their device and layer bookkeeping, the
scanned ICDs with their instance handles and the record of outside calls,
to which no driver `DestroyInstance` has been added, are as before. -/
theorem C5_xglDestroyInstance_invalid_handle (W : World) (h : Nat) (res0 : XGL_RESULT)
    (s : LoaderState) (hn : ∀ i ∈ s.instances, i.addr ≠ h) :
    xglDestroyInstance W h res0 s = Res.ok XGL_RESULT.XGL_ERROR_INVALID_HANDLE s := by
  unfold xglDestroyInstance
  rw [unlink_instance_none h s.instances hn]

/-- C5, witness: no instance of `liveState` is at address 7. -/
theorem C5_xglDestroyInstance_invalid_handle_witness :
    (∀ i ∈ liveState.instances, i.addr ≠ 7) ∧
    xglDestroyInstance World.quiet 7 XGL_RESULT.XGL_SUCCESS liveState =
      Res.ok XGL_RESULT.XGL_ERROR_INVALID_HANDLE liveState :=
  ⟨by decide,
    C5_xglDestroyInstance_invalid_handle World.quiet 7 XGL_RESULT.XGL_SUCCESS liveState
      (by decide)⟩

/-- C6, as amended: when an instance of the global list is at the address `h`
and break-on-warning is unset, `xglDestroyInstance(h)` returns success; the
instance list is the old one without its first node at `h`, the others in
their order; the driver `DestroyInstance` has been called once for each
scanned ICD whose instance handle was non-null, in list order, with that
handle; afterwards every scanned ICD has a null instance handle and is
otherwise as before. -/
theorem C6_xglDestroyInstance_listed (W : World) (h : Nat) (res0 : XGL_RESULT)
    (s : LoaderState) (hm : ∃ i ∈ s.instances, i.addr = h)
    (hb : s.break_on_warning = false) :
    ∃ s' evs l1 i l2,
      xglDestroyInstance W h res0 s = Res.ok XGL_RESULT.XGL_SUCCESS s' ∧
      s.instances = l1 ++ i :: l2 ∧ i.addr = h ∧ (∀ j ∈ l1, j.addr ≠ h) ∧
      s'.instances = l1 ++ l2 ∧
      s'.trace = s.trace ++ evs ∧
      destroyCalls evs =
        (s.scanned_icd_list.filter (fun n => decide (n.«instance» ≠ 0))).map
          (fun n => (n.addr, n.«instance»)) ∧
      s'.scanned_icd_list = s.scanned_icd_list.map (fun n => { n with «instance» := 0 }) :=
  xglDestroyInstance_spec W h res0 s hm hb

/-- C6, counterexample: the instance at address 50 is in the list, the
`DestroyInstance` of driver 1 fails and break-on-warning is set; then
`xglDestroyInstance(50)` does not return success, it does not return: the
warning it logs ends the process with status 1, before the instance handle
of driver 1 is cleared. -/
theorem C6_counterexample_break_on_warning :
    (∃ i ∈ liveState.instances, i.addr = 50) ∧
    (xglDestroyInstance World.destroyFails 50 XGL_RESULT.XGL_SUCCESS
      { liveState with break_on_warning := true }).value? = none ∧
    (xglDestroyInstance World.destroyFails 50 XGL_RESULT.XGL_SUCCESS
      { liveState with break_on_warning := true }).status? = some 1 ∧
    ((xglDestroyInstance World.destroyFails 50 XGL_RESULT.XGL_SUCCESS
      { liveState with break_on_warning := true }).state?.map
        fun s' => s'.scanned_icd_list.map fun n => n.«instance») = some [100, 0] := by
  refine ⟨by decide, by decide, by decide, by decide⟩

/-- C6, witness: destroying the instance at address 50 of `liveState`. -/
theorem C6_xglDestroyInstance_listed_witness :
    ((∃ i ∈ liveState.instances, i.addr = 50) ∧ liveState.break_on_warning = false) ∧
    ∃ s' evs l1 i l2,
      xglDestroyInstance World.quiet 50 XGL_RESULT.XGL_SUCCESS liveState =
        Res.ok XGL_RESULT.XGL_SUCCESS s' ∧
      liveState.instances = l1 ++ i :: l2 ∧ i.addr = 50 ∧ (∀ j ∈ l1, j.addr ≠ 50) ∧
      s'.instances = l1 ++ l2 ∧
      s'.trace = liveState.trace ++ evs ∧
      destroyCalls evs =
        (liveState.scanned_icd_list.filter (fun n => decide (n.«instance» ≠ 0))).map
          (fun n => (n.addr, n.«instance»)) ∧
      s'.scanned_icd_list =
        liveState.scanned_icd_list.map (fun n => { n with «instance» := 0 }) :=
  ⟨⟨by decide, rfl⟩,
    C6_xglDestroyInstance_listed World.quiet 50 XGL_RESULT.XGL_SUCCESS liveState
      (by decide) rfl⟩

/-! ## `xglEnumerateGpus` -/

theorem enumCalls_append (a b : List Event) :
    enumCalls (a ++ b) = enumCalls a ++ enumCalls b := by
  induction a with
  | nil => rfl
  | cons e es ih => cases e <;> simp [enumCalls, ih]

theorem regCalls_append (a b : List Event) :
    regCalls (a ++ b) = regCalls a ++ regCalls b := by
  induction a with
  | nil => rfl
  | cons e es ih => cases e <;> simp [regCalls, ih]

theorem calls_log_events (t : XGL_DBG_MSG_TYPE) (m : String) (s : LoaderState) :
    enumCalls (loader_log_events t m s) = [] ∧ regCalls (loader_log_events t m s) = [] := by
  unfold loader_log_events
  rw [enumCalls_append, regCalls_append]
  have : ∀ cbs, enumCalls (loader_log_callbacks t m cbs) = [] ∧
      regCalls (loader_log_callbacks t m cbs) = [] := by
    intro cbs
    induction cbs with
    | nil => exact ⟨rfl, rfl⟩
    | cons c cs ih => simp [loader_log_callbacks, enumCalls, regCalls, ih]
  rw [(this _).1, (this _).2]
  split <;> simp [enumCalls, regCalls]

theorem LoaderState.emits_nil (s : LoaderState) : s.emits [] = s := by
  cases s; simp [LoaderState.emits]

theorem LoaderState.emits_emits (s : LoaderState) (a b : List Event) :
    (s.emits a).emits b = s.emits (a ++ b) := by
  simp [LoaderState.emits]

/-- The loop of `SETB`, when every table it uses is there with a non-null
`DbgSetGlobalOption`: it returns, having made only option calls; and the
value is success when the driver accepts every option. -/
theorem SETB_spec (W : World) (icd : loader_icd) (opt : XGL_DBG_GLOBAL_OPTION)
    (l : List Nat) (s : LoaderState)
    (hd : ∀ i ∈ l, dispatch_entry icd i (fun tab => tab.DbgSetGlobalOption) ≠ none) :
    ∃ r evs, SETB W icd opt l s = Res.ok r (s.emits evs) ∧
      enumCalls evs = [] ∧ regCalls evs = [] ∧
      ((∀ tr fp o v, W.DbgSetGlobalOption tr fp o v = XGL_RESULT.XGL_SUCCESS) →
        r = XGL_RESULT.XGL_SUCCESS) := by
  induction l generalizing s with
  | nil =>
      exact ⟨XGL_RESULT.XGL_SUCCESS, [], by rw [SETB, LoaderState.emits_nil], rfl, rfl,
        fun _ => rfl⟩
  | cons i rest ih =>
      rw [SETB]
      cases hfp : dispatch_entry icd i (fun tab => tab.DbgSetGlobalOption) with
      | none => exact absurd hfp (hd i (by simp))
      | some fp =>
          simp only []
          by_cases hr : W.DbgSetGlobalOption s.trace fp opt true = XGL_RESULT.XGL_SUCCESS
          · obtain ⟨r, evs, h1, h2, h3, h4⟩ := ih
              (s.emit (Event.DbgSetGlobalOption icd.addr i fp opt true
                (W.DbgSetGlobalOption s.trace fp opt true)))
              (fun j hj => hd j (by simp [hj]))
            refine ⟨r, Event.DbgSetGlobalOption icd.addr i fp opt true
                (W.DbgSetGlobalOption s.trace fp opt true) :: evs, ?_, ?_, ?_, h4⟩
            · rw [if_neg (not_not.2 hr), h1]
              simp [LoaderState.emits_emits]
            · simp [enumCalls, h2]
            · simp [regCalls, h3]
          · refine ⟨W.DbgSetGlobalOption s.trace fp opt true,
                [Event.DbgSetGlobalOption icd.addr i fp opt true
                (W.DbgSetGlobalOption s.trace fp opt true)], ?_, rfl, rfl, ?_⟩
            · rw [if_pos hr]; rfl
            · intro hall
              exact absurd (hall _ _ _ _) hr

theorem SETB_if_spec (W : World) (icd : loader_icd) (opt : XGL_DBG_GLOBAL_OPTION)
    (val : Bool) (s : LoaderState)
    (hd : ∀ i < icd.gpu_count,
      dispatch_entry icd i (fun tab => tab.DbgSetGlobalOption) ≠ none) :
    ∃ r evs, SETB_if W icd opt val s = Res.ok r (s.emits evs) ∧
      enumCalls evs = [] ∧ regCalls evs = [] ∧
      ((∀ tr fp o v, W.DbgSetGlobalOption tr fp o v = XGL_RESULT.XGL_SUCCESS) →
        r = XGL_RESULT.XGL_SUCCESS) := by
  unfold SETB_if
  cases val with
  | false =>
      exact ⟨XGL_RESULT.XGL_SUCCESS, [], by simp [LoaderState.emits_nil], rfl, rfl,
        fun _ => rfl⟩
  | true =>
      simp only [if_true]
      exact SETB_spec W icd opt _ s (fun i hi => hd i (List.mem_range.1 hi))

/-- The same for `loader_icd_set_global_options`. -/
theorem loader_icd_set_global_options_spec (W : World) (icd : loader_icd) (s : LoaderState)
    (hd : ∀ i < icd.gpu_count,
      dispatch_entry icd i (fun tab => tab.DbgSetGlobalOption) ≠ none) :
    ∃ r evs, loader_icd_set_global_options W icd s = Res.ok r (s.emits evs) ∧
      enumCalls evs = [] ∧ regCalls evs = [] ∧
      ((∀ tr fp o v, W.DbgSetGlobalOption tr fp o v = XGL_RESULT.XGL_SUCCESS) →
        r = XGL_RESULT.XGL_SUCCESS) := by
  unfold loader_icd_set_global_options
  obtain ⟨r1, e1, h1, a1, b1, c1⟩ := SETB_if_spec W icd
    XGL_DBG_GLOBAL_OPTION.XGL_DBG_OPTION_DEBUG_ECHO_ENABLE s.debug_echo_enable s hd
  rw [h1]
  simp only [Res.bind]
  by_cases hr1 : r1 = XGL_RESULT.XGL_SUCCESS
  · rw [if_neg (not_not.2 hr1)]
    obtain ⟨r2, e2, h2, a2, b2, c2⟩ := SETB_if_spec W icd
      XGL_DBG_GLOBAL_OPTION.XGL_DBG_OPTION_BREAK_ON_ERROR (s.emits e1).break_on_error
      (s.emits e1) hd
    rw [h2]
    simp only []
    by_cases hr2 : r2 = XGL_RESULT.XGL_SUCCESS
    · rw [if_neg (not_not.2 hr2)]
      obtain ⟨r3, e3, h3, a3, b3, c3⟩ := SETB_if_spec W icd
        XGL_DBG_GLOBAL_OPTION.XGL_DBG_OPTION_BREAK_ON_WARNING
        ((s.emits e1).emits e2).break_on_warning ((s.emits e1).emits e2) hd
      refine ⟨r3, e1 ++ e2 ++ e3, ?_, ?_, ?_, c3⟩
      · rw [h3]; simp [LoaderState.emits_emits]
      · simp [enumCalls_append, a1, a2, a3]
      · simp [regCalls_append, b1, b2, b3]
    · rw [if_pos hr2]
      refine ⟨r2, e1 ++ e2, by simp [LoaderState.emits_emits], ?_, ?_, c2⟩
      · simp [enumCalls_append, a1, a2]
      · simp [regCalls_append, b1, b2]
  · rw [if_pos hr1]
    exact ⟨r1, e1, rfl, a1, b1, c1⟩

/-- The inner loop of the registration, when every table it uses is there
with a non-null `DbgRegisterMsgCallback`: it returns, and when the driver
accepts every registration the callback has been passed to every slot. -/
theorem register_slots_spec (W : World) (icd : loader_icd) (cb : loader_msg_callback)
    (l : List Nat) (res : XGL_RESULT) (s : LoaderState)
    (hd : ∀ i ∈ l, dispatch_entry icd i (fun tab => tab.DbgRegisterMsgCallback) ≠ none) :
    ∃ r evs, register_slots W icd cb l res s = Res.ok r (s.emits evs) ∧
      enumCalls evs = [] ∧
      ((∀ tr fp f d, W.DbgRegisterMsgCallback tr fp f d = XGL_RESULT.XGL_SUCCESS) →
        regCalls evs = l.map fun i => (icd.addr, i, cb.func, cb.data)) := by
  induction l generalizing s res with
  | nil =>
      exact ⟨res, [], by rw [register_slots, LoaderState.emits_nil], rfl, fun _ => rfl⟩
  | cons i rest ih =>
      rw [register_slots]
      cases hfp : dispatch_entry icd i (fun tab => tab.DbgRegisterMsgCallback) with
      | none => exact absurd hfp (hd i (by simp))
      | some fp =>
          simp only []
          by_cases hr : W.DbgRegisterMsgCallback s.trace fp cb.func cb.data =
              XGL_RESULT.XGL_SUCCESS
          · obtain ⟨r, evs, h1, h2, h3⟩ := ih
              (W.DbgRegisterMsgCallback s.trace fp cb.func cb.data)
              (s.emit (Event.DbgRegisterMsgCallback icd.addr i fp cb.func cb.data
                (W.DbgRegisterMsgCallback s.trace fp cb.func cb.data)))
              (fun j hj => hd j (by simp [hj]))
            refine ⟨r, Event.DbgRegisterMsgCallback icd.addr i fp cb.func cb.data
                (W.DbgRegisterMsgCallback s.trace fp cb.func cb.data) :: evs, ?_, ?_, ?_⟩
            · rw [if_neg (not_not.2 hr), h1]
              simp [LoaderState.emits_emits]
            · simp [enumCalls, h2]
            · intro hall
              simp [regCalls, h3 hall]
          · refine ⟨W.DbgRegisterMsgCallback s.trace fp cb.func cb.data,
                [Event.DbgRegisterMsgCallback icd.addr i fp cb.func cb.data
                (W.DbgRegisterMsgCallback s.trace fp cb.func cb.data)], ?_, rfl, ?_⟩
            · rw [if_pos hr]; rfl
            · intro hall
              exact absurd (hall _ _ _ _) hr

/-- The outer loop of the registration always runs to the end of the
callback list. -/
theorem register_while_spec (W : World) (icd : loader_icd) (cbs : List loader_msg_callback)
    (res : XGL_RESULT) (s : LoaderState)
    (hd : ∀ i < icd.gpu_count,
      dispatch_entry icd i (fun tab => tab.DbgRegisterMsgCallback) ≠ none) :
    ∃ r evs, register_while W icd cbs res s = Res.ok ([], r) (s.emits evs) ∧
      enumCalls evs = [] ∧
      ((∀ tr fp f d, W.DbgRegisterMsgCallback tr fp f d = XGL_RESULT.XGL_SUCCESS) →
        regCalls evs = cbs.flatMap fun cb =>
          (List.range icd.gpu_count).map fun i => (icd.addr, i, cb.func, cb.data)) := by
  induction cbs generalizing s res with
  | nil =>
      exact ⟨res, [], by rw [register_while, LoaderState.emits_nil], rfl, fun _ => rfl⟩
  | cons cb rest ih =>
      rw [register_while]
      obtain ⟨r1, e1, h1, a1, b1⟩ := register_slots_spec W icd cb (List.range icd.gpu_count)
        res s (fun i hi => hd i (List.mem_range.1 hi))
      rw [h1]
      simp only [Res.bind]
      obtain ⟨r2, e2, h2, a2, b2⟩ := ih r1 (s.emits e1)
      refine ⟨r2, e1 ++ e2, ?_, ?_, ?_⟩
      · rw [h2, LoaderState.emits_emits]
      · simp [enumCalls_append, a1, a2]
      · intro hall
        simp [regCalls_append, b1 hall, b2 hall]

/-- The registration of the pending callbacks on an ICD returns success
whatever the driver answers. -/
theorem loader_icd_register_msg_callbacks_spec (W : World) (icd : loader_icd)
    (res0 : XGL_RESULT) (s : LoaderState)
    (hd : ∀ i < icd.gpu_count,
      dispatch_entry icd i (fun tab => tab.DbgRegisterMsgCallback) ≠ none) :
    ∃ evs, loader_icd_register_msg_callbacks W icd res0 s =
        Res.ok XGL_RESULT.XGL_SUCCESS (s.emits evs) ∧
      enumCalls evs = [] ∧
      ((∀ tr fp f d, W.DbgRegisterMsgCallback tr fp f d = XGL_RESULT.XGL_SUCCESS) →
        regCalls evs = s.msg_callbacks.flatMap fun cb =>
          (List.range icd.gpu_count).map fun i => (icd.addr, i, cb.func, cb.data)) := by
  unfold loader_icd_register_msg_callbacks
  obtain ⟨r, evs, h1, a1, b1⟩ := register_while_spec W icd s.msg_callbacks res0 s hd
  rw [h1]
  exact ⟨evs, rfl, a1, b1⟩

/-- The migration of the debug settings to an ICD whose tables resolve the
debug entry points: it returns, having made no `EnumerateGpus` call; when the
driver accepts every option it has passed every pending callback to every
slot, and when it also accepts every registration the migration has not
failed. -/
theorem migrate_failed_spec (W : World) (icd : loader_icd) (res0 : XGL_RESULT)
    (s : LoaderState)
    (hd1 : ∀ i < icd.gpu_count,
      dispatch_entry icd i (fun tab => tab.DbgSetGlobalOption) ≠ none)
    (hd2 : ∀ i < icd.gpu_count,
      dispatch_entry icd i (fun tab => tab.DbgRegisterMsgCallback) ≠ none) :
    ∃ failed evs, migrate_failed W icd res0 s = Res.ok failed (s.emits evs) ∧
      enumCalls evs = [] ∧
      ((∀ tr fp o v, W.DbgSetGlobalOption tr fp o v = XGL_RESULT.XGL_SUCCESS) →
        failed = false ∧
        ((∀ tr fp f d, W.DbgRegisterMsgCallback tr fp f d = XGL_RESULT.XGL_SUCCESS) →
          regCalls evs = s.msg_callbacks.flatMap fun cb =>
            (List.range icd.gpu_count).map fun i => (icd.addr, i, cb.func, cb.data))) := by
  unfold migrate_failed
  obtain ⟨r1, e1, h1, a1, b1, c1⟩ := loader_icd_set_global_options_spec W icd s hd1
  rw [h1]
  simp only [Res.bind]
  by_cases hr1 : r1 = XGL_RESULT.XGL_SUCCESS
  · rw [if_neg (not_not.2 hr1)]
    obtain ⟨e2, h2, a2, b2⟩ := loader_icd_register_msg_callbacks_spec W icd res0
      (s.emits e1) hd2
    rw [h2]
    refine ⟨false, e1 ++ e2, by simp [LoaderState.emits_emits], ?_, ?_⟩
    · simp [enumCalls_append, a1, a2]
    · intro _
      refine ⟨rfl, fun hall => ?_⟩
      rw [regCalls_append, b1, b2 hall]
      simp
  · rw [if_pos hr1]
    refine ⟨true, e1, rfl, a1, fun hall => absurd (c1 hall) hr1⟩

theorem LoaderState.sameSettings_refl (s : LoaderState) : s.sameSettings s :=
  ⟨rfl, rfl, rfl, rfl, rfl⟩

theorem LoaderState.sameSettings_trans {a b c : LoaderState} (h1 : a.sameSettings b)
    (h2 : b.sameSettings c) : a.sameSettings c := by
  obtain ⟨p1, p2, p3, p4, p5⟩ := h1
  obtain ⟨q1, q2, q3, q4, q5⟩ := h2
  exact ⟨q1.trans p1, q2.trans p2, q3.trans p3, q4.trans p4, q5.trans p5⟩

/-- The device loop of `xglEnumerateGpus` when break-on-warning is unset: it
returns, having made no driver call; it has initialised the dispatch tables
of the slots it visited and written every device to the same entry `count`
of `pGpus`. -/
theorem bind_gpus_spec (W : World) (ptr k : Nat) (gpa : FnPtr) (block count : Nat) :
    ∀ (gpus : List Nat) (i : Nat) (icd : loader_icd) (writes : List (Nat × Ptr))
      (s : LoaderState), s.break_on_warning = false →
      ∃ icd' s' evs,
        bind_gpus W ptr k gpa block count i gpus icd writes s =
          Res.ok (icd', writes ++ List.replicate gpus.length (count, Ptr.obj block 0)) s' ∧
        s'.trace = s.trace ++ evs ∧ enumCalls evs = [] ∧ regCalls evs = [] ∧
        s.sameSettings s' ∧
        icd'.addr = icd.addr ∧ icd'.scanned_icds = icd.scanned_icds ∧
        icd'.gpu_count = icd.gpu_count ∧
        icd'.loader_dispatch.length = icd.loader_dispatch.length ∧
        (∀ j, j < i → icd'.loader_dispatch[j]? = icd.loader_dispatch[j]?) ∧
        (∀ j, i ≤ j → j < i + gpus.length → j < icd.loader_dispatch.length →
          ∃ g, icd'.loader_dispatch[j]? =
            some (loader_init_dispatch_table W gpa (Ptr.driver g))) := by
  intro gpus
  induction gpus with
  | nil =>
      intro i icd writes s _
      refine ⟨icd, s, [], ?_, by simp, rfl, rfl, s.sameSettings_refl, rfl, rfl, rfl, rfl,
        fun _ _ => rfl, ?_⟩
      · rw [bind_gpus]; simp
      · intro j h1 h2 _
        simp at h2
        omega
  | cons g rest ih =>
      intro i icd writes s hb
      rw [bind_gpus]
      generalize hicd1 : ({ icd with
        loader_dispatch := icd.loader_dispatch.set i
          (loader_init_dispatch_table W gpa (Ptr.driver g)) } : loader_icd) = icd1
      generalize hs2 : ((s.withObjMem (writeObj s.objMem block i
          { baseObject := Ptr.driver g, pGPA := gpa, nextObject := Ptr.driver g })).setIcd
            ptr k icd1) = s2
      have hs2t : s2.trace = s.trace := by rw [← hs2]; simp [LoaderState.setIcd]
      have hs2s : s.sameSettings s2 := by
        rw [← hs2]; simp [LoaderState.setIcd, LoaderState.sameSettings]
      have hlog : ∃ e1, (if s2.driverHead g ≠ Word.magic then
            loader_log XGL_DBG_MSG_TYPE.XGL_DBG_MSG_WARNING
              "Loader: Incompatible ICD, first dword must be initialized to ICD_LOADER_MAGIC. See loader/README.md for details.\n"
              s2
          else Res.ok () s2) = Res.ok () (s2.emits e1) ∧
          enumCalls e1 = [] ∧ regCalls e1 = [] := by
        by_cases hm : s2.driverHead g ≠ Word.magic
        · rw [if_pos hm, loader_log_warning, if_neg (by rw [hs2s.2.2.2.2, hb]; simp)]
          exact ⟨_, rfl, (calls_log_events _ _ _).1, (calls_log_events _ _ _).2⟩
        · rw [if_neg hm]
          exact ⟨[], by rw [LoaderState.emits_nil], rfl, rfl⟩
      obtain ⟨e1, he1, a1, b1⟩ := hlog
      rw [he1]
      simp only [Res.bind]
      obtain ⟨icd', s', e2, h1, h2, a2, b2, hss, c1, c2, c3, c4, c5, c6⟩ :=
        ih (i + 1) icd1 (writes ++ [(count, Ptr.obj block 0)])
          ((s2.emits e1).writeHead g (Word.disp icd.addr i))
          (by simpa [hs2s.2.2.2.2] using hb)
      have hlen1 : icd1.loader_dispatch.length = icd.loader_dispatch.length := by
        rw [← hicd1]; simp
      refine ⟨icd', s', e1 ++ e2, ?_, ?_, ?_, ?_, ?_, ?_, ?_, ?_, ?_, ?_, ?_⟩
      · rw [h1]
        simp [List.replicate_succ]
      · rw [h2]; simp [hs2t]
      · simp [enumCalls_append, a1, a2]
      · simp [regCalls_append, b1, b2]
      · refine LoaderState.sameSettings_trans hs2s (LoaderState.sameSettings_trans ?_ hss)
        simp [LoaderState.sameSettings]
      · rw [c1, ← hicd1]
      · rw [c2, ← hicd1]
      · rw [c3, ← hicd1]
      · rw [c4, hlen1]
      · intro j hj
        rw [c5 j (by omega), ← hicd1]
        simp only []
        rw [List.getElem?_set_ne (by omega)]
      · intro j hj1 hj2 hj3
        by_cases hji : j = i
        · subst hji
          refine ⟨g, ?_⟩
          rw [c5 j (by omega), ← hicd1]
          simp only []
          rw [List.getElem?_set_self]
          simp [hj3]
        · exact c6 j (by omega) (by simp at hj2; omega) (by rw [hlen1]; exact hj3)

theorem scanned_isSome_of_same {s s' : LoaderState} (h : s.sameSettings s') (a : Nat)
    (ha : a ∈ s.scanned_icd_list.map (fun n => n.addr)) : ∃ n, s'.scanned a = some n :=
  scanned_isSome s' a (by rw [h.1]; exact ha)

/-- The step of `xglEnumerateGpus` after the migration of the settings, when
break-on-warning is unset: it returns, having made no driver call. -/
theorem after_migrate_spec (failed : Bool) (icd : loader_icd) (s : LoaderState)
    (hb : s.break_on_warning = false)
    (hsc : icd.scanned_icds ∈ s.scanned_icd_list.map (fun n => n.addr)) :
    ∃ s' evs,
      (if failed then
          (loader_log XGL_DBG_MSG_TYPE.XGL_DBG_MSG_WARNING
            "ICD ignored: failed to migrate settings" s).bind fun _ s5 =>
          loader_icd_destroy icd s5
        else Res.ok () s) = Res.ok () s' ∧
      s'.trace = s.trace ++ evs ∧ enumCalls evs = [] ∧ regCalls evs = [] ∧
      s.sameSettings s' := by
  cases failed with
  | false => exact ⟨s, [], by simp, by simp, rfl, rfl, s.sameSettings_refl⟩
  | true =>
      simp only [if_true]
      rw [loader_log_warning, if_neg (by simp [hb])]
      simp only [Res.bind]
      obtain ⟨n, hn⟩ := scanned_isSome
        (s.emits (loader_log_events XGL_DBG_MSG_TYPE.XGL_DBG_MSG_WARNING
          "ICD ignored: failed to migrate settings" s)) icd.scanned_icds (by simpa using hsc)
      unfold loader_icd_destroy
      rw [hn]
      refine ⟨_, loader_log_events XGL_DBG_MSG_TYPE.XGL_DBG_MSG_WARNING
          "ICD ignored: failed to migrate settings" s ++ [Event.close_library n.handle],
        rfl, by simp, ?_, ?_, ?_⟩
      · rw [enumCalls_append, (calls_log_events _ _ _).1]; rfl
      · rw [regCalls_append, (calls_log_events _ _ _).2]; rfl
      · simp [LoaderState.sameSettings]

theorem u32sub_eq {a b : Nat} (ha : a < 4294967296) (hb : b ≤ a) : u32sub a b = a - b := by
  unfold u32sub
  omega

theorem u32add_eq {a b : Nat} (h : a + b < 4294967296) : u32add a b = a + b := by
  unfold u32add
  omega

theorem dispatch_entry_init (W : World) (icd : loader_icd) (j : Nat) (gpa : FnPtr) (g : Nat)
    (member : XGL_LAYER_DISPATCH_TABLE → FnPtr)
    (h : icd.loader_dispatch[j]? = some (loader_init_dispatch_table W gpa (Ptr.driver g)))
    (hm : member (loader_init_dispatch_table W gpa (Ptr.driver g)) ≠ FnPtr.null) :
    dispatch_entry icd j member ≠ none := by
  unfold dispatch_entry
  rw [h]
  simp [hm]

theorem init_table_members (W : World) (gpa : FnPtr) (gpu : Ptr) :
    (loader_init_dispatch_table W gpa gpu).DbgSetGlobalOption =
      W.callGPA gpa gpu "xglDbgSetGlobalOption" ∧
    (loader_init_dispatch_table W gpa gpu).DbgRegisterMsgCallback =
      W.callGPA gpa gpu "xglDbgRegisterMsgCallback" ∧
    (loader_init_dispatch_table W gpa gpu).DbgUnregisterMsgCallback =
      W.callGPA gpa gpu "xglDbgUnregisterMsgCallback" := by
  unfold loader_init_dispatch_table loader_initialize_dispatch_table
  simp only []
  split <;> exact ⟨rfl, rfl, rfl⟩

theorem getLast?_cons_getD {α : Type} (a : α) (l : List α) (d : α) :
    ((a :: l).getLast?).getD d = (l.getLast?).getD a := by
  induction l generalizing a d with
  | nil => rfl
  | cons b t ih =>
      rw [List.getLast?_cons_cons, ih b a, ih b d]

/-- The loop of `xglEnumerateGpus` when break-on-warning is unset, the ICDs
point at scanned nodes, the drivers resolve the two debug entry points used
in the migration and report no more devices than asked for. -/
theorem xglEnumerateGpus_loop_spec (W : World) (ptr maxGpus : Nat) (res0 : XGL_RESULT)
    (hmax : maxGpus < 4294967296)
    (hrep : ∀ tr fp i max, (W.EnumerateGpus tr fp i max).2.length ≤ max)
    (hopt : ∀ fp g, W.callGPA fp (Ptr.driver g) "xglDbgSetGlobalOption" ≠ FnPtr.null)
    (hreg : ∀ fp g, W.callGPA fp (Ptr.driver g) "xglDbgRegisterMsgCallback" ≠ FnPtr.null) :
    ∀ (rest : List loader_icd) (k count : Nat) (res : XGL_RESULT) (writes : List (Nat × Ptr))
      (s : LoaderState),
      s.break_on_warning = false →
      (∀ icd ∈ rest, icd.scanned_icds ∈ s.scanned_icd_list.map (fun n => n.addr)) →
      count ≤ maxGpus →
      ∃ r s' evs,
        xglEnumerateGpus_loop W ptr maxGpus res0 k rest count res writes s = Res.ok r s' ∧
        s'.trace = s.trace ++ evs ∧ s.sameSettings s' ∧
        asked_ok maxGpus W.XGL_MAX_PHYSICAL_GPUS count (enumCalls evs) ∧
        r.pGpuCount = count + ((enumCalls evs).map bound).sum ∧
        r.pGpuCount ≤ maxGpus ∧
        r.result = (((enumCalls evs).map fun c => c.2.2.1).getLast?).getD res ∧
        ((∀ tr fp o v, W.DbgSetGlobalOption tr fp o v = XGL_RESULT.XGL_SUCCESS) →
          (∀ tr fp f d, W.DbgRegisterMsgCallback tr fp f d = XGL_RESULT.XGL_SUCCESS) →
          regCalls evs = expectedRegs s.msg_callbacks (enumCalls evs)) ∧
        (rest ≠ [] → enumCalls evs ≠ []) ∧
        queried_ok maxGpus W.XGL_MAX_PHYSICAL_GPUS count rest (enumCalls evs) := by
  intro rest
  induction rest with
  | nil =>
      intro k count res writes s _ _ hc
      refine ⟨_, s, [], by rw [xglEnumerateGpus_loop], by simp, s.sameSettings_refl, ?_, ?_,
        ?_, ?_, ?_, fun h => absurd rfl h, ?_⟩
      · simp [enumCalls, asked_ok]
      · simp [enumCalls]
      · simpa [enumCalls] using hc
      · simp [enumCalls]
      · intro _ _; simp [enumCalls, regCalls, expectedRegs]
      · simp [enumCalls, queried_ok]
  | cons icd rest ih =>
      intro k count res writes s hb hwf hc
      have hicd : icd.scanned_icds ∈ s.scanned_icd_list.map (fun n => n.addr) :=
        hwf icd (by simp)
      have hrest : ∀ c ∈ rest, c.scanned_icds ∈ s.scanned_icd_list.map (fun n => n.addr) :=
        fun c hc' => hwf c (by simp [hc'])
      obtain ⟨sc, hsc⟩ := scanned_isSome s icd.scanned_icds hicd
      rw [xglEnumerateGpus_loop, hsc]
      simp only []
      rw [u32sub_eq hmax hc]
      generalize hmx : min (maxGpus - count) W.XGL_MAX_PHYSICAL_GPUS = mx
      generalize hr : W.EnumerateGpus s.trace sc.EnumerateGpus sc.«instance» mx = r
      have hn : r.2.length ≤ mx := by rw [← hr]; exact hrep _ _ _ _
      have hev : enumCalls [Event.EnumerateGpus icd.addr sc.EnumerateGpus sc.«instance» mx
          r.1 r.2] = [(icd.addr, mx, r.1, r.2.length)] := rfl
      by_cases hok : r.1 = XGL_RESULT.XGL_SUCCESS ∧ r.2.length ≠ 0
      · -- the ICD returned devices
        rw [if_pos hok]
        generalize hicd1 : (loader_icd.mk _ _ _ _ _ _ _ _) = icd1
        have hicd1a : icd1.addr = icd.addr ∧ icd1.scanned_icds = icd.scanned_icds ∧
            icd1.gpu_count = r.2.length ∧ icd1.loader_dispatch.length = r.2.length := by
          rw [← hicd1]; simp
        generalize hs2 : LoaderState.setIcd _ ptr k icd1 = s2
        have hs2t : s2.trace = s.trace ++ [Event.EnumerateGpus icd.addr sc.EnumerateGpus
            sc.«instance» mx r.1 r.2] := by
          rw [← hs2]; simp [LoaderState.setIcd]
        have hs2s : s.sameSettings s2 := by
          rw [← hs2]; simp [LoaderState.setIcd, LoaderState.sameSettings]
        obtain ⟨icd', s3, e1, h1, t1, a1, b1, ss1, c1, c2, c3, c4, _, c6⟩ :=
          bind_gpus_spec W ptr k sc.GetProcAddr (s.emit (Event.EnumerateGpus icd.addr
            sc.EnumerateGpus sc.«instance» mx r.1 r.2)).objMem.length count r.2 0 icd1 writes s2
            (by rw [hs2s.2.2.2.2]; exact hb)
        rw [h1, Res.ok_bind]
        have hd : ∀ (member : XGL_LAYER_DISPATCH_TABLE → FnPtr),
            (∀ g, member (loader_init_dispatch_table W sc.GetProcAddr (Ptr.driver g)) ≠
              FnPtr.null) →
            ∀ i < icd'.gpu_count, dispatch_entry icd' i member ≠ none := by
          intro member hmem i hi
          obtain ⟨g, hg⟩ := c6 i (Nat.zero_le _) (by rw [c3, hicd1a.2.2.1] at hi; omega)
            (by rw [c3, hicd1a.2.2.1] at hi; rw [hicd1a.2.2.2]; exact hi)
          exact dispatch_entry_init W icd' i sc.GetProcAddr g member hg (hmem g)
        obtain ⟨failed, e2, h2, a2, b2⟩ := migrate_failed_spec W icd' res0 s3
          (hd _ (fun g => by rw [(init_table_members W _ _).1]; exact hopt _ _))
          (hd _ (fun g => by rw [(init_table_members W _ _).2.1]; exact hreg _ _))
        rw [h2, Res.ok_bind]
        have ss2 : s.sameSettings (s3.emits e2) :=
          LoaderState.sameSettings_trans hs2s (LoaderState.sameSettings_trans ss1
            (by simp [LoaderState.sameSettings]))
        obtain ⟨s6, e3, h3, t3, a3, b3, ss3⟩ := after_migrate_spec failed icd' (s3.emits e2)
          (by rw [ss2.2.2.2.2]; exact hb)
          (by rw [ss2.1, c2, hicd1a.2.1]; exact hicd)
        rw [h3, Res.ok_bind]
        have ss6 : s.sameSettings s6 := LoaderState.sameSettings_trans ss2 ss3
        have ht6 : s6.trace = s.trace ++ (Event.EnumerateGpus icd.addr sc.EnumerateGpus
            sc.«instance» mx r.1 r.2 :: (e1 ++ e2 ++ e3)) := by
          rw [t3]; simp [t1, hs2t]
        have hcalls : enumCalls (Event.EnumerateGpus icd.addr sc.EnumerateGpus
            sc.«instance» mx r.1 r.2 :: (e1 ++ e2 ++ e3)) =
            [(icd.addr, mx, r.1, r.2.length)] := by
          simp [enumCalls, enumCalls_append, a1, a2, a3]
        have hsum : count + r.2.length ≤ maxGpus := by
          have : mx ≤ maxGpus - count := by rw [← hmx]; exact Nat.min_le_left _ _
          omega
        rw [u32add_eq (by omega)]
        have hbound : bound (icd.addr, mx, r.1, r.2.length) = r.2.length := by
          simp [bound, hok.1]
        have hregs : (∀ tr fp o v, W.DbgSetGlobalOption tr fp o v = XGL_RESULT.XGL_SUCCESS) →
            (∀ tr fp f d, W.DbgRegisterMsgCallback tr fp f d = XGL_RESULT.XGL_SUCCESS) →
            regCalls (Event.EnumerateGpus icd.addr sc.EnumerateGpus
              sc.«instance» mx r.1 r.2 :: (e1 ++ e2 ++ e3)) =
            s.msg_callbacks.flatMap fun cb =>
              (List.range r.2.length).map fun i => (icd.addr, i, cb.func, cb.data) := by
          intro ho hg
          have := (b2 ho).2 hg
          simp only [regCalls, regCalls_append, b1, b3, this, List.nil_append,
            List.append_nil]
          rw [c3, c1, hicd1a.1, hicd1a.2.2.1, ss1.2.1, hs2s.2.1]
        by_cases hbr : maxGpus ≤ count + r.2.length
        · -- the array is full: the loop is left
          rw [if_pos hbr]
          refine ⟨_, s6, _, rfl, ht6, ss6, ?_, ?_, ?_, ?_, ?_, fun _ => by rw [hcalls]; simp,
            ?_⟩
          · rw [hcalls]
            exact ⟨hc, hmx.symm, trivial⟩
          · rw [hcalls]; simp [hbound]
          · exact hsum
          · rw [hcalls]; simp
          · intro ho hg
            rw [hregs ho hg, hcalls]
            simp [expectedRegs, hok]
          · rw [hcalls, queried_ok]
            refine ⟨rfl, hc, hmx.symm, ?_⟩
            rw [if_pos ⟨by rw [hbound]; exact hok.2, by rw [hbound]; exact hbr⟩]
        · rw [if_neg hbr]
          obtain ⟨r', s', evs, g1, g2, g3, g4, g5, g6, g7, g8, _, g10⟩ :=
            ih (k + 1) (count + r.2.length) r.1 (writes ++ List.replicate r.2.length
              (count, Ptr.obj (s.emit (Event.EnumerateGpus icd.addr sc.EnumerateGpus
                sc.«instance» mx r.1 r.2)).objMem.length 0)) s6
              (by rw [ss6.2.2.2.2]; exact hb) (by rw [ss6.1]; exact hrest) hsum
          refine ⟨r', s', (Event.EnumerateGpus icd.addr sc.EnumerateGpus
            sc.«instance» mx r.1 r.2 :: (e1 ++ e2 ++ e3)) ++ evs, g1, ?_,
            LoaderState.sameSettings_trans ss6 g3, ?_, ?_, g6, ?_, ?_,
            fun _ => by rw [enumCalls_append, hcalls]; simp, ?_⟩
          · rw [g2, ht6]; simp
          · rw [enumCalls_append, hcalls]
            exact ⟨hc, hmx.symm, by rw [hbound]; exact g4⟩
          · rw [enumCalls_append, hcalls, g5]
            simp [hbound]; omega
          · rw [enumCalls_append, hcalls, g7]
            simp only [List.singleton_append, List.map_cons]
            rw [getLast?_cons_getD]
          · intro ho hg
            rw [regCalls_append, hregs ho hg, g8 ho hg, enumCalls_append, hcalls, ss6.2.1]
            simp [expectedRegs, hok]
          · rw [enumCalls_append, hcalls, List.singleton_append, queried_ok]
            refine ⟨rfl, hc, hmx.symm, ?_⟩
            rw [if_neg (by rw [hbound]; exact fun h => hbr h.2), hbound]
            exact g10
      · -- the ICD returned nothing
        rw [if_neg hok]
        obtain ⟨r', s', evs, g1, g2, g3, g4, g5, g6, g7, g8, _, g10⟩ :=
          ih (k + 1) count r.1 writes (s.emit (Event.EnumerateGpus icd.addr sc.EnumerateGpus
            sc.«instance» mx r.1 r.2)) (by simpa using hb) (by simpa using hrest) hc
        have hbound : bound (icd.addr, mx, r.1, r.2.length) = 0 := by
          unfold bound
          by_cases h1 : r.1 = XGL_RESULT.XGL_SUCCESS
          · have : r.2.length = 0 := by
              by_contra h2
              exact hok ⟨h1, h2⟩
            simp [h1, this]
          · simp [h1]
        refine ⟨r', s', Event.EnumerateGpus icd.addr sc.EnumerateGpus
            sc.«instance» mx r.1 r.2 :: evs, g1, ?_, ?_, ?_, ?_, g6, ?_, ?_,
            fun _ => by simp [enumCalls], ?_⟩
        · rw [g2]; simp
        · refine LoaderState.sameSettings_trans ?_ g3
          simp [LoaderState.sameSettings]
        · simp only [enumCalls]
          exact ⟨hc, hmx.symm, by rw [hbound]; exact g4⟩
        · simp only [enumCalls, List.map_cons, List.sum_cons, hbound]
          rw [g5]; omega
        · simp only [enumCalls, List.map_cons]
          rw [g7, getLast?_cons_getD]
        · intro ho hg
          have := g8 ho hg
          simp only [LoaderState.emit_eq, LoaderState.emits_fields] at this
          simp only [regCalls, enumCalls, expectedRegs, this]
          rw [if_neg hok]
          simp
        · simp only [enumCalls]
          rw [queried_ok]
          refine ⟨rfl, hc, hmx.symm, ?_⟩
          rw [if_neg (by rw [hbound]; exact fun h => h.1 rfl), hbound, Nat.add_zero]
          exact g10

theorem mem_expectedRegs (cbs : List loader_msg_callback)
    (calls : List (Nat × Nat × XGL_RESULT × Nat)) (c : Nat × Nat × XGL_RESULT × Nat)
    (hc : c ∈ calls) (hs : c.2.2.1 = XGL_RESULT.XGL_SUCCESS) (cb : loader_msg_callback)
    (hcb : cb ∈ cbs) (i : Nat) (hi : i < c.2.2.2) :
    (c.1, i, cb.func, cb.data) ∈ expectedRegs cbs calls := by
  induction calls with
  | nil => simp at hc
  | cons d rest ih =>
      rw [expectedRegs, List.mem_append]
      rcases List.mem_cons.1 hc with rfl | hc'
      · left
        rw [if_pos ⟨hs, by omega⟩]
        exact List.mem_flatMap.2 ⟨cb, hcb, List.mem_map.2 ⟨i, List.mem_range.2 hi, rfl⟩⟩
      · exact Or.inr (ih hc')

/-- What `xglEnumerateGpus` does on a listed instance when break-on-warning is
unset, the ICDs point at scanned nodes, the drivers resolve the two debug
entry points used in the migration and report no more devices than asked
for. -/
theorem xglEnumerateGpus_spec (W : World) (h maxGpus : Nat) (res0 : XGL_RESULT)
    (s : LoaderState) (inst : loader_instance)
    (hinst : s.inst h = some inst)
    (hwf : ∀ icd ∈ inst.icds, icd.scanned_icds ∈ s.scanned_icd_list.map (fun n => n.addr))
    (hmax : maxGpus < 4294967296)
    (hrep : ∀ tr fp i max, (W.EnumerateGpus tr fp i max).2.length ≤ max)
    (hopt : ∀ fp g, W.callGPA fp (Ptr.driver g) "xglDbgSetGlobalOption" ≠ FnPtr.null)
    (hreg : ∀ fp g, W.callGPA fp (Ptr.driver g) "xglDbgRegisterMsgCallback" ≠ FnPtr.null)
    (hb : s.break_on_warning = false) :
    ∃ r s' evs,
      xglEnumerateGpus W h maxGpus res0 s = Res.ok r s' ∧
      s'.trace = s.trace ++ evs ∧ s'.msg_callbacks = [] ∧
      asked_ok maxGpus W.XGL_MAX_PHYSICAL_GPUS 0 (enumCalls evs) ∧
      r.pGpuCount = ((enumCalls evs).map bound).sum ∧
      r.pGpuCount ≤ maxGpus ∧
      r.result = (if 0 < r.pGpuCount then XGL_RESULT.XGL_SUCCESS
        else (((enumCalls evs).map fun c => c.2.2.1).getLast?).getD res0) ∧
      ((∀ tr fp o v, W.DbgSetGlobalOption tr fp o v = XGL_RESULT.XGL_SUCCESS) →
        (∀ tr fp f d, W.DbgRegisterMsgCallback tr fp f d = XGL_RESULT.XGL_SUCCESS) →
        regCalls evs = expectedRegs s.msg_callbacks (enumCalls evs)) ∧
      (inst.icds ≠ [] → enumCalls evs ≠ []) ∧
      queried_ok maxGpus W.XGL_MAX_PHYSICAL_GPUS 0 inst.icds (enumCalls evs) := by
  obtain ⟨r, s', evs, g1, g2, g3, g4, g5, g6, g7, g8, g9, g10⟩ :=
    xglEnumerateGpus_loop_spec W h maxGpus res0 hmax hrep hopt hreg inst.icds 0 0 res0 [] s hb
      hwf (Nat.zero_le _)
  unfold xglEnumerateGpus
  rw [hinst]
  simp only []
  rw [Nat.mod_eq_of_lt hmax, g1, Res.ok_bind]
  refine ⟨_, _, evs, rfl, ?_, ?_, g4, ?_, ?_, ?_, g8, g9, g10⟩
  · simp [loader_msg_callback_clear, g2]
  · simp [loader_msg_callback_clear]
  · simpa using g5
  · exact g6
  · simp only [g7]

/-- C2, the defect at work: the instance at address 50 has one ICD, whose
driver reports the two devices 1000 and 1001, and `maxGpus` is 4. The call
returns success with `*pGpuCount = 2`, but both assignments to `pGpus` went
to entry 0 and stored the address of the first wrapper: entry 1 has not been
written. -/
theorem C2_xglEnumerateGpus_entry_unwritten :
    (xglEnumerateGpus World.twoGpus 50 4 XGL_RESULT.XGL_SUCCESS liveState).value? =
      some { result := XGL_RESULT.XGL_SUCCESS, pGpuCount := 2,
             pGpus := [(0, Ptr.obj 0 0), (0, Ptr.obj 0 0)] } ∧
    ((xglEnumerateGpus World.twoGpus 50 4 XGL_RESULT.XGL_SUCCESS liveState).value?.map
      fun r => (r.entry 0, r.entry 1)) = some (some (Ptr.obj 0 0), none) := by
  refine ⟨by decide, by decide⟩

/-- C8, the defect at work: debug echo is enabled and the driver of the one
ICD, at address 60, of the instance at address 50 rejects the option. After
`xglEnumerateGpus` has returned, the library of the scanned driver has been
closed and the node handed to `free`, but the node is still the member of the
ICD list of the instance. -/
theorem C8_xglEnumerateGpus_icd_still_listed :
    (xglEnumerateGpus World.optionsFail 50 4 XGL_RESULT.XGL_SUCCESS echoState).value? =
      some { result := XGL_RESULT.XGL_SUCCESS, pGpuCount := 2,
             pGpus := [(0, Ptr.obj 0 0), (0, Ptr.obj 0 0)] } ∧
    ((xglEnumerateGpus World.optionsFail 50 4 XGL_RESULT.XGL_SUCCESS echoState).state?.map
      fun s' => ((s'.inst 50).map fun i => i.icds.map fun c => c.addr, s'.freed,
        s'.trace.filter fun e => e == Event.close_library 11)) =
      some (some [60], [Alloc.node 60], [Event.close_library 11]) := by
  refine ⟨by decide, by decide⟩

/-- C9, as amended: under the hypotheses of C7 on the instance and the drivers,
when the drivers accept every option the loader pushes and every
registration, `xglEnumerateGpus` returns; every pending callback has been
passed, with its user data, to the per-slot `DbgRegisterMsgCallback` of every
slot of every ICD that returned devices, these being all the registrations
made; and the loader's local callback list is empty. -/
theorem C9_xglEnumerateGpus_callbacks (W : World) (h maxGpus : Nat) (res0 : XGL_RESULT)
    (s : LoaderState) (inst : loader_instance)
    (hinst : s.inst h = some inst)
    (hwf : ∀ icd ∈ inst.icds, icd.scanned_icds ∈ s.scanned_icd_list.map (fun n => n.addr))
    (hmax : maxGpus < 4294967296)
    (hrep : ∀ tr fp i max, (W.EnumerateGpus tr fp i max).2.length ≤ max)
    (hopt : ∀ fp g, W.callGPA fp (Ptr.driver g) "xglDbgSetGlobalOption" ≠ FnPtr.null)
    (hreg : ∀ fp g, W.callGPA fp (Ptr.driver g) "xglDbgRegisterMsgCallback" ≠ FnPtr.null)
    (hb : s.break_on_warning = false)
    (hset : ∀ tr fp o v, W.DbgSetGlobalOption tr fp o v = XGL_RESULT.XGL_SUCCESS)
    (hacc : ∀ tr fp f d, W.DbgRegisterMsgCallback tr fp f d = XGL_RESULT.XGL_SUCCESS) :
    ∃ r s' evs,
      xglEnumerateGpus W h maxGpus res0 s = Res.ok r s' ∧
      s'.trace = s.trace ++ evs ∧
      (∀ c ∈ enumCalls evs, c.2.2.1 = XGL_RESULT.XGL_SUCCESS →
        ∀ cb ∈ s.msg_callbacks, ∀ i < c.2.2.2, (c.1, i, cb.func, cb.data) ∈ regCalls evs) ∧
      regCalls evs = expectedRegs s.msg_callbacks (enumCalls evs) ∧
      s'.msg_callbacks = [] := by
  obtain ⟨r, s', evs, g1, g2, g3, _, _, _, _, g8, _⟩ :=
    xglEnumerateGpus_spec W h maxGpus res0 s inst hinst hwf hmax hrep hopt hreg hb
  refine ⟨r, s', evs, g1, g2, ?_, g8 hset hacc, g3⟩
  intro c hc hs cb hcb i hi
  rw [g8 hset hacc]
  exact mem_expectedRegs s.msg_callbacks (enumCalls evs) c hc hs cb hcb i hi

/-- C9, counterexample: one callback is pending, debug echo is enabled, the
driver of the instance accepts every registration but rejects the option.
`xglEnumerateGpus` returns after the ICD at address 60 returned two devices,
the callback has not been passed to any `DbgRegisterMsgCallback`, and the
local list has been emptied. -/
theorem C9_counterexample_option_rejected :
    (∀ tr fp f d, World.optionsFail.DbgRegisterMsgCallback tr fp f d =
      XGL_RESULT.XGL_SUCCESS) ∧
    echoState.msg_callbacks = [{ func := 7, data := 8 }] ∧
    ((xglEnumerateGpus World.optionsFail 50 4 XGL_RESULT.XGL_SUCCESS echoState).state?.map
      fun s' => (enumCalls s'.trace, regCalls s'.trace, s'.msg_callbacks)) =
      some ([(60, 4, XGL_RESULT.XGL_SUCCESS, 2)], [], []) := by
  refine ⟨fun _ _ _ _ => rfl, rfl, by rfl⟩

/-- C9, witness: one pending callback and a driver that reports two devices
and accepts everything. -/
theorem C9_xglEnumerateGpus_callbacks_witness :
    (pendingState.inst 50 = some { addr := 50, icds := [loader_icd_create 60 1] } ∧
      (∀ icd ∈ [loader_icd_create 60 1],
        icd.scanned_icds ∈ pendingState.scanned_icd_list.map (fun n => n.addr)) ∧
      4 < 4294967296 ∧
      (∀ tr fp i max, (World.twoGpus.EnumerateGpus tr fp i max).2.length ≤ max) ∧
      (∀ fp g, World.twoGpus.callGPA fp (Ptr.driver g) "xglDbgSetGlobalOption" ≠ FnPtr.null) ∧
      (∀ fp g, World.twoGpus.callGPA fp (Ptr.driver g) "xglDbgRegisterMsgCallback" ≠
        FnPtr.null) ∧
      pendingState.break_on_warning = false ∧
      (∀ tr fp o v, World.twoGpus.DbgSetGlobalOption tr fp o v = XGL_RESULT.XGL_SUCCESS) ∧
      (∀ tr fp f d, World.twoGpus.DbgRegisterMsgCallback tr fp f d =
        XGL_RESULT.XGL_SUCCESS)) ∧
    (∃ r s' evs,
      xglEnumerateGpus World.twoGpus 50 4 XGL_RESULT.XGL_SUCCESS pendingState = Res.ok r s' ∧
      s'.trace = pendingState.trace ++ evs ∧
      (∀ c ∈ enumCalls evs, c.2.2.1 = XGL_RESULT.XGL_SUCCESS →
        ∀ cb ∈ pendingState.msg_callbacks, ∀ i < c.2.2.2,
          (c.1, i, cb.func, cb.data) ∈ regCalls evs) ∧
      regCalls evs = expectedRegs pendingState.msg_callbacks (enumCalls evs) ∧
      s'.msg_callbacks = []) ∧
    ((xglEnumerateGpus World.twoGpus 50 4 XGL_RESULT.XGL_SUCCESS pendingState).state?.map
      fun s' => regCalls s'.trace) = some [(60, 0, 7, 8), (60, 1, 7, 8)] :=
  have hrep : ∀ (tr : List Event) (fp : FnPtr) (i max : Nat),
      (World.twoGpus.EnumerateGpus tr fp i max).2.length ≤ max := fun _ _ _ max => by
    simp [World.twoGpus]
  have hopt : ∀ (fp : FnPtr) (g : Nat),
      World.twoGpus.callGPA fp (Ptr.driver g) "xglDbgSetGlobalOption" ≠ FnPtr.null :=
    fun _ _ => by simp [World.twoGpus]
  have hreg : ∀ (fp : FnPtr) (g : Nat),
      World.twoGpus.callGPA fp (Ptr.driver g) "xglDbgRegisterMsgCallback" ≠ FnPtr.null :=
    fun _ _ => by simp [World.twoGpus]
  ⟨⟨rfl, by decide, by decide, hrep, hopt, hreg, rfl, fun _ _ _ _ => rfl,
      fun _ _ _ _ => rfl⟩,
    C9_xglEnumerateGpus_callbacks World.twoGpus 50 4 XGL_RESULT.XGL_SUCCESS pendingState
      { addr := 50, icds := [loader_icd_create 60 1] } rfl (by decide) (by decide)
      hrep hopt hreg rfl (fun _ _ _ _ => rfl) (fun _ _ _ _ => rfl),
    by decide⟩

/-! ## `xglDbgRegisterMsgCallback` -/

/-- C10, the defect at work: one instance with the ICDs at the addresses 60
and 61, one device each, the registration failing on the second. The call
returns the error of the second ICD, and all it did was to register on slot
0 of the first ICD, with success, and to try on slot 0 of the second: no
`DbgUnregisterMsgCallback` has been called, the first ICD retains the
callback, whatever the indeterminate values of the locals. -/
theorem C10_xglDbgRegisterMsgCallback_no_rollback (res0 : XGL_RESULT) (gpu_idx0 : Nat)
    (icd0 : Option loader_icd) :
    (xglDbgRegisterMsgCallback World.driver2Rejects 7 8 res0 gpu_idx0 icd0
      twoIcdState).value? = some (XGL_RESULT.other 6) ∧
    ((xglDbgRegisterMsgCallback World.driver2Rejects 7 8 res0 gpu_idx0 icd0
      twoIcdState).state?.map fun s' => s'.trace) =
      some [Event.DbgRegisterMsgCallback 60 0 (FnPtr.sym 102) 7 8 XGL_RESULT.XGL_SUCCESS,
            Event.DbgRegisterMsgCallback 61 0 (FnPtr.sym 202) 7 8 (XGL_RESULT.other 6)] :=
  ⟨rfl, rfl⟩

/-! ## `loader_activate_layers` -/

theorem Res.bind_eq_ok {α β : Type} {r : Res α} {f : α → LoaderState → Res β} {b : β}
    {s' : LoaderState} (h : r.bind f = Res.ok b s') :
    ∃ a s1, r = Res.ok a s1 ∧ f a s1 = Res.ok b s' := by
  cases r with
  | ok a s1 => exact ⟨a, s1, rfl, h⟩
  | exit c s1 => simp [Res.bind] at h
  | undef => simp [Res.bind] at h

theorem loader_log_ok {t : XGL_DBG_MSG_TYPE} {m : String} {s s1 : LoaderState} {u : Unit}
    (h : loader_log t m s = Res.ok u s1) : s1 = s.emits (loader_log_events t m s) := by
  unfold loader_log at h
  split at h
  · simp at h
  · simp only [Res.ok.injEq] at h
    exact h.2.symm

theorem LoaderState.putIcd_objMem (s : LoaderState) (p k : Nat) (icd : loader_icd) :
    (s.putIcd p k icd).objMem = s.objMem := by
  unfold LoaderState.putIcd
  split <;> simp

theorem LoaderState.icdAt_congr {s s1 : LoaderState} (h : s1.instances = s.instances)
    (p k : Nat) : s1.icdAt p k = s.icdAt p k := by
  unfold LoaderState.icdAt
  rw [h]

theorem LoaderState.obj_congr {s s1 : LoaderState} (h : s1.objMem = s.objMem) (q : Ptr) :
    s1.obj q = s.obj q := by
  cases q <;> simp [LoaderState.obj, h]

theorem LoaderState.scanned_congr {s s1 : LoaderState}
    (h : s1.scanned_icd_list = s.scanned_icd_list) (a : Nat) : s1.scanned a = s.scanned a := by
  unfold LoaderState.scanned
  rw [h]

theorem getD_set_self {α : Type} (m : List (List α)) (b : Nat) (x : List α)
    (hb : b < m.length) : (m.set b x).getD b [] = x := by
  rw [List.getD_eq_getElem?_getD, List.getElem?_set_self hb]
  rfl

theorem getD_set_ne {α : Type} (m : List (List α)) {b b' : Nat} (x : List α) (hne : b ≠ b') :
    (m.set b x).getD b' [] = m.getD b' [] := by
  rw [List.getD_eq_getElem?_getD, List.getD_eq_getElem?_getD, List.getElem?_set_ne hne]

theorem store_obj_ok {ptr : Ptr} {f : XGL_BASE_LAYER_OBJECT → XGL_BASE_LAYER_OBJECT}
    {s s1 : LoaderState} {u : Unit} (h : store_obj ptr f s = Res.ok u s1) :
    (∃ v, s.obj ptr = some v ∧ s1.obj ptr = some (f v)) ∧
    (∀ q, q ≠ ptr → s1.obj q = s.obj q) ∧
    s1.instances = s.instances ∧ s1.scanned_icd_list = s.scanned_icd_list := by
  cases ptr with
  | null => simp [store_obj] at h
  | driver d => simp [store_obj] at h
  | obj b o =>
      simp only [store_obj] at h
      cases hv : s.obj (Ptr.obj b o) with
      | none => simp [hv] at h
      | some v =>
          simp only [hv, Res.ok.injEq, true_and] at h
          subst h
          have hv' := hv
          simp only [LoaderState.obj] at hv'
          have hb : b < s.objMem.length := by
            rcases Nat.lt_or_ge b s.objMem.length with h1 | h1
            · exact h1
            · rw [List.getD_eq_getElem?_getD, List.getElem?_eq_none h1] at hv'
              simp at hv'
          have ho : o < (s.objMem.getD b []).length := by
            rcases Nat.lt_or_ge o (s.objMem.getD b []).length with h1 | h1
            · exact h1
            · rw [List.getElem?_eq_none h1] at hv'
              cases hv'
          refine ⟨⟨v, rfl, ?_⟩, ?_, by simp, by simp⟩
          · simp only [LoaderState.obj, LoaderState.withObjMem_fields, writeObj]
            rw [getD_set_self _ _ _ hb, List.getElem?_set_self ho]
          · intro q hq
            cases q with
            | null => rfl
            | driver d => rfl
            | obj b' o' =>
                simp only [LoaderState.obj, LoaderState.withObjMem_fields, writeObj]
                by_cases hbb : b' = b
                · subst hbb
                  have hoo : o ≠ o' := fun e => hq (by rw [e])
                  rw [getD_set_self _ _ _ hb, List.getElem?_set_ne hoo]
                · have hbb' : b ≠ b' := fun e => hbb e.symm
                  rw [getD_set_ne _ _ hbb']
theorem find_layer_name_frame (W : World) (icd : loader_icd) (gi : Nat) (name : String) :
    ∀ (l : List String) (s : LoaderState) (r : Option String) (s1 : LoaderState),
      find_layer_name W icd gi name l s = Res.ok r s1 →
        s1.objMem = s.objMem ∧ s1.instances = s.instances := by
  intro l
  induction l with
  | nil =>
      intro s r s1 h
      rw [find_layer_name] at h
      simp only [Res.ok.injEq] at h
      rw [← h.2]
      exact ⟨rfl, rfl⟩
  | cons lib rest ih =>
      intro s r s1 h
      rw [find_layer_name] at h
      dsimp only at h
      split at h
      · have := ih _ _ _ h
        simpa using this
      · split at h
        · split at h
          · cases h
          · split at h
            · simp only [Res.ok.injEq] at h
              rw [← h.2]
              simp
            · have := ih _ _ _ h
              simpa using this
        · split at h
          · simp only [Res.ok.injEq] at h
            rw [← h.2]
            simp
          · split at h
            · cases h
            · have := ih _ _ _ h
              simpa using this

theorem LoaderState.setLayerName_frame (s : LoaderState) (i : Nat) (v : layer_name_pair) :
    (s.setLayerName i v).objMem = s.objMem ∧ (s.setLayerName i v).instances = s.instances := by
  simp [LoaderState.setLayerName]

theorem loader_get_layer_env_loop_frame (W : World) (icd : loader_icd) (gi : Nat) :
    ∀ (l : List (List Char)) (count : Nat) (s : LoaderState) (n : Nat) (s1 : LoaderState),
      loader_get_layer_env_loop W icd gi l count s = Res.ok n s1 →
        s1.objMem = s.objMem ∧ s1.instances = s.instances := by
  intro l
  induction l with
  | nil =>
      intro count s n s1 h
      rw [loader_get_layer_env_loop] at h
      simp only [Res.ok.injEq] at h
      rw [← h.2]
      exact ⟨rfl, rfl⟩
  | cons piece rest ih =>
      intro count s n s1 h
      rw [loader_get_layer_env_loop] at h
      split at h
      · simp only [Res.ok.injEq] at h
        rw [← h.2]
        exact ⟨rfl, rfl⟩
      · obtain ⟨r, s2, h1, h2⟩ := Res.bind_eq_ok h
        obtain ⟨e1, e2⟩ := find_layer_name_frame W icd gi _ _ _ _ _ h1
        cases r with
        | none =>
            obtain ⟨a1, a2⟩ := ih _ _ _ _ h2
            exact ⟨a1.trans e1, a2.trans e2⟩
        | some lib =>
            obtain ⟨a1, a2⟩ := ih _ _ _ _ h2
            obtain ⟨b1, b2⟩ := LoaderState.setLayerName_frame s2 count
              { layer_name := W.basename (String.mk piece), lib_name := lib }
            exact ⟨a1.trans (b1.trans e1), a2.trans (b2.trans e2)⟩

theorem loader_get_layer_env_frame (W : World) (icd : loader_icd) (gi : Nat)
    (s : LoaderState) (n : Nat) (s1 : LoaderState)
    (h : loader_get_layer_env W icd gi s = Res.ok n s1) :
    s1.objMem = s.objMem ∧ s1.instances = s.instances := by
  unfold loader_get_layer_env at h
  split at h
  · simp only [Res.ok.injEq] at h
    rw [← h.2]
    exact ⟨rfl, rfl⟩
  · exact loader_get_layer_env_loop_frame W icd gi _ _ _ _ _ h

theorem loader_get_layer_libs_loop_frame (W : World) (icd : loader_icd) (gi : Nat)
    (pCi : XGL_LAYER_CREATE_INFO) :
    ∀ (l : List Nat) (s : LoaderState) (all : Bool) (s1 : LoaderState),
      loader_get_layer_libs_loop W icd gi pCi l s = Res.ok all s1 →
        s1.objMem = s.objMem ∧ s1.instances = s.instances := by
  intro l
  induction l with
  | nil =>
      intro s all s1 h
      rw [loader_get_layer_libs_loop] at h
      simp only [Res.ok.injEq] at h
      rw [← h.2]
      exact ⟨rfl, rfl⟩
  | cons i rest ih =>
      intro s all s1 h
      rw [loader_get_layer_libs_loop] at h
      split at h
      · cases h
      · rename_i name hname
        obtain ⟨r, s2, h1, h2⟩ := Res.bind_eq_ok h
        obtain ⟨e1, e2⟩ := find_layer_name_frame W icd gi _ _ _ _ _ h1
        cases r with
        | none =>
            simp only [Res.ok.injEq] at h2
            rw [← h2.2]
            exact ⟨e1, e2⟩
        | some lib =>
            simp only [] at h2
            split at h2
            · cases h2
            · obtain ⟨a1, a2⟩ := ih _ _ _ h2
              obtain ⟨b1, b2⟩ := LoaderState.setLayerName_frame s2 i
                { layer_name := name, lib_name := lib }
              exact ⟨a1.trans (b1.trans e1), a2.trans (b2.trans e2)⟩

theorem loader_get_layer_libs_frame (W : World) (icd : loader_icd) (gi : Nat)
    (ci : XGL_DEVICE_CREATE_INFO) (s : LoaderState) (n : Nat) (s1 : LoaderState)
    (h : loader_get_layer_libs W icd gi ci s = Res.ok n s1) :
    s1.objMem = s.objMem ∧ s1.instances = s.instances := by
  unfold loader_get_layer_libs at h
  obtain ⟨env, s2, h1, h2⟩ := Res.bind_eq_ok h
  obtain ⟨e1, e2⟩ := loader_get_layer_env_frame W icd gi _ _ _ h1
  split at h2
  · obtain ⟨a1, a2⟩ := loader_get_layer_env_frame W icd gi _ _ _ h2
    exact ⟨a1.trans e1, a2.trans e2⟩
  · obtain ⟨all, s3, h3, h4⟩ := Res.bind_eq_ok h2
    obtain ⟨c1, c2⟩ := loader_get_layer_libs_loop_frame W icd gi _ _ _ _ _ h3
    split at h4
    · obtain ⟨m, s4, h5, h6⟩ := Res.bind_eq_ok h4
      simp only [Res.ok.injEq] at h6
      obtain ⟨a1, a2⟩ := loader_get_layer_env_frame W icd gi _ _ _ h5
      rw [← h6.2]
      exact ⟨a1.trans (c1.trans e1), a2.trans (c2.trans e2)⟩
    · obtain ⟨a1, a2⟩ := loader_get_layer_env_frame W icd gi _ _ _ h4
      exact ⟨a1.trans (c1.trans e1), a2.trans (c2.trans e2)⟩

theorem u32add_le (a b : Nat) : u32add a b ≤ a + b := by
  unfold u32add
  exact Nat.mod_le _ _

theorem LoaderState.putIcd_icdAt {s : LoaderState} {p k : Nat} (icd : loader_icd)
    (h : (s.icdAt p k).isSome) : (s.putIcd p k icd).icdAt p k = some icd := by
  unfold LoaderState.icdAt at h
  unfold LoaderState.putIcd LoaderState.icdAt
  cases hp : s.instances[p]? with
  | none => simp [hp] at h
  | some inst =>
      have hlt : p < s.instances.length := by
        rcases Nat.lt_or_ge p s.instances.length with h1 | h1
        · exact h1
        · rw [List.getElem?_eq_none h1] at hp
          cases hp
      simp only [hp] at h
      have hk : k < inst.icds.length := by
        rcases Nat.lt_or_ge k inst.icds.length with h1 | h1
        · exact h1
        · rw [List.getElem?_eq_none h1] at h
          simp at h
      simp only [LoaderState.withInstances_fields]
      rw [List.getElem?_set_self hlt]
      simp only
      rw [List.getElem?_set_self hk]

theorem LoaderState.icdAt_emits (s : LoaderState) (es : List Event) (p k : Nat) :
    (s.emits es).icdAt p k = s.icdAt p k :=
  LoaderState.icdAt_congr (by simp) p k

theorem LoaderState.icdAt_emit (s : LoaderState) (e : Event) (p k : Nat) :
    (s.emit e).icdAt p k = s.icdAt p k :=
  LoaderState.icdAt_congr (by simp) p k

theorem LoaderState.icdAt_free (s : LoaderState) (a : Alloc) (p k : Nat) :
    (s.free a).icdAt p k = s.icdAt p k :=
  LoaderState.icdAt_congr (by simp) p k

theorem LoaderState.icdAt_withObjMem (s : LoaderState)
    (m : List (List XGL_BASE_LAYER_OBJECT)) (p k : Nat) :
    (s.withObjMem m).icdAt p k = s.icdAt p k :=
  LoaderState.icdAt_congr (by simp) p k

theorem loader_init_layer_libs_spec (W : World) (p k gi : Nat) :
    ∀ (l : List Nat) (icd : loader_icd) (s : LoaderState) (icd1 : loader_icd)
      (s1 : LoaderState),
      loader_init_layer_libs W p k gi l icd s = Res.ok icd1 s1 →
        s1.objMem = s.objMem ∧ icd1.layer_count gi ≤ icd.layer_count gi + l.length ∧
        (∀ i ∈ l, i < W.MAX_LAYER_LIBRARIES) ∧
        ((s.icdAt p k).isSome → (s1.icdAt p k).isSome) := by
  intro l
  induction l with
  | nil =>
      intro icd s icd1 s1 h
      rw [loader_init_layer_libs] at h
      simp only [Res.ok.injEq] at h
      rw [← h.1, ← h.2]
      simp
  | cons i rest ih =>
      intro icd s icd1 s1 h
      rw [loader_init_layer_libs] at h
      split at h
      · cases h
      · rename_i hi
        have hi' : i < W.MAX_LAYER_LIBRARIES := by omega
        have hmem : ∀ {P : Nat → Prop}, P i → (∀ j ∈ rest, P j) → ∀ j ∈ i :: rest, P j := by
          intro P h0 h1 j hj
          rcases List.mem_cons.1 hj with e | e
          · rw [e]
            exact h0
          · exact h1 j e
        split at h
        · obtain ⟨g1, g2, g3, g4⟩ := ih _ _ _ _ h
          refine ⟨g1, ?_, hmem hi' g3, g4⟩
          simp only [List.length_cons]
          omega
        · dsimp only at h
          split at h
          · obtain ⟨u, s2, h1, h2⟩ := Res.bind_eq_ok h
            have e1 := loader_log_ok h1
            obtain ⟨g1, g2, g3, g4⟩ := ih _ _ _ _ h2
            refine ⟨?_, ?_, hmem hi' g3, ?_⟩
            · rw [g1, e1]
              simp [LoaderState.putIcd_objMem]
            · simp only [List.length_cons]
              simp only at g2
              omega
            · intro hs
              apply g4
              rw [e1, LoaderState.icdAt_emits,
                LoaderState.putIcd_icdAt _ (by rw [LoaderState.icdAt_emit]; exact hs)]
              rfl
          · obtain ⟨u, s2, h1, h2⟩ := Res.bind_eq_ok h
            have e1 := loader_log_ok h1
            obtain ⟨g1, g2, g3, g4⟩ := ih _ _ _ _ h2
            refine ⟨?_, ?_, hmem hi' g3, ?_⟩
            · rw [g1, LoaderState.putIcd_objMem, e1]
              simp [LoaderState.putIcd_objMem]
            · simp only [List.length_cons]
              simp only [if_true] at g2
              have := u32add_le (icd.layer_count gi) 1
              omega
            · intro hs
              apply g4
              rw [LoaderState.putIcd_icdAt]
              · rfl
              · rw [LoaderState.icdAt_free, e1, LoaderState.icdAt_emits,
                  LoaderState.putIcd_icdAt _ (by rw [LoaderState.icdAt_emit]; exact hs)]
                rfl
theorem loader_get_icd_icds_at (s : LoaderState) (gpu : Ptr) (p : Nat) :
    ∀ (l : List loader_icd) (k : Nat) (r : icd_ref),
      loader_get_icd_icds s gpu p k l = some (some r) →
        r.inst = p ∧ k ≤ r.pos ∧ l[r.pos - k]? = some r.icd := by
  intro l
  induction l with
  | nil =>
      intro k r h
      simp [loader_get_icd_icds] at h
  | cons icd rest ih =>
      intro k r h
      rw [loader_get_icd_icds] at h
      split at h
      · cases h
      · simp only [Option.some.injEq] at h
        subst h
        simp
      · obtain ⟨a1, a2, a3⟩ := ih _ _ h
        refine ⟨a1, by omega, ?_⟩
        have e : r.pos - k = (r.pos - (k + 1)) + 1 := by omega
        rw [e, List.getElem?_cons_succ]
        exact a3

theorem loader_get_icd_insts_at (s : LoaderState) (gpu : Ptr) :
    ∀ (l : List loader_instance) (p : Nat) (r : icd_ref),
      loader_get_icd_insts s gpu p l = some (some r) →
        p ≤ r.inst ∧ ∃ inst, l[r.inst - p]? = some inst ∧ inst.icds[r.pos]? = some r.icd := by
  intro l
  induction l with
  | nil =>
      intro p r h
      simp [loader_get_icd_insts] at h
  | cons inst rest ih =>
      intro p r h
      rw [loader_get_icd_insts] at h
      split at h
      · cases h
      · rename_i r1 hr1
        simp only [Option.some.injEq] at h
        subst h
        obtain ⟨a1, _, a3⟩ := loader_get_icd_icds_at s gpu p _ _ _ hr1
        refine ⟨by omega, inst, ?_, ?_⟩
        · rw [a1]
          simp
        · simpa using a3
      · obtain ⟨a1, i1, a2, a3⟩ := ih _ _ h
        refine ⟨by omega, i1, ?_, a3⟩
        have e : r.inst - p = (r.inst - (p + 1)) + 1 := by omega
        rw [e, List.getElem?_cons_succ]
        exact a2

theorem loader_get_icd_at {s : LoaderState} {gpu : Ptr} {r : icd_ref}
    (h : loader_get_icd gpu s = some (some r)) : s.icdAt r.inst r.pos = some r.icd := by
  obtain ⟨_, inst, a2, a3⟩ := loader_get_icd_insts_at s gpu _ _ _ h
  unfold LoaderState.icdAt
  simp only [Nat.sub_zero] at a2
  rw [a2]
  exact a3
theorem Ptr.obj_add (b o i : Nat) : (Ptr.obj b o).add i = Ptr.obj b (o + i) := rfl

theorem Ptr.obj_ne {b j i : Nat} (h : j ≠ i) : Ptr.obj b j ≠ Ptr.obj b i := by
  intro e
  injection e with _ e2
  exact h e2

theorem loader_activate_layers_loop_spec (W : World) (p k gi : Nat) (gpu baseObj : Ptr)
    (b n : Nat) (hfresh : ∀ j, gpu ≠ Ptr.obj b j) :
    ∀ (i : Nat) (icd : loader_icd) (gpuObj : Ptr) (nextGPA : FnPtr) (s : LoaderState)
      (icd3 : loader_icd) (s' : LoaderState),
      icd.wrappedGpus gi = Ptr.obj b 0 → icd.layer_count gi = n → i < n →
      gpuObj = (if i + 1 = n then gpu else Ptr.obj b (i + 1)) →
      (∀ j, i < j → j < n → ∃ w, s.obj (Ptr.obj b j) = some w ∧ w.baseObject = baseObj ∧
          w.nextObject = if j + 1 = n then gpu else Ptr.obj b (j + 1)) →
      s.icdAt p k = some icd →
      loader_activate_layers_loop W p k gi gpu baseObj (i + 1) icd gpuObj nextGPA s =
        Res.ok icd3 s' →
      icd3.layer_count = icd.layer_count ∧ icd3.wrappedGpus = icd.wrappedGpus ∧
      icd3.layer_libs = icd.layer_libs ∧ icd3.scanned_icds = icd.scanned_icds ∧
      s'.icdAt p k = some icd3 ∧
      (layer_GPA W (icd.layer_libs gi 0) ≠ FnPtr.null →
        (∃ g', s'.obj gpu = some g' ∧ g'.nextObject = Ptr.obj b 0) ∧
        (∀ j, j < n → ∃ w, s'.obj (Ptr.obj b j) = some w ∧ w.baseObject = baseObj ∧
          w.nextObject = if j + 1 = n then baseObj else Ptr.obj b (j + 1)) ∧
        ∃ sc w, s'.scanned icd.scanned_icds = some sc ∧ s'.obj (Ptr.obj b (n - 1)) = some w ∧
          w.pGPA = sc.GetProcAddr) := by
  intro i
  induction i with
  | zero =>
      intro icd gpuObj nextGPA s icd3 s' hw hn hi hg hinv hat h
      rw [loader_activate_layers_loop] at h
      simp only [hw, Ptr.obj_add, Nat.zero_add] at h
      obtain ⟨u, s1, h1, h2⟩ := Res.bind_eq_ok h
      obtain ⟨⟨v0, hv0, hv0'⟩, hoth1, hinst1, hsc1⟩ := store_obj_ok h1
      split at h2
      · rename_i hnull
        obtain ⟨u2, s2, h3, h4⟩ := Res.bind_eq_ok h2
        have e2 := loader_log_ok h3
        rw [loader_activate_layers_loop] at h4
        simp only [Res.ok.injEq] at h4
        obtain ⟨e3, e4⟩ := h4
        subst e3
        subst e4
        refine ⟨rfl, rfl, rfl, rfl, ?_, ?_⟩
        · rw [e2, LoaderState.icdAt_emits, LoaderState.icdAt_congr hinst1]
          exact hat
        · intro hs
          exact absurd hnull hs
      · rename_i hnn
        simp only [if_true] at h2
        split at h2
        · cases h2
        · obtain ⟨u2, s2, h3, h4⟩ := Res.bind_eq_ok h2
          obtain ⟨⟨g0, hg0, hg0'⟩, hoth2, hinst2, hsc2⟩ := store_obj_ok h3
          split at h4
          · cases h4
          · rename_i sc hsc
            obtain ⟨u3, s3, h5, h6⟩ := Res.bind_eq_ok h4
            obtain ⟨⟨w0, hw0, hw0'⟩, hoth3, hinst3, hsc3⟩ := store_obj_ok h5
            rw [loader_activate_layers_loop] at h6
            simp only [Res.ok.injEq] at h6
            obtain ⟨e3, e4⟩ := h6
            subst e3
            subst e4
            have hobjP : ∀ X q, (s1.putIcd p k X).obj q = s1.obj q := fun X q =>
              LoaderState.obj_congr (LoaderState.putIcd_objMem _ _ _ _) q
            rw [hobjP] at hg0
            simp only [hobjP] at hoth2
            rw [hn] at hw0 hw0' hoth3
            refine ⟨rfl, rfl, rfl, rfl, ?_, ?_⟩
            · rw [LoaderState.icdAt_congr (hinst3.trans hinst2), LoaderState.putIcd_icdAt]
              rw [LoaderState.icdAt_congr hinst1, hat]
              rfl
            · intro _
              refine ⟨?_, ?_, ?_⟩
              · exact ⟨_, (hoth3 gpu (hfresh _)).trans hg0', rfl⟩
              · intro j hj
                by_cases hjl : j = n - 1
                · subst hjl
                  refine ⟨XGL_BASE_LAYER_OBJECT.mk sc.GetProcAddr baseObj w0.baseObject, hw0', ?_, ?_⟩
                  · have e := hoth2 (Ptr.obj b (n - 1)) (fun e => hfresh _ e.symm)
                    rw [hw0] at e
                    by_cases hn1 : n - 1 = 0
                    · rw [hn1, hv0'] at e
                      cases e
                      rfl
                    · obtain ⟨w, a1, a2, _⟩ := hinv (n - 1) (by omega) (by omega)
                      rw [hoth1 _ (Ptr.obj_ne hn1), a1] at e
                      cases e
                      exact a2
                  · rw [if_pos (by omega)]
                · have e3 := hoth3 (Ptr.obj b j) (Ptr.obj_ne hjl)
                  have e2 := hoth2 (Ptr.obj b j) (fun e => hfresh _ e.symm)
                  by_cases hj0 : j = 0
                  · subst hj0
                    refine ⟨XGL_BASE_LAYER_OBJECT.mk nextGPA gpuObj baseObj, ?_, rfl, ?_⟩
                    · rw [e3, e2]
                      exact hv0'
                    · show gpuObj = _
                      rw [hg, if_neg (by omega), if_neg (by omega)]
                  · obtain ⟨w, a1, a2, a3⟩ := hinv j (by omega) hj
                    refine ⟨w, ?_, a2, ?_⟩
                    · rw [e3, e2, hoth1 _ (Ptr.obj_ne hj0)]
                      exact a1
                    · rw [a3, if_neg (by omega), if_neg (by omega)]
              · refine ⟨sc, XGL_BASE_LAYER_OBJECT.mk sc.GetProcAddr baseObj w0.baseObject, ?_, hw0', rfl⟩
                rw [LoaderState.scanned_congr hsc3]
                exact hsc
  | succ i ih =>
      intro icd gpuObj nextGPA s icd3 s' hw hn hi hg hinv hat h
      rw [loader_activate_layers_loop] at h
      simp only [hw, Ptr.obj_add, Nat.zero_add] at h
      obtain ⟨u, s1, h1, h2⟩ := Res.bind_eq_ok h
      obtain ⟨⟨v0, hv0, hv0'⟩, hoth1, hinst1, hsc1⟩ := store_obj_ok h1
      have hinv1 : ∀ j, i < j → j < n → ∃ w, s1.obj (Ptr.obj b j) = some w ∧
          w.baseObject = baseObj ∧
          w.nextObject = if j + 1 = n then gpu else Ptr.obj b (j + 1) := by
        intro j hj1 hj2
        by_cases hj : j = i + 1
        · subst hj
          exact ⟨_, hv0', rfl, hg⟩
        · obtain ⟨w, a1, a2, a3⟩ := hinv j (by omega) hj2
          refine ⟨w, ?_, a2, a3⟩
          rw [hoth1 _ (Ptr.obj_ne hj)]
          exact a1
      have hg1 : Ptr.obj b (i + 1) = if i + 1 = n then gpu else Ptr.obj b (i + 1) := by
        rw [if_neg (by omega)]
      have hat1 : s1.icdAt p k = some icd := by
        rw [LoaderState.icdAt_congr hinst1]
        exact hat
      split at h2
      · obtain ⟨u2, s2, h3, h4⟩ := Res.bind_eq_ok h2
        have e2 := loader_log_ok h3
        have hobj2 : ∀ q, s2.obj q = s1.obj q := fun q =>
          LoaderState.obj_congr (by rw [e2]; simp) q
        refine ih icd _ _ s2 icd3 s' hw hn (by omega) hg1 ?_ ?_ h4
        · intro j hj1 hj2
          rw [hobj2]
          exact hinv1 j hj1 hj2
        · rw [e2, LoaderState.icdAt_emits]
          exact hat1
      · rw [if_neg (Nat.succ_ne_zero i)] at h2
        exact ih icd _ _ s1 icd3 s' hw hn (by omega) hg1 hinv1 hat1 h2
theorem follow_chain (s : LoaderState) (gpu baseObj : Ptr) (b n : Nat)
    (hgpu : ∃ g, s.obj gpu = some g ∧ g.nextObject = Ptr.obj b 0)
    (hw : ∀ j, j < n → ∃ w, s.obj (Ptr.obj b j) = some w ∧ w.baseObject = baseObj ∧
      w.nextObject = if j + 1 = n then baseObj else Ptr.obj b (j + 1)) :
    (∀ j, j < n → follow s gpu (j + 1) = some (Ptr.obj b j)) ∧
    (0 < n → follow s gpu (n + 1) = some baseObj) := by
  have h1 : ∀ j, j < n → follow s gpu (j + 1) = some (Ptr.obj b j) := by
    intro j
    induction j with
    | zero =>
        intro _
        obtain ⟨g, a1, a2⟩ := hgpu
        simp [follow, a1, a2]
    | succ j ih =>
        intro hj
        obtain ⟨w, a1, _, a3⟩ := hw j (by omega)
        rw [follow, ih (by omega)]
        simp only [Option.some_bind, a1, Option.map_some', a3]
        rw [if_neg (by omega)]
  refine ⟨h1, ?_⟩
  intro hn
  obtain ⟨w, a1, _, a3⟩ := hw (n - 1) (by omega)
  have e : n - 1 + 1 = n := by omega
  have := h1 (n - 1) (by omega)
  rw [e] at this a3
  rw [follow, this]
  simp only [Option.some_bind, a1, Option.map_some', a3, if_true]

theorem u32sub_one {n : Nat} (h1 : 0 < n) (h2 : n < 2147483648) : u32sub n 1 = n - 1 := by
  unfold u32sub
  omega

theorem obj_fresh {s : LoaderState} {gpu : Ptr} {g : XGL_BASE_LAYER_OBJECT}
    (hg : s.obj gpu = some g) (j : Nat) : gpu ≠ Ptr.obj s.objMem.length j := by
  intro e
  rw [e] at hg
  simp only [LoaderState.obj] at hg
  rw [List.getD_eq_getElem?_getD, List.getElem?_eq_none (Nat.le_refl _)] at hg
  simp at hg

theorem loader_activate_layers_spec (W : World) (gpu : Ptr) (ci : XGL_DEVICE_CREATE_INFO)
    (s s' : LoaderState) (k : Nat) (r : icd_ref) (g : XGL_BASE_LAYER_OBJECT)
    (hmax : W.MAX_LAYER_LIBRARIES < 2147483648)
    (hget : loader_get_icd gpu s = some (some r))
    (hfirst : r.icd.layer_count r.gpu_index = 0)
    (hg : s.obj gpu = some g)
    (hret : loader_activate_layers W gpu ci s = Res.ok k s') (hk : 0 < k) :
    ∃ b icd3, s'.icdAt r.inst r.pos = some icd3 ∧
      icd3.wrappedGpus r.gpu_index = Ptr.obj b 0 ∧ icd3.layer_count r.gpu_index = k ∧
      (layer_GPA W (icd3.layer_libs r.gpu_index 0) ≠ FnPtr.null →
        (∃ g', s'.obj gpu = some g' ∧ g'.nextObject = Ptr.obj b 0) ∧
        (∀ j, j < k → ∃ w, s'.obj (Ptr.obj b j) = some w ∧ w.baseObject = g.baseObject ∧
          w.nextObject = if j + 1 = k then g.baseObject else Ptr.obj b (j + 1)) ∧
        ∃ sc w, s'.scanned icd3.scanned_icds = some sc ∧ s'.obj (Ptr.obj b (k - 1)) = some w ∧
          w.pGPA = sc.GetProcAddr) := by
  unfold loader_activate_layers at hret
  rw [hget] at hret
  have hact : loader_layers_activated r.icd r.gpu_index = false := by
    simp [loader_layers_activated, hfirst]
  simp only [hact, Bool.false_eq_true, if_false, hg] at hret
  obtain ⟨count, s1, h1, h2⟩ := Res.bind_eq_ok hret
  obtain ⟨m1, i1⟩ := loader_get_layer_libs_frame W _ _ _ _ _ _ h1
  have v0 := loader_get_icd_at hget
  split at h2
  · simp only [Res.ok.injEq] at h2
    omega
  · rename_i hc
    obtain ⟨icd1, s2, h3, h4⟩ := Res.bind_eq_ok h2
    obtain ⟨m2, g2, g3, g4⟩ := loader_init_layer_libs_spec W _ _ _ _ _ _ _ _ h3
    have v2 : (s2.icdAt r.inst r.pos).isSome := by
      apply g4
      rw [LoaderState.icdAt_congr i1, v0]
      rfl
    obtain ⟨icd3, s4, h5, h6⟩ := Res.bind_eq_ok h4
    simp only [Res.ok.injEq] at h6
    obtain ⟨e1, e2⟩ := h6
    subst e2
    have hcm : count - 1 < W.MAX_LAYER_LIBRARIES := g3 _ (List.mem_range.2 (by omega))
    rw [hfirst, List.length_range] at g2
    have hn : icd1.layer_count r.gpu_index < 2147483648 := by omega
    split at h5
    · rename_i hlt
      have hpos : 0 < icd1.layer_count r.gpu_index := by
        rcases Nat.eq_zero_or_pos (icd1.layer_count r.gpu_index) with hz | hz
        · rw [hz] at hlt
          simp [u32sub] at hlt
        · exact hz
      rw [u32sub_one hpos hn] at h5
      have hfresh : ∀ j, gpu ≠ Ptr.obj s2.objMem.length j := by
        intro j
        rw [m2, m1]
        exact obj_fresh hg j
      obtain ⟨f1, f2, f3, f4, f5, f6⟩ :=
        loader_activate_layers_loop_spec W r.inst r.pos r.gpu_index gpu g.baseObject
          s2.objMem.length (icd1.layer_count r.gpu_index) hfresh
          (icd1.layer_count r.gpu_index - 1) _ gpu FnPtr.xglGetProcAddr _ icd3 s4
          (by simp) (by simp) (by omega) (by rw [if_pos (by omega)])
          (by intro j hj1 hj2; omega)
          (LoaderState.putIcd_icdAt _ (by rw [LoaderState.icdAt_withObjMem]; exact v2)) h5
      have ek : icd1.layer_count r.gpu_index = k := by
        rw [← e1, f1]
      refine ⟨s2.objMem.length, icd3, f5, ?_, ?_, ?_⟩
      · rw [f2]
        simp
      · exact e1
      · intro hs
        rw [f3] at hs
        rw [f4]
        rw [ek] at f6
        exact f6 hs
    · rename_i hlt
      simp only [Res.ok.injEq] at h5
      obtain ⟨e3, e4⟩ := h5
      rw [← e3] at e1
      simp only [if_true] at e1
      exfalso
      apply hlt
      rw [u32sub_one (by omega) hn]
      omega
/-- C1, as amended: let the device `gpu` be found by `loader_get_icd` in slot
`gpu_index` of an ICD on which no layer is active yet, let
`MAX_LAYER_LIBRARIES` be below 2^31, let `loader_activate_layers` return
`k > 0`, and let the library then recorded in `layer_libs[gpu_index][0]` of
that ICD export `<name>GetProcAddr` or `xglGetProcAddr`. Then the ICD counts
`k` layers on the slot; `j + 1` steps along `nextObject` from `gpu` lead to
`wrappedGpus[gpu_index] + j` for every `j < k`, and `k + 1` steps lead to the
`baseObject` the device had before the call, which is the driver's device;
the `baseObject` of each of the `k` wrappers is the driver's device; and the
`pGPA` of wrapper `k - 1` is the `GetProcAddr` of the scanned node of the
ICD. -/
theorem C1_loader_activate_layers_chain (W : World) (gpu : Ptr) (ci : XGL_DEVICE_CREATE_INFO)
    (s s' : LoaderState) (k : Nat) (r : icd_ref) (g : XGL_BASE_LAYER_OBJECT)
    (hmax : W.MAX_LAYER_LIBRARIES < 2147483648)
    (hget : loader_get_icd gpu s = some (some r))
    (hfirst : r.icd.layer_count r.gpu_index = 0)
    (hg : s.obj gpu = some g)
    (hret : loader_activate_layers W gpu ci s = Res.ok k s') (hk : 0 < k)
    (hsym : ∀ icd', s'.icdAt r.inst r.pos = some icd' →
      layer_GPA W (icd'.layer_libs r.gpu_index 0) ≠ FnPtr.null) :
    ∃ icd', s'.icdAt r.inst r.pos = some icd' ∧ icd'.layer_count r.gpu_index = k ∧
      (∀ j, j < k → follow s' gpu (j + 1) = some ((icd'.wrappedGpus r.gpu_index).add j)) ∧
      follow s' gpu (k + 1) = some g.baseObject ∧
      (∀ j, j < k →
        (s'.obj ((icd'.wrappedGpus r.gpu_index).add j)).map (fun w => w.baseObject) =
          some g.baseObject) ∧
      ∃ scanned_icds, s'.scanned icd'.scanned_icds = some scanned_icds ∧
        (s'.obj ((icd'.wrappedGpus r.gpu_index).add (k - 1))).map (fun w => w.pGPA) =
          some scanned_icds.GetProcAddr := by
  obtain ⟨b, icd3, f1, f2, f3, f4⟩ :=
    loader_activate_layers_spec W gpu ci s s' k r g hmax hget hfirst hg hret hk
  obtain ⟨c1, c2, sc, w, c3, c4, c5⟩ := f4 (hsym icd3 f1)
  obtain ⟨d1, d2⟩ := follow_chain s' gpu g.baseObject b k c1 c2
  refine ⟨icd3, f1, f3, ?_⟩
  rw [f2]
  simp only [Ptr.obj_add, Nat.zero_add]
  refine ⟨d1, d2 hk, ?_, sc, c3, ?_⟩
  · intro j hj
    obtain ⟨w1, a1, a2, _⟩ := c2 j hj
    rw [a1, Option.map_some', a2]
  · rw [c4, Option.map_some', c5]

/-- C1, counterexample: the one layer requested, `alpha`, is found in the
library `liba`, which opens but exports neither `alphaGetProcAddr` nor
`xglGetProcAddr`; no break flag is set. `loader_activate_layers` returns 1,
and one step along `nextObject` from the device still leads to the driver's
device 1000, not to the wrapper `wrappedGpus[0] + 0`, whose `nextObject` is
the device itself and whose `pGPA` is the loader's own `xglGetProcAddr`. A
second call returns 1 again and changes nothing of this. -/
theorem C1_counterexample_missing_symbol :
    (loader_activate_layers World.noLayerGPA (Ptr.obj 0 0) (layerInfo ["alpha"])
      layerState).value? = some 1 ∧
    ((loader_activate_layers World.noLayerGPA (Ptr.obj 0 0) (layerInfo ["alpha"])
      layerState).state?.map fun s' =>
        (follow s' (Ptr.obj 0 0) 1, (s'.icdAt 0 0).map (fun c => c.wrappedGpus 0),
          (s'.obj (Ptr.obj 2 0)).map (fun w => (w.nextObject, w.pGPA)),
          (s'.scanned 1).map (fun n => n.GetProcAddr))) =
      some (some (Ptr.driver 1000), some (Ptr.obj 2 0),
        some (Ptr.obj 0 0, FnPtr.xglGetProcAddr), some (FnPtr.sym 10)) ∧
    ((loader_activate_layers World.noLayerGPA (Ptr.obj 0 0) (layerInfo ["alpha"])
      layerState).bind fun _ s1 =>
        loader_activate_layers World.noLayerGPA (Ptr.obj 0 0) (layerInfo ["alpha"])
          s1).value? = some 1 ∧
    (((loader_activate_layers World.noLayerGPA (Ptr.obj 0 0) (layerInfo ["alpha"])
      layerState).bind fun _ s1 =>
        loader_activate_layers World.noLayerGPA (Ptr.obj 0 0) (layerInfo ["alpha"])
          s1).state?.map fun s' => follow s' (Ptr.obj 0 0) 1) =
      some (some (Ptr.driver 1000)) := by
  refine ⟨by decide, by decide, by decide, by decide⟩

/-- C1, witness: the layers `alpha` and `beta` are activated on the first
device of `layerState`, whose driver's device is 1000; the chain leads from
the device over the two wrappers of the new block to the driver's device. -/
theorem C1_loader_activate_layers_chain_witness :
    (World.twoLayers.MAX_LAYER_LIBRARIES < 2147483648 ∧
      loader_get_icd (Ptr.obj 0 0) layerState =
        some (some { inst := 0, pos := 0, gpu_index := 0, icd := oneDeviceIcd 60 1 0 }) ∧
      (oneDeviceIcd 60 1 0).layer_count 0 = 0 ∧
      layerState.obj (Ptr.obj 0 0) = some (XGL_BASE_LAYER_OBJECT.mk (FnPtr.sym 10)
        (Ptr.driver 1000) (Ptr.driver 1000)) ∧
      loader_activate_layers World.twoLayers (Ptr.obj 0 0) (layerInfo ["alpha", "beta"])
        layerState = Res.ok 2 layeredState ∧
      0 < 2 ∧
      (∀ icd', layeredState.icdAt 0 0 = some icd' →
        layer_GPA World.twoLayers (icd'.layer_libs 0 0) ≠ FnPtr.null)) ∧
    ∃ icd', layeredState.icdAt 0 0 = some icd' ∧ icd'.layer_count 0 = 2 ∧
      (∀ j, j < 2 →
        follow layeredState (Ptr.obj 0 0) (j + 1) = some ((icd'.wrappedGpus 0).add j)) ∧
      follow layeredState (Ptr.obj 0 0) (2 + 1) = some (Ptr.driver 1000) ∧
      (∀ j, j < 2 →
        (layeredState.obj ((icd'.wrappedGpus 0).add j)).map (fun w => w.baseObject) =
          some (Ptr.driver 1000)) ∧
      ∃ scanned_icds, layeredState.scanned icd'.scanned_icds = some scanned_icds ∧
        (layeredState.obj ((icd'.wrappedGpus 0).add (2 - 1))).map (fun w => w.pGPA) =
          some scanned_icds.GetProcAddr :=
  have hsym : ∀ icd', layeredState.icdAt 0 0 = some icd' →
      layer_GPA World.twoLayers (icd'.layer_libs 0 0) ≠ FnPtr.null := fun icd' h => by
    have e : some layeredIcd = some icd' := h
    cases e
    decide
  ⟨⟨by decide, rfl, rfl, rfl, rfl, by decide, hsym⟩,
    C1_loader_activate_layers_chain World.twoLayers (Ptr.obj 0 0) (layerInfo ["alpha", "beta"])
      layerState layeredState 2
      { inst := 0, pos := 0, gpu_index := 0, icd := oneDeviceIcd 60 1 0 }
      (XGL_BASE_LAYER_OBJECT.mk (FnPtr.sym 10) (Ptr.driver 1000) (Ptr.driver 1000))
      (by decide) rfl rfl rfl rfl (by decide) hsym⟩

/-! ## The debug entry points without an ICD -/

/-- C11, the defect at work: before any scan the callbacks with the functions
7 and 9 are registered, 7 at the head of the list. `xglDbgUnregisterMsgCallback(7)`
returns success and hands the node of function 7 to `free`, but the list
still holds both nodes, and a following `loader_log` still calls function
7. -/
theorem C11_xglDbgUnregisterMsgCallback_node_stays :
    (xglDbgUnregisterMsgCallback World.quiet 7 callbackState).value? =
      some XGL_RESULT.XGL_SUCCESS ∧
    ((xglDbgUnregisterMsgCallback World.quiet 7 callbackState).state?.map
      fun s' => (s'.msg_callbacks, s'.freed)) =
      some ([{ func := 7, data := 8 }, { func := 9, data := 10 }], [Alloc.callback 0]) ∧
    (((xglDbgUnregisterMsgCallback World.quiet 7 callbackState).bind fun _ s' =>
        loader_log XGL_DBG_MSG_TYPE.XGL_DBG_MSG_UNKNOWN "text" s').state?.map
      fun s' => s'.trace) =
      some [Event.msg_callback 7 8 XGL_DBG_MSG_TYPE.XGL_DBG_MSG_UNKNOWN "text",
        Event.msg_callback 9 10 XGL_DBG_MSG_TYPE.XGL_DBG_MSG_UNKNOWN "text"] ∧
    (xglDbgUnregisterMsgCallback World.quiet 5 callbackState).value? =
      some XGL_RESULT.XGL_ERROR_INVALID_POINTER := by
  refine ⟨by decide, by decide, by decide, by decide⟩

/-- C12: while no ICD has been scanned, `xglDbgSetGlobalOption` with a size
above 0 returns success for each of the three options the loader knows and
assigns the value to the boolean of that option and to nothing else, and it
returns `XGL_ERROR_INVALID_VALUE` and changes nothing for any other option;
with the size 0 it returns `XGL_ERROR_INVALID_VALUE` and changes nothing for
every option. -/
theorem C12_xglDbgSetGlobalOption_local (W : World) (s : LoaderState) (dataSize : Nat)
    (pData : Bool) (h : s.icds_scanned = false) :
    (0 < dataSize →
      xglDbgSetGlobalOption W XGL_DBG_GLOBAL_OPTION.XGL_DBG_OPTION_DEBUG_ECHO_ENABLE dataSize
          pData s = Res.ok XGL_RESULT.XGL_SUCCESS { s with debug_echo_enable := pData } ∧
      xglDbgSetGlobalOption W XGL_DBG_GLOBAL_OPTION.XGL_DBG_OPTION_BREAK_ON_ERROR dataSize
          pData s = Res.ok XGL_RESULT.XGL_SUCCESS { s with break_on_error := pData } ∧
      xglDbgSetGlobalOption W XGL_DBG_GLOBAL_OPTION.XGL_DBG_OPTION_BREAK_ON_WARNING dataSize
          pData s = Res.ok XGL_RESULT.XGL_SUCCESS { s with break_on_warning := pData } ∧
      ∀ code, xglDbgSetGlobalOption W (XGL_DBG_GLOBAL_OPTION.other code) dataSize pData s =
          Res.ok XGL_RESULT.XGL_ERROR_INVALID_VALUE s) ∧
    ∀ dbgOption, xglDbgSetGlobalOption W dbgOption 0 pData s =
      Res.ok XGL_RESULT.XGL_ERROR_INVALID_VALUE s := by
  refine ⟨?_, ?_⟩
  · intro hpos
    have hne : dataSize ≠ 0 := by omega
    refine ⟨?_, ?_, ?_, ?_⟩ <;> simp [xglDbgSetGlobalOption, h, hne]
  · intro dbgOption
    simp [xglDbgSetGlobalOption, h]

/-- C12, witness: the initial state of the loader, with a size of 1 and the
value true. -/
theorem C12_xglDbgSetGlobalOption_local_witness :
    (LoaderState.init (fun _ => Word.magic)).icds_scanned = false ∧
    ((0 < 1 →
      xglDbgSetGlobalOption World.quiet XGL_DBG_GLOBAL_OPTION.XGL_DBG_OPTION_DEBUG_ECHO_ENABLE 1
          true (LoaderState.init (fun _ => Word.magic)) =
        Res.ok XGL_RESULT.XGL_SUCCESS
          { LoaderState.init (fun _ => Word.magic) with debug_echo_enable := true } ∧
      xglDbgSetGlobalOption World.quiet XGL_DBG_GLOBAL_OPTION.XGL_DBG_OPTION_BREAK_ON_ERROR 1
          true (LoaderState.init (fun _ => Word.magic)) =
        Res.ok XGL_RESULT.XGL_SUCCESS
          { LoaderState.init (fun _ => Word.magic) with break_on_error := true } ∧
      xglDbgSetGlobalOption World.quiet XGL_DBG_GLOBAL_OPTION.XGL_DBG_OPTION_BREAK_ON_WARNING 1
          true (LoaderState.init (fun _ => Word.magic)) =
        Res.ok XGL_RESULT.XGL_SUCCESS
          { LoaderState.init (fun _ => Word.magic) with break_on_warning := true } ∧
      ∀ code, xglDbgSetGlobalOption World.quiet (XGL_DBG_GLOBAL_OPTION.other code) 1 true
          (LoaderState.init (fun _ => Word.magic)) =
        Res.ok XGL_RESULT.XGL_ERROR_INVALID_VALUE (LoaderState.init (fun _ => Word.magic))) ∧
    ∀ dbgOption, xglDbgSetGlobalOption World.quiet dbgOption 0 true
        (LoaderState.init (fun _ => Word.magic)) =
      Res.ok XGL_RESULT.XGL_ERROR_INVALID_VALUE (LoaderState.init (fun _ => Word.magic))) :=
  ⟨rfl, C12_xglDbgSetGlobalOption_local World.quiet (LoaderState.init (fun _ => Word.magic)) 1
    true rfl⟩

/-! ## `xglGetProcAddr` -/

/-- C13: `xglGetProcAddr` returns null for a null `gpu`. For a `gpu` that
reads as the object `gpuw`: when the first word of `gpuw.baseObject` is a
null table pointer it returns null; when it points at the table `T`, it
returns the entry of `T` looked up by name when that is not null, null when
that is null and `T.GetProcAddr` is null, and otherwise what `T.GetProcAddr`
returns for `gpuw.nextObject` and the name. -/
theorem C13_xglGetProcAddr (W : World) (s : LoaderState) (gpu : Ptr) (pName : String)
    (gpuw : XGL_BASE_LAYER_OBJECT) (hgpu : s.obj gpu = some gpuw) :
    xglGetProcAddr W Ptr.null pName s = some FnPtr.null ∧
    (s.dispatch_of gpuw.baseObject = some none →
      xglGetProcAddr W gpu pName s = some FnPtr.null) ∧
    ∀ T, s.dispatch_of gpuw.baseObject = some (some T) →
      (loader_lookup_dispatch_table T pName ≠ FnPtr.null →
        xglGetProcAddr W gpu pName s = some (loader_lookup_dispatch_table T pName)) ∧
      (loader_lookup_dispatch_table T pName = FnPtr.null → T.GetProcAddr = FnPtr.null →
        xglGetProcAddr W gpu pName s = some FnPtr.null) ∧
      (loader_lookup_dispatch_table T pName = FnPtr.null → T.GetProcAddr ≠ FnPtr.null →
        xglGetProcAddr W gpu pName s =
          some (W.callGPA T.GetProcAddr gpuw.nextObject pName)) := by
  have hne : gpu ≠ Ptr.null := by
    intro e
    rw [e] at hgpu
    simp [LoaderState.obj] at hgpu
  refine ⟨by simp [xglGetProcAddr], ?_, ?_⟩
  · intro hT
    simp [xglGetProcAddr, hne, hgpu, hT]
  · intro T hT
    refine ⟨?_, ?_, ?_⟩
    · intro h1
      simp [xglGetProcAddr, hne, hgpu, hT, h1]
    · intro h1 h2
      simp [xglGetProcAddr, hne, hgpu, hT, h1, h2]
    · intro h1 h2
      simp [xglGetProcAddr, hne, hgpu, hT, h1, h2]

/-- C13, witness: the first device of `twoIcdState`, whose driver object 1000
holds the address of the table of slot 0 of the ICD at address 60. -/
theorem C13_xglGetProcAddr_witness :
    twoIcdState.obj (Ptr.obj 0 0) =
      some (XGL_BASE_LAYER_OBJECT.mk (FnPtr.sym 10) (Ptr.driver 1000) (Ptr.driver 1000)) ∧
    twoIcdState.dispatch_of (Ptr.driver 1000) = some (some (driverTable 1)) ∧
    xglGetProcAddr World.quiet (Ptr.obj 0 0) "xglDbgSetGlobalOption" twoIcdState =
      some (FnPtr.sym 104) ∧
    xglGetProcAddr World.twoGpus (Ptr.obj 0 0) "xglCreateDevice" twoIcdState =
      some (FnPtr.sym 99) ∧
    xglGetProcAddr World.quiet Ptr.null "xglDbgSetGlobalOption" twoIcdState = some FnPtr.null :=
  have h := C13_xglGetProcAddr World.quiet twoIcdState (Ptr.obj 0 0) "xglDbgSetGlobalOption"
    (XGL_BASE_LAYER_OBJECT.mk (FnPtr.sym 10) (Ptr.driver 1000) (Ptr.driver 1000)) rfl
  have h' := C13_xglGetProcAddr World.twoGpus twoIcdState (Ptr.obj 0 0) "xglCreateDevice"
    (XGL_BASE_LAYER_OBJECT.mk (FnPtr.sym 10) (Ptr.driver 1000) (Ptr.driver 1000)) rfl
  ⟨rfl, by decide, (h.2.2 (driverTable 1) (by decide)).1 (by decide),
    (h'.2.2 (driverTable 1) (by decide)).2.2 (by decide) (by decide), h.1⟩

/-! ## The requested layers -/

/-- C15, the defect at work: the environment names the layer `alpha`, found in
`liba`, and the create-info names the one layer `beta`, found in `libb`. The
loop of `loader_get_layer_libs` reads `ppActiveLayerNames[1]`, behind the end
of the array of one name, which is undefined; and when the memory behind the
array holds another name, here `alpha`, the function returns 2 with that
name in entry 1 and `beta` nowhere. -/
theorem C15_loader_get_layer_libs_index :
    (loader_get_layer_libs World.envAlpha (oneDeviceIcd 60 1 0) 0 (oneLayerInfo ["beta"])
      layerState).state?.isNone = true ∧
    (loader_get_layer_libs World.envAlpha (oneDeviceIcd 60 1 0) 0 (oneLayerInfo ["beta"])
      layerState).status? = none ∧
    (loader_get_layer_libs World.envAlpha (oneDeviceIcd 60 1 0) 0
      (oneLayerInfo ["beta", "alpha"]) layerState).value? = some 2 ∧
    ((loader_get_layer_libs World.envAlpha (oneDeviceIcd 60 1 0) 0
      (oneLayerInfo ["beta", "alpha"]) layerState).state?.map
        fun s' => (s'.layerNames 0, s'.layerNames 1)) =
      some ({ layer_name := "alpha", lib_name := "liba" },
        { layer_name := "alpha", lib_name := "liba" }) := by
  refine ⟨by decide, by decide, by decide, by decide⟩

/-- C17, the defect at work: the one scanned layer library is
`/usr/lib/libXGLLayeralpha.so`, which exports no `xglEnumerateLayers`.
`xglEnumerateLayers` reports the one name `alpha` for it, and
`find_layer_name` does not find `alpha`: the text it compares the path with
is `libXGL_alpha.so`. -/
theorem C17_find_layer_name_default_name :
    ((xglEnumerateLayers World.disk (Ptr.obj 0 0) 2 16 (some 0)
      (some (List.replicate 2 (List.replicate 16 'x')))
      (diskState ["/usr/lib/libXGLLayeralpha.so"])).value?.map
        fun r => (r.result, r.pOutLayerCount, r.names)) =
      some (XGL_RESULT.XGL_SUCCESS, some 1, ["alpha".data]) ∧
    (find_layer_name World.disk (oneDeviceIcd 60 1 0) 0 "alpha"
      ["/usr/lib/libXGLLayeralpha.so"]
      (diskState ["/usr/lib/libXGLLayeralpha.so"])).value? = some none ∧
    default_lib_str World.disk "/usr/lib/libXGLLayeralpha.so" "alpha" = "libXGL_alpha.so" := by
  refine ⟨by decide, by decide, by decide⟩

set_option maxRecDepth 100000 in
/-- C18, the defect at work: `maxStringSize` is 258 and the two buffers have
258 bytes. With only the library of the long file name scanned, which
exports no `xglEnumerateLayers`, the name reported is `a` 257 times. With
`/usr/lib/libXGLLayerb.so` scanned behind it, whose `xglEnumerateLayers`
reports `beta` within the limits passed, the count is 2 and the second name
is `beta`, but the first string is `a` 255 times: the terminator of the
second name went to byte 255 of the first string. -/
theorem C18_xglEnumerateLayers_terminator :
    ((xglEnumerateLayers World.disk (Ptr.obj 0 0) 2 258 (some 0)
      (some (List.replicate 2 (List.replicate 258 'x')))
      (diskState [longLib])).value?.map
        fun r => (r.result, r.pOutLayerCount, r.names)) =
      some (XGL_RESULT.XGL_SUCCESS, some 1, [List.replicate 257 'a']) ∧
    ((xglEnumerateLayers World.disk (Ptr.obj 0 0) 2 258 (some 0)
      (some (List.replicate 2 (List.replicate 258 'x')))
      (diskState [longLib, "/usr/lib/libXGLLayerb.so"])).value?.map
        fun r => (r.result, r.pOutLayerCount, r.names)) =
      some (XGL_RESULT.XGL_SUCCESS, some 2, [List.replicate 255 'a', "beta".data]) := by
  refine ⟨by decide, by decide⟩

/-- C20, the defect at work: the drivers 1 and 2 are scanned, their libraries
open with the handles 11 and 12, and the `CreateInstance` of driver 1 fails.
During `xglCreateInstance` the loader closes the library with handle 11,
while the node of driver 1 stays in the scanned list with that handle; the
next `xglCreateInstance` calls the `CreateInstance` of driver 1 again, at the
address it had resolved in that library. -/
theorem C20_scanned_library_closed :
    ((xglCreateInstance World.driver1Fails (scannedState [driverNode 1, driverNode 2])
      ).state?.map fun s' =>
        (closedHandles s'.trace, s'.scanned_icd_list.map fun n => n.handle)) =
      some ([11], [11, 12]) ∧
    (((xglCreateInstance World.driver1Fails (scannedState [driverNode 1, driverNode 2])
      ).bind fun _ s1 => xglCreateInstance World.driver1Fails s1).state?.map fun s' =>
        createCalls s'.trace) =
      some [(1, XGL_RESULT.other 7), (2, XGL_RESULT.XGL_SUCCESS), (1, XGL_RESULT.other 7),
        (2, XGL_RESULT.XGL_SUCCESS)] := by
  refine ⟨by decide, by decide⟩

/-! ## The search paths of the scans -/

theorem loader_scanned_icd_add_getenv (W : World) (e : String → Option String)
    (filename : String) (s : LoaderState) :
    loader_scanned_icd_add { W with getenv := e } filename s =
      loader_scanned_icd_add W filename s := rfl

theorem loader_icd_scan_dir_getenv (W : World) (e : String → Option String) (p : String) :
    ∀ (l : List String) (s : LoaderState),
      loader_icd_scan_dir { W with getenv := e } p l s = loader_icd_scan_dir W p l s := by
  intro l
  induction l with
  | nil => intro s; rfl
  | cons d rest ih =>
      intro s
      rw [loader_icd_scan_dir, loader_icd_scan_dir]
      simp only [loader_scanned_icd_add_getenv, ih]
      rfl

theorem loader_icd_scan_dirs_getenv (W : World) (e : String → Option String) :
    ∀ (l : List (List Char × Bool)) (s : LoaderState),
      loader_icd_scan_dirs { W with getenv := e } l s = loader_icd_scan_dirs W l s := by
  intro l
  induction l with
  | nil => intro s; rfl
  | cons d rest ih =>
      intro s
      rw [loader_icd_scan_dirs, loader_icd_scan_dirs]
      simp only [loader_icd_scan_dir_getenv, ih]

theorem layer_lib_scan_dir_getenv (W : World) (e : String → Option String) (p : String) :
    ∀ (l : List String) (s : LoaderState),
      layer_lib_scan_dir { W with getenv := e } p l s = layer_lib_scan_dir W p l s := by
  intro l
  induction l with
  | nil => intro s; rfl
  | cons d rest ih =>
      intro s
      rw [layer_lib_scan_dir, layer_lib_scan_dir]
      simp only [ih]
      rfl

theorem layer_lib_scan_dirs_getenv (W : World) (e : String → Option String) :
    ∀ (l : List (List Char)) (s : LoaderState),
      layer_lib_scan_dirs { W with getenv := e } l s = layer_lib_scan_dirs W l s := by
  intro l
  induction l with
  | nil => intro s; rfl
  | cons d rest ih =>
      intro s
      rw [layer_lib_scan_dirs, layer_lib_scan_dirs]
      simp only [layer_lib_scan_dir_getenv, ih]

theorem search_path_setuid (W : World) (env_var dflt : String) (h : W.geteuid ≠ W.getuid) :
    search_path W env_var dflt = dflt := by
  simp [search_path, h]

/-- C19: when the effective and the real user differ, the path each scan
searches is the compiled-in default, and both scans run the same with any
other environment in place of the one given; when the two users are the
same, the path of each scan is the value of its environment variable when
that is set and the default otherwise. The directories each scan visits are
the pieces of that path. -/
theorem C19_search_path_uid (W : World) (s : LoaderState) :
    (W.geteuid ≠ W.getuid →
      search_path W W.DRIVER_PATH_ENV W.DEFAULT_XGL_DRIVERS_PATH = W.DEFAULT_XGL_DRIVERS_PATH ∧
      search_path W W.LAYERS_PATH_ENV W.DEFAULT_XGL_LAYERS_PATH = W.DEFAULT_XGL_LAYERS_PATH ∧
      ∀ e : String → Option String,
        loader_icd_scan { W with getenv := e } s = loader_icd_scan W s ∧
        layer_lib_scan { W with getenv := e } s = layer_lib_scan W s) ∧
    (W.geteuid = W.getuid →
      search_path W W.DRIVER_PATH_ENV W.DEFAULT_XGL_DRIVERS_PATH =
        (W.getenv W.DRIVER_PATH_ENV).getD W.DEFAULT_XGL_DRIVERS_PATH ∧
      search_path W W.LAYERS_PATH_ENV W.DEFAULT_XGL_LAYERS_PATH =
        (W.getenv W.LAYERS_PATH_ENV).getD W.DEFAULT_XGL_LAYERS_PATH) ∧
    loader_icd_scan W s =
      ((loader_icd_scan_dirs W (splitPieces W.PATH_SEPERATOR []
          (search_path W W.DRIVER_PATH_ENV W.DEFAULT_XGL_DRIVERS_PATH).data) s).bind
        fun _ s1 => Res.ok () { s1 with icds_scanned := true }) ∧
    layer_lib_scan W s =
      ((layer_lib_scan_dirs W (splitDirs W.PATH_SEPERATOR []
          (search_path W W.LAYERS_PATH_ENV W.DEFAULT_XGL_LAYERS_PATH).data)
          { s with
            layer_dirs := some (search_path W W.LAYERS_PATH_ENV W.DEFAULT_XGL_LAYERS_PATH),
            scanned_layer_names := [] }).bind
        fun _ s2 => Res.ok () { s2 with layer_scanned := true }) := by
  refine ⟨?_, ?_, rfl, rfl⟩
  · intro h
    refine ⟨search_path_setuid W _ _ h, search_path_setuid W _ _ h, ?_⟩
    intro e
    have h' : ({ W with getenv := e } : World).geteuid ≠ ({ W with getenv := e } : World).getuid := h
    refine ⟨?_, ?_⟩
    · unfold loader_icd_scan
      rw [search_path_setuid _ _ _ h', search_path_setuid _ _ _ h]
      simp only [loader_icd_scan_dirs_getenv]
    · unfold layer_lib_scan
      rw [search_path_setuid _ _ _ h', search_path_setuid _ _ _ h]
      simp only [layer_lib_scan_dirs_getenv]
  · intro h
    refine ⟨?_, ?_⟩
    · unfold search_path
      rw [if_pos h]
      cases W.getenv W.DRIVER_PATH_ENV <;> rfl
    · unfold search_path
      rw [if_pos h]
      cases W.getenv W.LAYERS_PATH_ENV <;> rfl

/-- C19, witness: in `World.setuid` the users differ and the driver scan
searches `/usr/lib` although the variable is set; in `World.envPaths` the
users are the same and it searches the value of the variable. -/
theorem C19_search_path_uid_witness :
    World.setuid.geteuid ≠ World.setuid.getuid ∧
    World.envPaths.geteuid = World.envPaths.getuid ∧
    search_path World.setuid "LIBXGL_DRIVERS_PATH" "/usr/lib" = "/usr/lib" ∧
    search_path World.envPaths "LIBXGL_DRIVERS_PATH" "/usr/lib" = "/opt/xgl" ∧
    loader_icd_scan { World.setuid with getenv := fun _ => none } (scannedState []) =
      loader_icd_scan World.setuid (scannedState []) :=
  ⟨by decide, rfl,
    ((C19_search_path_uid World.setuid (scannedState [])).1 (by decide)).1,
    ((C19_search_path_uid World.envPaths (scannedState [])).2.1 rfl).1,
    (((C19_search_path_uid World.setuid (scannedState [])).1 (by decide)).2.2
      (fun _ => none)).1⟩

/-! ## `loader_activate_layers` on a device whose layers are active -/

theorem LoaderState.sameButNames_refl (s : LoaderState) : s.sameButNames s :=
  ⟨[], s.layerNames, by cases s; simp [LoaderState.emits, LoaderState.withLayerNames]⟩

theorem LoaderState.sameButNames_emits {s s1 : LoaderState} (h : s.sameButNames s1)
    (es : List Event) : s.sameButNames (s1.emits es) := by
  obtain ⟨evs, ln, e⟩ := h
  refine ⟨evs ++ es, ln, ?_⟩
  rw [e]
  simp [LoaderState.emits, LoaderState.withLayerNames]

theorem LoaderState.sameButNames_emit {s s1 : LoaderState} (h : s.sameButNames s1)
    (e : Event) : s.sameButNames (s1.emit e) :=
  LoaderState.sameButNames_emits h [e]

theorem LoaderState.sameButNames_setLayerName {s s1 : LoaderState} (h : s.sameButNames s1)
    (i : Nat) (v : layer_name_pair) : s.sameButNames (s1.setLayerName i v) := by
  obtain ⟨evs, ln, e⟩ := h
  refine ⟨evs, fun j => if j = i then v else ln j, ?_⟩
  rw [e]
  simp [LoaderState.setLayerName, LoaderState.emits, LoaderState.withLayerNames]

theorem LoaderState.sameButNames_trans {s s1 s2 : LoaderState} (h : s.sameButNames s1)
    (h' : s1.sameButNames s2) : s.sameButNames s2 := by
  obtain ⟨evs, ln, e⟩ := h
  obtain ⟨evs', ln', e'⟩ := h'
  refine ⟨evs ++ evs', ln', ?_⟩
  rw [e', e]
  simp [LoaderState.emits, LoaderState.withLayerNames]

theorem LoaderState.sameButNames_fields {s s1 : LoaderState} (h : s.sameButNames s1) :
    s1.instances = s.instances ∧ s1.objMem = s.objMem ∧ s1.driverHead = s.driverHead ∧
    s1.break_on_error = s.break_on_error ∧ s1.break_on_warning = s.break_on_warning ∧
    s1.scanned_layer_names = s.scanned_layer_names ∧
    s1.scanned_icd_list = s.scanned_icd_list := by
  obtain ⟨evs, ln, e⟩ := h
  rw [e]
  simp

theorem find_layer_name_outcome (W : World) (icd : loader_icd) (gi : Nat) (name : String) :
    ∀ (l : List String) (s : LoaderState),
      find_layer_name W icd gi name l s = Res.undef ∨
      ∃ r s1, find_layer_name W icd gi name l s = Res.ok r s1 ∧ s.sameButNames s1 := by
  intro l
  induction l with
  | nil =>
      intro s
      exact Or.inr ⟨none, s, rfl, s.sameButNames_refl⟩
  | cons lib rest ih =>
      intro s
      rw [find_layer_name]
      dsimp only
      have step : ∀ s0 : LoaderState, s.sameButNames s0 →
          (find_layer_name W icd gi name rest s0 = Res.undef ∨
            ∃ r s1, find_layer_name W icd gi name rest s0 = Res.ok r s1 ∧
              s.sameButNames s1) := by
        intro s0 h0
        rcases ih s0 with h | ⟨r, s1, h, hs⟩
        · exact Or.inl h
        · exact Or.inr ⟨r, s1, h, LoaderState.sameButNames_trans h0 hs⟩
      have b0 := s.sameButNames_refl
      split
      · exact step _ (LoaderState.sameButNames_emit b0 _)
      · split
        · split
          · exact Or.inl rfl
          · split
            · exact Or.inr ⟨_, _, rfl,
                LoaderState.sameButNames_emit (LoaderState.sameButNames_emit b0 _) _⟩
            · exact step _ (LoaderState.sameButNames_emit (LoaderState.sameButNames_emit b0 _) _)
        · split
          · exact Or.inr ⟨_, _, rfl, LoaderState.sameButNames_emit
              (LoaderState.sameButNames_emit (LoaderState.sameButNames_emit b0 _) _) _⟩
          · split
            · exact Or.inl rfl
            · exact step _ (LoaderState.sameButNames_emit
                (LoaderState.sameButNames_emit (LoaderState.sameButNames_emit b0 _) _) _)

theorem loader_get_layer_env_loop_outcome (W : World) (icd : loader_icd) (gi : Nat) :
    ∀ (l : List (List Char)) (count : Nat) (s : LoaderState),
      loader_get_layer_env_loop W icd gi l count s = Res.undef ∨
      ∃ n s1, loader_get_layer_env_loop W icd gi l count s = Res.ok n s1 ∧
        s.sameButNames s1 := by
  intro l
  induction l with
  | nil =>
      intro count s
      exact Or.inr ⟨count, s, rfl, s.sameButNames_refl⟩
  | cons piece rest ih =>
      intro count s
      rw [loader_get_layer_env_loop]
      split
      · exact Or.inr ⟨count, s, rfl, s.sameButNames_refl⟩
      · dsimp only
        rcases find_layer_name_outcome W icd gi (W.basename (String.mk piece))
          s.scanned_layer_names s with h | ⟨r, s1, h, hs⟩
        · rw [h]
          exact Or.inl rfl
        · rw [h, Res.ok_bind]
          cases r with
          | none =>
              rcases ih count s1 with h2 | ⟨n, s2, h2, hs2⟩
              · exact Or.inl h2
              · exact Or.inr ⟨n, s2, h2, LoaderState.sameButNames_trans hs hs2⟩
          | some lib =>
              rcases ih (count + 1) (s1.setLayerName count
                { layer_name := W.basename (String.mk piece), lib_name := lib })
                with h2 | ⟨n, s2, h2, hs2⟩
              · exact Or.inl h2
              · exact Or.inr ⟨n, s2, h2, LoaderState.sameButNames_trans
                  (LoaderState.sameButNames_setLayerName hs _ _) hs2⟩

theorem loader_get_layer_env_outcome (W : World) (icd : loader_icd) (gi : Nat)
    (s : LoaderState) :
    loader_get_layer_env W icd gi s = Res.undef ∨
    ∃ n s1, loader_get_layer_env W icd gi s = Res.ok n s1 ∧ s.sameButNames s1 := by
  unfold loader_get_layer_env
  split
  · exact Or.inr ⟨0, s, rfl, s.sameButNames_refl⟩
  · exact loader_get_layer_env_loop_outcome W icd gi _ _ _

theorem loader_get_layer_libs_loop_outcome (W : World) (icd : loader_icd) (gi : Nat)
    (pCi : XGL_LAYER_CREATE_INFO) :
    ∀ (l : List Nat) (s : LoaderState),
      loader_get_layer_libs_loop W icd gi pCi l s = Res.undef ∨
      ∃ all s1, loader_get_layer_libs_loop W icd gi pCi l s = Res.ok all s1 ∧
        s.sameButNames s1 := by
  intro l
  induction l with
  | nil =>
      intro s
      exact Or.inr ⟨true, s, rfl, s.sameButNames_refl⟩
  | cons i rest ih =>
      intro s
      rw [loader_get_layer_libs_loop]
      split
      · exact Or.inl rfl
      · rename_i name hname
        rcases find_layer_name_outcome W icd gi name s.scanned_layer_names s
          with h | ⟨r, s1, h, hs⟩
        · rw [h]
          exact Or.inl rfl
        · rw [h, Res.ok_bind]
          cases r with
          | none => exact Or.inr ⟨false, s1, rfl, hs⟩
          | some lib =>
              simp only []
              split
              · exact Or.inl rfl
              · rcases ih (s1.setLayerName i { layer_name := name, lib_name := lib })
                  with h2 | ⟨n, s2, h2, hs2⟩
                · exact Or.inl h2
                · exact Or.inr ⟨n, s2, h2, LoaderState.sameButNames_trans
                    (LoaderState.sameButNames_setLayerName hs _ _) hs2⟩

theorem loader_get_layer_libs_outcome (W : World) (icd : loader_icd) (gi : Nat)
    (ci : XGL_DEVICE_CREATE_INFO) (s : LoaderState) :
    loader_get_layer_libs W icd gi ci s = Res.undef ∨
    ∃ n s1, loader_get_layer_libs W icd gi ci s = Res.ok n s1 ∧ s.sameButNames s1 := by
  unfold loader_get_layer_libs
  rcases loader_get_layer_env_outcome W icd gi s with h | ⟨env, s1, h, hs⟩
  · rw [h]
    exact Or.inl rfl
  · rw [h, Res.ok_bind]
    split
    · rcases loader_get_layer_env_outcome W icd gi s1 with h2 | ⟨n, s2, h2, hs2⟩
      · exact Or.inl h2
      · exact Or.inr ⟨n, s2, h2, LoaderState.sameButNames_trans hs hs2⟩
    · rename_i pCi hp
      rcases loader_get_layer_libs_loop_outcome W icd gi pCi
        (List.range' env (u32add env pCi.layerCount - env)) s1 with h2 | ⟨all, s2, h2, hs2⟩
      · rw [h2]
        exact Or.inl rfl
      · rw [h2, Res.ok_bind]
        have hs12 := LoaderState.sameButNames_trans hs hs2
        rcases loader_get_layer_env_outcome W icd gi s2 with h3 | ⟨n, s3, h3, hs3⟩
        · rw [h3]
          cases all <;> exact Or.inl rfl
        · rw [h3]
          cases all
          · exact Or.inr ⟨n, s3, rfl, LoaderState.sameButNames_trans hs12 hs3⟩
          · exact Or.inr ⟨u32add pCi.layerCount n, s3, rfl,
              LoaderState.sameButNames_trans hs12 hs3⟩

theorem loader_log_outcome (t : XGL_DBG_MSG_TYPE) (m : String) (s : LoaderState) :
    (loader_log t m s = Res.ok () (s.emits (loader_log_events t m s)) ∧
      loader_log_breaks t s = false) ∨
    (loader_log t m s = Res.exit 1 (s.emits (loader_log_events t m s)) ∧
      loader_log_breaks t s = true) := by
  unfold loader_log
  cases h : loader_log_breaks t s
  · exact Or.inl ⟨by simp, rfl⟩
  · exact Or.inr ⟨by simp, rfl⟩

theorem breaks_error_of_sameButNames {s s1 : LoaderState} (h : s.sameButNames s1)
    (hb : loader_log_breaks XGL_DBG_MSG_TYPE.XGL_DBG_MSG_ERROR s1 = true) :
    s.break_on_error = true ∨ s.break_on_warning = true := by
  obtain ⟨_, _, _, g4, g5, _, _⟩ := LoaderState.sameButNames_fields h
  simp only [loader_log_breaks, Bool.or_eq_true] at hb
  rw [g4, g5] at hb
  exact hb

/-- C14, as amended: on a device slot that counts `k > 0` active layers, a
defined call of `loader_activate_layers` returns `k`, or, only when
break-on-error or break-on-warning is set, ends in the `exit` of
`loader_log`; either way the instance list with every ICD in it
(`layer_count`, `layer_libs`, `wrappedGpus`, the dispatch tables), the
memory of the layer objects and the first words of the driver objects are
as before the call. -/
theorem C14_loader_activate_layers_installed (W : World) (gpu : Ptr)
    (ci : XGL_DEVICE_CREATE_INFO) (s : LoaderState) (r : icd_ref) (k : Nat)
    (hget : loader_get_icd gpu s = some (some r))
    (hk : r.icd.layer_count r.gpu_index = k) (hpos : 0 < k)
    (hdef : loader_activate_layers W gpu ci s ≠ Res.undef) :
    ∃ s', s'.instances = s.instances ∧ s'.objMem = s.objMem ∧
      s'.driverHead = s.driverHead ∧
      (loader_activate_layers W gpu ci s = Res.ok k s' ∨
        (loader_activate_layers W gpu ci s = Res.exit 1 s' ∧
          (s.break_on_error = true ∨ s.break_on_warning = true))) := by
  have hact : loader_layers_activated r.icd r.gpu_index = true := by
    simp only [loader_layers_activated, decide_eq_true_eq]
    omega
  unfold loader_activate_layers at hdef ⊢
  rw [hget] at hdef ⊢
  simp only [hact, if_true] at hdef ⊢
  rcases loader_get_layer_libs_outcome W r.icd r.gpu_index ci s with h | ⟨count, s1, h, hs⟩
  · rw [h] at hdef
    exact absurd rfl hdef
  · rw [h, Res.ok_bind] at hdef ⊢
    cases hd : layers_differ W r.icd r.gpu_index s1 (List.range count) with
    | none =>
        rw [hd] at hdef
        exact absurd rfl hdef
    | some differ =>
        simp only []
        have key : ∀ s2 : LoaderState, s.sameButNames s2 →
            ∃ s', s'.instances = s.instances ∧ s'.objMem = s.objMem ∧
              s'.driverHead = s.driverHead ∧
              ((((if count ≠ r.icd.layer_count r.gpu_index then
                    loader_log XGL_DBG_MSG_TYPE.XGL_DBG_MSG_ERROR
                      "Number of Layers activated != number requested" s2
                  else Res.ok () s2).bind fun _ s3 =>
                  Res.ok (r.icd.layer_count r.gpu_index) s3) = Res.ok k s') ∨
                ((((if count ≠ r.icd.layer_count r.gpu_index then
                    loader_log XGL_DBG_MSG_TYPE.XGL_DBG_MSG_ERROR
                      "Number of Layers activated != number requested" s2
                  else Res.ok () s2).bind fun _ s3 =>
                  Res.ok (r.icd.layer_count r.gpu_index) s3) = Res.exit 1 s') ∧
                  (s.break_on_error = true ∨ s.break_on_warning = true))) := by
          intro s2 hs2
          by_cases hc : count ≠ r.icd.layer_count r.gpu_index
          · rw [if_pos hc]
            rcases loader_log_outcome XGL_DBG_MSG_TYPE.XGL_DBG_MSG_ERROR
              "Number of Layers activated != number requested" s2 with ⟨e, _⟩ | ⟨e, hb⟩
            · have hs3 := LoaderState.sameButNames_emits hs2
                (loader_log_events XGL_DBG_MSG_TYPE.XGL_DBG_MSG_ERROR
                  "Number of Layers activated != number requested" s2)
              obtain ⟨g1, g2, g3, _⟩ := LoaderState.sameButNames_fields hs3
              refine ⟨_, g1, g2, g3, Or.inl ?_⟩
              rw [e, Res.ok_bind, hk]
            · have hs3 := LoaderState.sameButNames_emits hs2
                (loader_log_events XGL_DBG_MSG_TYPE.XGL_DBG_MSG_ERROR
                  "Number of Layers activated != number requested" s2)
              obtain ⟨g1, g2, g3, _⟩ := LoaderState.sameButNames_fields hs3
              refine ⟨_, g1, g2, g3, Or.inr ⟨?_, breaks_error_of_sameButNames hs2 hb⟩⟩
              rw [e]
              rfl
          · rw [if_neg hc]
            obtain ⟨g1, g2, g3, _⟩ := LoaderState.sameButNames_fields hs2
            refine ⟨s2, g1, g2, g3, Or.inl ?_⟩
            rw [Res.ok_bind, hk]
        cases differ with
        | false =>
            simp only [Bool.false_eq_true, if_false, Res.ok_bind]
            exact key s1 hs
        | true =>
            simp only [if_true]
            rcases loader_log_outcome XGL_DBG_MSG_TYPE.XGL_DBG_MSG_ERROR
              "Layers activated != Layers requested" s1 with ⟨e, _⟩ | ⟨e, hb⟩
            · rw [e, Res.ok_bind]
              exact key _ (LoaderState.sameButNames_emits hs _)
            · have hs3 := LoaderState.sameButNames_emits hs
                (loader_log_events XGL_DBG_MSG_TYPE.XGL_DBG_MSG_ERROR
                  "Layers activated != Layers requested" s1)
              obtain ⟨g1, g2, g3, _⟩ := LoaderState.sameButNames_fields hs3
              refine ⟨_, g1, g2, g3, Or.inr ⟨?_, breaks_error_of_sameButNames hs hb⟩⟩
              rw [e]
              rfl

/-- C14, counterexample: the layers `alpha` and `beta` are active on the
device and break-on-error is set; a create-info that names only `alpha`
makes `loader_activate_layers` log that the numbers differ, and the process
exits with status 1 instead of the function returning 2. -/
theorem C14_counterexample_break_on_error :
    (loader_activate_layers World.twoLayers (Ptr.obj 0 0) (layerInfo ["alpha"])
      layeredBreakState).value? = none ∧
    (loader_activate_layers World.twoLayers (Ptr.obj 0 0) (layerInfo ["alpha"])
      layeredBreakState).status? = some 1 ∧
    ((loader_get_icd (Ptr.obj 0 0) layeredBreakState).map fun f =>
      f.map fun r => r.icd.layer_count r.gpu_index) = some (some 2) := by
  refine ⟨by decide, by decide, by decide⟩

/-- C14, witness: the layers `alpha` and `beta` are active on the first device
of `layeredState`, no break flag is set, and the create-info names only
`alpha`. -/
theorem C14_loader_activate_layers_installed_witness :
    (loader_get_icd (Ptr.obj 0 0) layeredState =
        some (some { inst := 0, pos := 0, gpu_index := 0, icd := layeredIcd }) ∧
      layeredIcd.layer_count 0 = 2 ∧ 0 < 2 ∧
      loader_activate_layers World.twoLayers (Ptr.obj 0 0) (layerInfo ["alpha"])
        layeredState ≠ Res.undef) ∧
    ∃ s', s'.instances = layeredState.instances ∧ s'.objMem = layeredState.objMem ∧
      s'.driverHead = layeredState.driverHead ∧
      (loader_activate_layers World.twoLayers (Ptr.obj 0 0) (layerInfo ["alpha"])
          layeredState = Res.ok 2 s' ∨
        (loader_activate_layers World.twoLayers (Ptr.obj 0 0) (layerInfo ["alpha"])
          layeredState = Res.exit 1 s' ∧
          (layeredState.break_on_error = true ∨ layeredState.break_on_warning = true))) :=
  have hdef : loader_activate_layers World.twoLayers (Ptr.obj 0 0) (layerInfo ["alpha"])
      layeredState ≠ Res.undef := fun h =>
    absurd (congrArg Res.value? h) (by decide)
  ⟨⟨rfl, rfl, by decide, hdef⟩,
    C14_loader_activate_layers_installed World.twoLayers (Ptr.obj 0 0) (layerInfo ["alpha"])
      layeredState { inst := 0, pos := 0, gpu_index := 0, icd := layeredIcd } 2 rfl rfl
      (by decide) hdef⟩

/-! ## The names of a create-info -/

theorem find_layer_name_found (W : World) (icd : loader_icd) (gi : Nat) (name : String) :
    ∀ (l : List String) (s : LoaderState) (r : Option String) (s1 : LoaderState),
      find_layer_name W icd gi name l s = Res.ok r s1 →
        s1.layerNames = s.layerNames ∧ s1.scanned_layer_names = s.scanned_layer_names ∧
        ∀ lib, r = some lib → lib ∈ l := by
  intro l
  induction l with
  | nil =>
      intro s r s1 h
      rw [find_layer_name] at h
      simp only [Res.ok.injEq] at h
      rw [← h.1, ← h.2]
      simp
  | cons lib rest ih =>
      intro s r s1 h
      rw [find_layer_name] at h
      dsimp only at h
      have step : ∀ s0 : LoaderState, s0.layerNames = s.layerNames →
          s0.scanned_layer_names = s.scanned_layer_names →
          find_layer_name W icd gi name rest s0 = Res.ok r s1 →
          s1.layerNames = s.layerNames ∧ s1.scanned_layer_names = s.scanned_layer_names ∧
            ∀ lib', r = some lib' → lib' ∈ lib :: rest := by
        intro s0 e1 e2 h0
        obtain ⟨a1, a2, a3⟩ := ih _ _ _ h0
        exact ⟨a1.trans e1, a2.trans e2, fun lib' hl => List.mem_cons_of_mem _ (a3 lib' hl)⟩
      split at h
      · exact step _ (by simp) (by simp) h
      · split at h
        · split at h
          · cases h
          · split at h
            · simp only [Res.ok.injEq] at h
              rw [← h.1, ← h.2]
              simp
            · exact step _ (by simp) (by simp) h
        · split at h
          · simp only [Res.ok.injEq] at h
            rw [← h.1, ← h.2]
            simp
          · split at h
            · cases h
            · exact step _ (by simp) (by simp) h

theorem layer_resolves_not_unknown {W : World} {icd : loader_icd} {gi : Nat}
    {libs : List String} {name : String} (h1 : layer_resolves W icd gi libs name)
    (h2 : layer_unknown W icd gi libs name) : False := by
  obtain ⟨lib, s1, e1⟩ := h1 (LoaderState.init fun _ => Word.magic)
  obtain ⟨s2, e2⟩ := h2 (LoaderState.init fun _ => Word.magic)
  rw [e1] at e2
  simp at e2

theorem loader_get_layer_libs_loop_names (W : World) (icd : loader_icd) (gi : Nat)
    (pCi : XGL_LAYER_CREATE_INFO) (libs : List String)
    (hcls : ∀ name ∈ pCi.ppActiveLayerNames,
      layer_resolves W icd gi libs name ∨ layer_unknown W icd gi libs name) :
    ∀ (m k : Nat) (s : LoaderState), k + m ≤ pCi.ppActiveLayerNames.length →
      k + m ≤ W.MAX_LAYER_LIBRARIES → s.scanned_layer_names = libs →
      ∃ all s', loader_get_layer_libs_loop W icd gi pCi (List.range' k m) s = Res.ok all s' ∧
        (all = true → ∀ j, k ≤ j → j < k + m →
          ∃ name, pCi.ppActiveLayerNames[j]? = some name ∧
            layer_resolves W icd gi libs name ∧
            (s'.layerNames j).layer_name = name ∧ (s'.layerNames j).lib_name ∈ libs) ∧
        (all = false → ∃ name ∈ pCi.ppActiveLayerNames, layer_unknown W icd gi libs name) ∧
        ∀ j, j < k → s'.layerNames j = s.layerNames j := by
  intro m
  induction m with
  | zero =>
      intro k s _ _ _
      refine ⟨true, s, rfl, ?_, ?_, fun _ _ => rfl⟩
      · intro _ j h1 h2
        omega
      · intro h
        cases h
  | succ m ih =>
      intro k s hk hkm hs
      rw [List.range'_succ, loader_get_layer_libs_loop]
      have hlt : k < pCi.ppActiveLayerNames.length := by omega
      have hin : ¬ W.MAX_LAYER_LIBRARIES ≤ k := by omega
      obtain ⟨name, hname⟩ : ∃ name, pCi.ppActiveLayerNames[k]? = some name :=
        ⟨_, List.getElem?_eq_getElem hlt⟩
      have hmem : name ∈ pCi.ppActiveLayerNames := by
        rw [List.getElem?_eq_getElem hlt] at hname
        cases hname
        exact List.getElem_mem hlt
      simp only [hname, hs]
      rcases hcls name hmem with hr | hu
      · obtain ⟨lib, s1, e1⟩ := hr s
        obtain ⟨a1, a2, a3⟩ := find_layer_name_found W icd gi name _ _ _ _ e1
        rw [e1, Res.ok_bind]
        simp only [if_neg hin]
        obtain ⟨all, s', e2, b1, b2, b3⟩ := ih (k + 1)
          (s1.setLayerName k { layer_name := name, lib_name := lib }) (by omega) (by omega)
          (by simp [LoaderState.setLayerName, a2, hs])
        refine ⟨all, s', e2, ?_, b2, ?_⟩
        · intro hall j h1 h2
          by_cases hj : j = k
          · subst hj
            refine ⟨name, hname, hr, ?_, ?_⟩
            · rw [b3 j (by omega)]
              simp [LoaderState.setLayerName]
            · rw [b3 j (by omega)]
              simp only [LoaderState.setLayerName, LoaderState.withLayerNames_fields, if_true]
              exact a3 lib rfl
          · exact b1 hall j (by omega) (by omega)
        · intro j hj
          rw [b3 j (by omega)]
          have hne : j ≠ k := by omega
          simp [LoaderState.setLayerName, hne, a1]
      · obtain ⟨s1, e1⟩ := hu s
        obtain ⟨a1, _, _⟩ := find_layer_name_found W icd gi name _ _ _ _ e1
        rw [e1, Res.ok_bind]
        refine ⟨false, s1, rfl, ?_, fun _ => ⟨name, hmem, hu⟩, ?_⟩
        · intro h
          cases h
        · intro j _
          rw [a1]

/-- The names of a create-info when the environment names no layer, the
first `XGL_LAYER_CREATE_INFO` of the chain holds `layerCount` names, no more
than the array `layerNames` has entries, and each of them either resolves or
is unknown whatever happened before: `loader_get_layer_libs` returns; when
every name resolves it returns their number and the entries of `layerNames`
hold the names in their order, each with a scanned library; when some name
is unknown it returns 0. -/
theorem loader_get_layer_libs_names (W : World) (icd : loader_icd) (gi : Nat)
    (ci : XGL_DEVICE_CREATE_INFO) (pCi : XGL_LAYER_CREATE_INFO) (s : LoaderState)
    (henv : W.getenv W.LAYER_NAMES_ENV = none)
    (hci : ci.pNext.find? (fun l => l.sType == W.XGL_STRUCTURE_TYPE_LAYER_CREATE_INFO) =
      some pCi)
    (hcount : pCi.layerCount = pCi.ppActiveLayerNames.length)
    (hlt : pCi.layerCount < 4294967296)
    (hroom : pCi.layerCount ≤ W.MAX_LAYER_LIBRARIES)
    (hcls : ∀ name ∈ pCi.ppActiveLayerNames,
      layer_resolves W icd gi s.scanned_layer_names name ∨
        layer_unknown W icd gi s.scanned_layer_names name) :
    ∃ n s', loader_get_layer_libs W icd gi ci s = Res.ok n s' ∧
      ((∀ name ∈ pCi.ppActiveLayerNames,
          layer_resolves W icd gi s.scanned_layer_names name) →
        n = pCi.ppActiveLayerNames.length ∧
        ∀ j, j < pCi.ppActiveLayerNames.length →
          pCi.ppActiveLayerNames[j]? = some (s'.layerNames j).layer_name ∧
          (s'.layerNames j).lib_name ∈ s.scanned_layer_names) ∧
      ((∃ name ∈ pCi.ppActiveLayerNames,
          layer_unknown W icd gi s.scanned_layer_names name) → n = 0) := by
  have henv0 : ∀ s0 : LoaderState, loader_get_layer_env W icd gi s0 = Res.ok 0 s0 := by
    intro s0
    simp [loader_get_layer_env, henv]
  have hu : u32add 0 pCi.layerCount - 0 = pCi.ppActiveLayerNames.length := by
    rw [← hcount]
    unfold u32add
    omega
  obtain ⟨all, s', e, b1, b2, _⟩ := loader_get_layer_libs_loop_names W icd gi pCi
    s.scanned_layer_names hcls pCi.ppActiveLayerNames.length 0 s (by omega) (by omega) rfl
  unfold loader_get_layer_libs
  rw [henv0 s, Res.ok_bind]
  simp only [hci, hu]
  rw [e, Res.ok_bind]
  cases all with
  | true =>
      simp only [if_true]
      rw [henv0 s', Res.ok_bind]
      refine ⟨_, s', rfl, ?_, ?_⟩
      · intro _
        refine ⟨?_, ?_⟩
        · rw [← hcount]
          unfold u32add
          omega
        · intro j hj
          obtain ⟨name, c1, _, c3, c4⟩ := b1 rfl j (by omega) (by omega)
          rw [c3]
          exact ⟨c1, c4⟩
      · rintro ⟨name, hmem, hunk⟩
        exfalso
        obtain ⟨j, hj, hjn⟩ := List.getElem_of_mem hmem
        obtain ⟨name', c1, c2, _, _⟩ := b1 rfl j (by omega) (by omega)
        rw [List.getElem?_eq_getElem hj, hjn] at c1
        cases c1
        exact layer_resolves_not_unknown c2 hunk
  | false =>
      simp only [Bool.false_eq_true, if_false]
      rw [henv0 s']
      refine ⟨0, s', rfl, ?_, fun _ => rfl⟩
      intro hall
      exfalso
      obtain ⟨name, hmem, hunk⟩ := b2 rfl
      exact layer_resolves_not_unknown (hall name hmem) hunk

/-- C16, the defect at work: no layer is named in the environment, `alpha` is
a layer of the scanned library `liba` and no scanned library has a layer
`gamma`. For the names `alpha`, `gamma` of a create-info
`loader_get_layer_libs` returns 0: the list it hands back is empty, `alpha`
is dropped together with `gamma`. For the same two names in the environment
variable the sibling `loader_get_layer_env` returns 1 and the list holds
`alpha` with its library: it skips the unknown name only. -/
theorem C16_loader_get_layer_libs_drops_known :
    (find_layer_name World.twoLayers (oneDeviceIcd 60 1 0) 0 "alpha" ["liba", "libb"]
      layerState).value? = some (some "liba") ∧
    (find_layer_name World.twoLayers (oneDeviceIcd 60 1 0) 0 "gamma" ["liba", "libb"]
      layerState).value? = some none ∧
    (loader_get_layer_libs World.twoLayers (oneDeviceIcd 60 1 0) 0
      (layerInfo ["alpha", "gamma"]) layerState).value? = some 0 ∧
    (loader_get_layer_env World.envAlphaGamma (oneDeviceIcd 60 1 0) 0 layerState).value? =
      some 1 ∧
    ((loader_get_layer_env World.envAlphaGamma (oneDeviceIcd 60 1 0) 0 layerState).state?.map
      fun s' => s'.layerNames 0) = some { layer_name := "alpha", lib_name := "liba" } := by
  refine ⟨by decide, by decide, by decide, by decide, by decide⟩

/-! ## `loader_init_layer_libs` -/

/-- C21, the defect at work: no layer is installed on slot 0 and two layers
are requested, `alpha`, whose library does not open, and `beta`, whose
library opens with handle 22. After `loader_init_layer_libs` the count of
slot 0 is 1, but entry 0 of `layer_libs[0]` is `alpha` with a null handle and
the library that opened is entry 1, behind the count. When the same happens
inside `loader_activate_layers`, the function returns 1 and goes on with
entry 0: it looks for the `GetProcAddr` of `alpha` in the null handle, and
the device still points at the driver. -/
theorem C21_loader_init_layer_libs_index :
    (oneDeviceIcd 60 1 0).layer_count 0 = 0 ∧
    ((loader_init_layer_libs World.twoLayers 0 0 0 [0, 1] (oneDeviceIcd 60 1 0)
      requestedState).value?.map fun icd =>
        (icd.layer_count 0, icd.layer_libs 0 0, icd.layer_libs 0 1)) =
      some (1, { lib_handle := 0, name := "alpha" }, { lib_handle := 22, name := "beta" }) ∧
    (loader_activate_layers World.openOnce (Ptr.obj 0 0) (layerInfo ["alpha", "beta"])
      layerState).value? = some 1 ∧
    ((loader_activate_layers World.openOnce (Ptr.obj 0 0) (layerInfo ["alpha", "beta"])
      layerState).state?.map fun s' =>
        ((s'.icdAt 0 0).map fun icd => (icd.layer_libs 0 0, icd.layer_libs 0 1),
          (s'.obj (Ptr.obj 0 0)).map fun o => o.nextObject)) =
      some (some ({ lib_handle := 0, name := "alpha" }, { lib_handle := 22, name := "beta" }),
        some (Ptr.driver 1000)) := by
  refine ⟨by decide, by decide, by decide, by decide⟩

/-! ## `loader_icd_register_msg_callbacks` -/

/-- C22, the defect at work: the ICD at address 60 has two devices, the
callbacks of the functions 7 and 9 are pending, and the driver rejects the
registration of function 9. `loader_icd_register_msg_callbacks` registers 7
on both slots, is refused 9 on slot 0, and returns success, whatever the
indeterminate value of `res`; it calls no `DbgUnregisterMsgCallback`, so
function 7 stays registered on both slots. -/
theorem C22_loader_icd_register_msg_callbacks_success (res0 : XGL_RESULT) :
    (loader_icd_register_msg_callbacks World.rejectsNine (twoDeviceIcd 60 1 0) res0
      callbackState).value? = some XGL_RESULT.XGL_SUCCESS ∧
    ((loader_icd_register_msg_callbacks World.rejectsNine (twoDeviceIcd 60 1 0) res0
      callbackState).state?.map fun s' => s'.trace) =
      some [Event.DbgRegisterMsgCallback 60 0 (FnPtr.sym 102) 7 8 XGL_RESULT.XGL_SUCCESS,
            Event.DbgRegisterMsgCallback 60 1 (FnPtr.sym 102) 7 8 XGL_RESULT.XGL_SUCCESS,
            Event.DbgRegisterMsgCallback 60 0 (FnPtr.sym 102) 9 10 (XGL_RESULT.other 6)] :=
  ⟨rfl, rfl⟩

/-! ## `loader_log` -/

theorem logCalls_loader_log_callbacks (t : XGL_DBG_MSG_TYPE) (m : String)
    (cbs : List loader_msg_callback) :
    logCalls (loader_log_callbacks t m cbs) = cbs.map fun cb => (cb.func, cb.data, t, m) := by
  induction cbs with
  | nil => rfl
  | cons cb rest ih => simp [loader_log_callbacks, logCalls, ih]

theorem logCalls_loader_log_events (t : XGL_DBG_MSG_TYPE) (m : String) (s : LoaderState) :
    logCalls (loader_log_events t m s) = s.msg_callbacks.map fun cb => (cb.func, cb.data, t, m) := by
  unfold loader_log_events
  split
  · simp only [List.singleton_append, logCalls]
    exact logCalls_loader_log_callbacks t m s.msg_callbacks
  · simp only [List.nil_append]
    exact logCalls_loader_log_callbacks t m s.msg_callbacks

/-- C23: `loader_log` ends the process, with status 1, exactly when the level
is error and break-on-error or break-on-warning is set, or the level is
warning and break-on-warning is set, and it returns exactly in every other
case; either way, all it has changed before is the trace, to which it has
added the call of every registered callback, once each and in list order.
In particular an error ends the process when only break-on-warning is set,
and a warning does not when only break-on-error is set. -/
theorem C23_loader_log_exit (msg_type : XGL_DBG_MSG_TYPE) (msg : String) (s : LoaderState) :
    ((∃ s', loader_log msg_type msg s = Res.exit 1 s') ↔
      (msg_type = XGL_DBG_MSG_TYPE.XGL_DBG_MSG_ERROR ∧
          (s.break_on_error = true ∨ s.break_on_warning = true)) ∨
        (msg_type = XGL_DBG_MSG_TYPE.XGL_DBG_MSG_WARNING ∧ s.break_on_warning = true)) ∧
    ((∃ s', loader_log msg_type msg s = Res.ok () s') ↔
      ¬ ((msg_type = XGL_DBG_MSG_TYPE.XGL_DBG_MSG_ERROR ∧
          (s.break_on_error = true ∨ s.break_on_warning = true)) ∨
        (msg_type = XGL_DBG_MSG_TYPE.XGL_DBG_MSG_WARNING ∧ s.break_on_warning = true))) ∧
    (∃ evs, (loader_log msg_type msg s).state? = some (s.emits evs) ∧
      logCalls evs = s.msg_callbacks.map fun cb => (cb.func, cb.data, msg_type, msg)) ∧
    (s.break_on_error = false → s.break_on_warning = true →
      (loader_log XGL_DBG_MSG_TYPE.XGL_DBG_MSG_ERROR msg s).status? = some 1) ∧
    (s.break_on_error = true → s.break_on_warning = false →
      (loader_log XGL_DBG_MSG_TYPE.XGL_DBG_MSG_WARNING msg s).value? = some ()) := by
  have hb : loader_log_breaks msg_type s = true ↔
      (msg_type = XGL_DBG_MSG_TYPE.XGL_DBG_MSG_ERROR ∧
          (s.break_on_error = true ∨ s.break_on_warning = true)) ∨
        (msg_type = XGL_DBG_MSG_TYPE.XGL_DBG_MSG_WARNING ∧ s.break_on_warning = true) := by
    cases msg_type <;> simp [loader_log_breaks]
  refine ⟨?_, ?_, ?_, ?_, ?_⟩
  · rw [← hb]
    unfold loader_log
    by_cases h : loader_log_breaks msg_type s = true
    · simp [h]
    · simp [h]
  · rw [← hb]
    unfold loader_log
    by_cases h : loader_log_breaks msg_type s = true
    · simp [h]
    · simp [h]
  · refine ⟨loader_log_events msg_type msg s, ?_, logCalls_loader_log_events msg_type msg s⟩
    unfold loader_log
    split <;> rfl
  · intro h1 h2
    simp [loader_log, loader_log_breaks, h1, h2, Res.status?]
  · intro h1 h2
    simp [loader_log, loader_log_breaks, h1, h2, Res.value?]

/-- C23, witness: two callbacks are registered; with only break-on-warning
set an error ends the process, with only break-on-error set a warning
returns after both callbacks have been called. -/
theorem C23_loader_log_exit_witness :
    (warningBreakState.break_on_error = false ∧ warningBreakState.break_on_warning = true ∧
      (loader_log XGL_DBG_MSG_TYPE.XGL_DBG_MSG_ERROR "text" warningBreakState).status? =
        some 1) ∧
    (errorBreakState.break_on_error = true ∧ errorBreakState.break_on_warning = false ∧
      (loader_log XGL_DBG_MSG_TYPE.XGL_DBG_MSG_WARNING "text" errorBreakState).value? =
        some ()) ∧
    ((loader_log XGL_DBG_MSG_TYPE.XGL_DBG_MSG_WARNING "text" errorBreakState).state?.map
      fun s' => logCalls s'.trace) =
      some [(7, 8, XGL_DBG_MSG_TYPE.XGL_DBG_MSG_WARNING, "text"),
        (9, 10, XGL_DBG_MSG_TYPE.XGL_DBG_MSG_WARNING, "text")] :=
  ⟨⟨rfl, rfl,
      (C23_loader_log_exit XGL_DBG_MSG_TYPE.XGL_DBG_MSG_ERROR "text" warningBreakState).2.2.2.1
        rfl rfl⟩,
    ⟨rfl, rfl,
      (C23_loader_log_exit XGL_DBG_MSG_TYPE.XGL_DBG_MSG_WARNING "text" errorBreakState).2.2.2.2
        rfl rfl⟩,
    by decide⟩

end Loader
